import Mathlib

/-!
# Verification of the Ductulator numeric solving engine

Shallow embedding of `src/components/ductulator/Ductulator.tsx`: the physical
property functions, the duct-performance evaluator (`calcRectNums`), the two
bisection solvers (`solveMissingDimension`, `solveMaxFlow`), the coordinate
descent "magic" solver, and the mode dispatcher (`runSolverWithValues`).

Numbers are modelled over `ℝ`.  The source runs on IEEE doubles and uses the
sentinels `Infinity` and `NaN` in a few places (`dp_per_m`, the Haaland
friction factor, and the magic-solver residuals); for those values we use the
explicit type `Flt` below, which mirrors exactly the JavaScript comparisons
the source performs on them (`NaN` compares false, `Infinity` is above every
finite value).  `safeNum` in the source is the identity on finite numbers, so
it disappears in this model where every `ℝ` input is finite.
-/

open Real

noncomputable section

namespace Ductulator

open scoped Classical

/-- A JavaScript number as observed by this program: either a finite value,
`Infinity`, or `NaN`.  (`-Infinity` never arises in the embedded fragment:
the only non-finite producers are `dp_per_m = Infinity` for degenerate
geometry, `NaN` from the friction factor, and their propagation through
products/sums of squares, all of which stay in `{finite ≥ 0, +∞, NaN}`.) -/
inductive Flt where
  | fin (x : ℝ)
  | inf
  | nan

namespace Flt

/-- JavaScript `<` on these values: `NaN` compares false with everything,
`Infinity` is strictly above every finite value and not below itself. -/
def lt : Flt → Flt → Prop
  | fin a, fin b => a < b
  | fin _, inf => True
  | _, _ => False

/-- JavaScript `<=` restricted to the values we compare (used only in
specification statements, not in the embedded code). -/
def le : Flt → Flt → Prop
  | fin a, fin b => a ≤ b
  | fin _, inf => True
  | inf, inf => True
  | _, _ => False

/-- `Number.isFinite`. -/
def isFinite : Flt → Bool
  | fin _ => true
  | _ => false

/-- Multiplication by a (finite) real factor, as the source uses it in
`dp_per_m = f * (rho * V * V) / (2 * Dh)`: the factor there is
`rho * V * V / (2 * Dh)`.  For `f = Infinity` JavaScript yields `Infinity`
when the factor is positive and `NaN` when it is zero; a negative factor
(JS `-Infinity`) cannot arise for the reachable states, and we map it to
`nan` as well. -/
def mulPos : Flt → ℝ → Flt
  | fin x, c => fin (x * c)
  | inf, c => if 0 < c then inf else nan
  | nan, _ => nan

/-- The normalized residual `(v - t) / m` of the magic solver for a value
that may be `Infinity`/`NaN` (the `dp` residual).  The divisor
`m = max target 1e-6` is always positive, so `Infinity` stays `Infinity`. -/
def resid : Flt → ℝ → ℝ → Flt
  | fin x, t, m => fin ((x - t) / m)
  | inf, _, _ => inf
  | nan, _, _ => nan

/-- JavaScript squaring `r * r` (`Infinity * Infinity = Infinity`,
`NaN * NaN = NaN`). -/
def sq : Flt → Flt
  | fin x => fin (x ^ 2)
  | inf => inf
  | nan => nan

/-- JavaScript addition as used to sum the squared residuals. -/
def add : Flt → Flt → Flt
  | fin a, fin b => fin (a + b)
  | nan, _ => nan
  | _, nan => nan
  | inf, _ => inf
  | _, inf => inf

/-- Division by the (positive) residual count. -/
def divNat : Flt → ℕ → Flt
  | fin x, n => fin (x / n)
  | inf, _ => inf
  | nan, _ => nan

/-- `Math.sqrt` (`NaN` on negative input, `Infinity` on `Infinity`). -/
def sqrtF : Flt → Flt
  | fin x => if x < 0 then nan else fin (Real.sqrt x)
  | inf => inf
  | nan => nan

end Flt

/-- Sum of a list of JS numbers (the `reduce((a, b) => a + b, 0)` of the
source; the initial `0` makes the empty sum `0`). -/
def sumFlt (l : List Flt) : Flt := l.foldr Flt.add (Flt.fin 0)

/-! ## Units & physics helpers -/

def mmToM (mm : ℝ) : ℝ := mm / 1000

def mToMm (m : ℝ) : ℝ := m * 1000

def lsToM3s (ls : ℝ) : ℝ := ls * 0.001

def m3hToM3s (m3h : ℝ) : ℝ := m3h / 3600

/-- Magnus (Tetens-like) approximation of the saturation vapor pressure. -/
def saturationVaporPressurePa (Tc : ℝ) : ℝ :=
  610.94 * Real.exp ((17.625 * Tc) / (243.04 + Tc))

/-- Moist air density from total pressure, temperature (°C) and relative
humidity (%): ideal-gas partial pressures of vapor and dry air, the latter
clamped at `0`. -/
def moistAirDensity (pressurePa Tc RHpercent : ℝ) : ℝ :=
  let T := Tc + 273.15
  let Rd := 287.058
  let Rv := 461.495
  let es := saturationVaporPressurePa Tc
  let pv := (RHpercent / 100) * es
  let pd := max (pressurePa - pv) 0
  pd / (Rd * T) + pv / (Rv * T)

/-- Sutherland's law for the dynamic viscosity of air. -/
def dynamicViscosityAir (Tc : ℝ) : ℝ :=
  let T := Tc + 273.15
  let mu0 := 1.716e-5
  let T0 := 273.15
  let S := 110.4
  mu0 * (T / T0) ^ (1.5 : ℝ) * ((T0 + S) / (T + S))

/-- Darcy friction factor: `NaN` for `Re ≤ 0` (the `!Number.isFinite(Re)`
guard of the source is vacuous over `ℝ`), `64/Re` laminar below 2300, the
Haaland correlation otherwise.  When the Haaland argument `A` equals `1`
the source divides by `0` and JavaScript yields `Infinity`. -/
def haalandFrictionFactor (Re eps_over_D : ℝ) : Flt :=
  if Re ≤ 0 then Flt.nan
  else if Re < 2300 then Flt.fin (64.0 / Re)
  else
    let A := (eps_over_D / 3.7) ^ (1.11 : ℝ) + 6.9 / Re
    let d := (-1.8 * Real.logb 10 A) ^ 2
    if d = 0 then Flt.inf else Flt.fin (1.0 / d)

def rectArea_m2_from_mm (w_mm h_mm : ℝ) : ℝ :=
  max 0 ((w_mm / 1000) * (h_mm / 1000))

def rectPerimeter_m_from_mm (w_mm h_mm : ℝ) : ℝ :=
  2 * (w_mm / 1000 + h_mm / 1000)

/-- The material table `ROUGHNESS`; `unknown` stands for any string not in
the table, which falls back to the galvanised-steel roughness via `?? 0.00015`. -/
inductive Material where
  | galvanisedSteel
  | mildSteel
  | aluminium
  | pvc
  | unknown

def roughness : Material → ℝ
  | .galvanisedSteel => 0.00015
  | .mildSteel => 0.000045
  | .aluminium => 0.0000018
  | .pvc => 5e-7
  | .unknown => 0.00015

/-! ## Performance evaluator -/

/-- Output record of `calcRectNums`. -/
structure CalcOut where
  A : ℝ
  Dh : ℝ
  V : ℝ
  Re : ℝ
  f : Flt
  dp_per_m : Flt
  rho : ℝ
  mu : ℝ
  velocityPressure : ℝ
  eqDiameter : ℝ

/-- The core rectangular duct evaluation (`calcRectNums` in the source):
dimensions in mm, flow in m³/s, temperature in °C, relative humidity in %.
`dp_per_m` is `Infinity` for degenerate (zero-area) geometry. -/
def calcRectNums (w_mm h_mm Q_m3s T RH : ℝ) (mat : Material) : CalcOut :=
  let p_atm : ℝ := 101325
  let rho := moistAirDensity p_atm T RH
  let mu := dynamicViscosityAir T
  let A := rectArea_m2_from_mm w_mm h_mm
  let P := rectPerimeter_m_from_mm w_mm h_mm
  let Dh := if A > 0 then 4 * A / P else 0
  let V := if A > 0 then Q_m3s / A else 0
  let Re := rho * |V| * Dh / mu
  let eps := roughness mat
  let f := haalandFrictionFactor Re (eps / max Dh 1e-9)
  let dp := if Dh > 0 then f.mulPos (rho * V * V / (2 * Dh)) else Flt.inf
  { A := A, Dh := Dh, V := V, Re := Re, f := f, dp_per_m := dp, rho := rho,
    mu := mu, velocityPressure := 0.5 * rho * V * V, eqDiameter := Dh }

/-! ## MissingDimensionSolver (bisection) -/

/-- One run of the 60-iteration bisection of `solveMissingDimension`,
with explicit fuel.  `best` is the last finite evaluation `(mid, dp)`;
a non-finite `dp` aborts the loop keeping the current `best`; meeting the
relative tolerance returns immediately after recording the evaluation. -/
def mdLoop (fixedIsWidth : Bool) (fixed_m Q_m3s target T RH : ℝ) (mat : Material) :
    ℕ → ℝ → ℝ → Option (ℝ × ℝ) → Option (ℝ × ℝ)
  | 0, _, _, best => best
  | n + 1, lo, hi, best =>
    let mid := 0.5 * (lo + hi)
    let w := if fixedIsWidth then fixed_m else mid
    let h := if fixedIsWidth then mid else fixed_m
    let c := calcRectNums (mToMm w) (mToMm h) Q_m3s T RH mat
    match c.dp_per_m with
    | .fin dp =>
      let lo' := if dp > target then mid else lo
      let hi' := if dp > target then hi else mid
      if |dp - target| / max target 1e-6 < 1e-4 then some (mid, dp)
      else mdLoop fixedIsWidth fixed_m Q_m3s target T RH mat n lo' hi' (some (mid, dp))
    | _ => best

/-- `solveMissingDimension`: given one fixed dimension (in mm), a flow and a
target pressure drop, bisect the other dimension over `[1e-4 m, 5 m]`.
Returns `(displayValueMm, dp)` or `none`. -/
def solveMissingDimension (fixedIsWidth : Bool)
    (fixedValueDisplay Q_m3s targetDpPaPerM T RH : ℝ) (mat : Material) :
    Option (ℝ × ℝ) :=
  let fixed_m := mmToM fixedValueDisplay
  let target := targetDpPaPerM
  if fixed_m ≤ 0 ∨ Q_m3s ≤ 0 ∨ target ≤ 0 then none
  else
    (mdLoop fixedIsWidth fixed_m Q_m3s target T RH mat 60 1e-4 5.0 none).map
      fun b => (mToMm b.1, b.2)

/-! ## MaxFlowSolver (bisection) -/

/-- One run of the 80-iteration bisection of `solveMaxFlow` with explicit
fuel; `bestQ` is the best feasible flow seen so far (`dp ≤ target`). -/
def mfLoop (w_m h_m target T RH : ℝ) (mat : Material) :
    ℕ → ℝ → ℝ → ℝ → ℝ
  | 0, _, _, bestQ => bestQ
  | n + 1, lo, hi, bestQ =>
    let mid := 0.5 * (lo + hi)
    let c := calcRectNums (mToMm w_m) (mToMm h_m) mid T RH mat
    match c.dp_per_m with
    | .fin dp =>
      let lo' := if dp > target then lo else mid
      let hi' := if dp > target then mid else hi
      let bQ' := if dp > target then bestQ else mid
      if |dp - target| / max target 1e-6 < 1e-4 then bQ'
      else mfLoop w_m h_m target T RH mat n lo' hi' bQ'
    | _ => bestQ

/-- `solveMaxFlow`: given both dimensions (mm) and a target pressure drop,
find the maximum feasible flow over `[1e-6, 10] m³/s`.  Returns `none`
(JS `null`) if a precondition fails, otherwise the tracked best flow
(`0` when no feasible flow was recorded). -/
def solveMaxFlow (w_mm h_mm targetDpPaPerM T RH : ℝ) (mat : Material) :
    Option ℝ :=
  let w := mmToM w_mm
  let h := mmToM h_mm
  let target := targetDpPaPerM
  if w ≤ 0 ∨ h ≤ 0 ∨ target ≤ 0 then none
  else some (mfLoop w h target T RH mat 80 1e-6 10 0)

/-! ## Magic solver (coordinate descent) -/

/-- The five lock flags of magic mode. -/
structure Locks where
  flow : Bool
  width : Bool
  height : Bool
  velocity : Bool
  dp : Bool

/-- `Object.values(locked).filter(Boolean).length`. -/
def lockedCount (l : Locks) : ℕ :=
  (if l.flow then 1 else 0) + (if l.width then 1 else 0) +
    (if l.height then 1 else 0) + (if l.velocity then 1 else 0) +
    (if l.dp then 1 else 0)

/-- The locked target values (flow in m³/s, width/height in mm). -/
structure Targets where
  flow : ℝ
  width : ℝ
  height : ℝ
  velocity : ℝ
  dp : ℝ

/-- The free-variable state of the coordinate descent (flow in m³/s,
width/height in mm, matching the source's `state` object). -/
structure MState where
  flow : ℝ
  width : ℝ
  height : ℝ

/-- The three searched variables. -/
inductive MVar where
  | flow
  | width
  | height

def MState.get (s : MState) : MVar → ℝ
  | .flow => s.flow
  | .width => s.width
  | .height => s.height

def MState.set (s : MState) : MVar → ℝ → MState
  | .flow, v => { s with flow := v }
  | .width, v => { s with width := v }
  | .height, v => { s with height := v }

/-- `stepFactors = { flow: 1.1, width: 1.05, height: 1.05 }`. -/
def stepFactor : MVar → ℝ
  | .flow => 1.1
  | _ => 1.05

def Locks.of (l : Locks) : MVar → Bool
  | .flow => l.flow
  | .width => l.width
  | .height => l.height

/-- The floors applied to every trial state:
`width, height ≥ 10 mm`, `flow ≥ 1e-6 m³/s`. -/
def applyFloors (s : MState) : MState :=
  { flow := max s.flow 1e-6, width := max s.width 10, height := max s.height 10 }

/-- Everything the magic solver's `residuals` closure captures. -/
structure MagicCfg where
  locked : Locks
  targets : Targets
  T : ℝ
  RH : ℝ
  mat : Material

/-- The list of active normalized residuals of a state (one entry per locked
constraint, in the source's insertion order flow, width, height, velocity,
dp).  Only the `dp` residual can be non-finite. -/
def residList (cfg : MagicCfg) (s : MState) : List Flt :=
  let c := calcRectNums s.width s.height s.flow cfg.T cfg.RH cfg.mat
  (if cfg.locked.flow then
    [Flt.fin ((s.flow - cfg.targets.flow) / max cfg.targets.flow 1e-6)] else [])
  ++ (if cfg.locked.width then
    [Flt.fin ((s.width - cfg.targets.width) / max cfg.targets.width 1e-6)] else [])
  ++ (if cfg.locked.height then
    [Flt.fin ((s.height - cfg.targets.height) / max cfg.targets.height 1e-6)] else [])
  ++ (if cfg.locked.velocity then
    [Flt.fin ((c.V - cfg.targets.velocity) / max cfg.targets.velocity 1e-6)] else [])
  ++ (if cfg.locked.dp then
    [Flt.resid c.dp_per_m cfg.targets.dp (max cfg.targets.dp 1e-6)] else [])

/-- The RMS of the active residuals (`0` when nothing is locked, as in the
source's `keys.length ? … : 0`). -/
def rmsOf (cfg : MagicCfg) (s : MState) : Flt :=
  let res := residList cfg s
  if res.length = 0 then Flt.fin 0
  else Flt.sqrtF ((sumFlt (res.map Flt.sq)).divNat res.length)

/-- One per-variable step of the coordinate descent: skip locked variables,
otherwise try the two multiplicative perturbations (÷factor first, then
×factor, as in `[1 / stepFactors[v], stepFactors[v]]`), flooring every trial
state, and keep the trial value whose RMS wins the JavaScript
`rms < bestLocal.rms` comparisons starting from `bestLocal.rms = Infinity`. -/
def updateVar (cfg : MagicCfg) (s : MState) (v : MVar) : MState :=
  if cfg.locked.of v then s
  else
    let k := stepFactor v
    let t1 := applyFloors (s.set v (s.get v * (1 / k)))
    let r1 := rmsOf cfg t1
    let t2 := applyFloors (s.set v (s.get v * k))
    let r2 := rmsOf cfg t2
    let b1 : ℝ × Flt := if Flt.lt r1 Flt.inf then (t1.get v, r1) else (s.get v, Flt.inf)
    let b2 : ℝ × Flt := if Flt.lt r2 b1.2 then (t2.get v, r2) else b1
    s.set v b2.1

/-- One outer round: update flow, then width, then height (each reading the
state already updated by the previous variable, as in the source). -/
def magicRound (cfg : MagicCfg) (s : MState) : MState :=
  updateVar cfg (updateVar cfg (updateVar cfg s .flow) .width) .height

/-- The 200-round outer loop with explicit fuel.  After each round the best
`(state, rms)` seen so far is updated (`!best || cur.rms < best.rms`), and
the loop stops early once `best.rms < 1e-4`. -/
def magicLoop (cfg : MagicCfg) : ℕ → MState → Option (MState × Flt) → Option (MState × Flt)
  | 0, _, best => best
  | n + 1, s, best =>
    let s' := magicRound cfg s
    let cur := rmsOf cfg s'
    let b' : MState × Flt :=
      match best with
      | none => (s', cur)
      | some b => if Flt.lt cur b.2 then (s', cur) else b
    if Flt.lt b'.2 (Flt.fin 1e-4) then some b' else magicLoop cfg n s' (some b')

/-! ## Mode dispatcher -/

inductive Mode where
  | pressureDrop
  | fixedDim
  | maxFlow
  | magic

inductive FlowUnit where
  | ls
  | m3s
  | m3h

/-- Flow input conversion to m³/s. -/
def flowInputToM3s (val : ℝ) : FlowUnit → ℝ
  | .ls => lsToM3s val
  | .m3h => m3hToM3s val
  | .m3s => val

/-- The `suggestion` strings of the under-constrained magic warning. -/
inductive Suggestion where
  | enterWidth
  | enterHeight
  | enterFlowOrVelocity
  | generic

/-- The advisory warning strings the dispatcher can emit. -/
inductive Warning where
  | velocityHigh
  | maxFlowBothInputs
  | tooManyLocked
  | notEnough (s : Suggestion)
  | magicFailed

/-- The priority chain choosing the under-constrained suggestion
(width, then height, then flow-or-velocity, else generic). -/
def suggest (l : Locks) : Suggestion :=
  if !l.width then .enterWidth
  else if !l.height then .enterHeight
  else if !l.flow && !l.velocity then .enterFlowOrVelocity
  else .generic

/-- The result record passed to `setResults`, one constructor per mode.
In max-flow/pressure-drop mode the fields follow the source's result
objects; `maxFlowDp` stores the possibly-`null` `maxFlow_m3s`. -/
inductive ResRecord where
  | pressureDrop (width_mm height_mm flow_m3s eqDiameter_m averageVelocity
      effectiveVelocity : ℝ) (dp_per_m : Flt) (velocityPressure : ℝ)
  | fixedDim (width_mm height_mm flow_m3s : ℝ) (dp_per_m : Flt)
  | maxFlowV (width_mm height_mm maxFlow_m3s velocity : ℝ) (dp_per_m : Flt)
  | maxFlowDp (width_mm height_mm : ℝ) (maxFlow_m3s : Option ℝ)
      (velocity dp_target : ℝ)
  | magic (width_mm height_mm flow_m3s velocity : ℝ) (dp_per_m : Flt)

/-- What one call of `runSolverWithValues` observably does: the record given
to `setResults` (`none` when no solve was performed) and the warnings. -/
structure SolveOut where
  results : Option ResRecord
  warnings : List Warning

/-- The inputs of one solve call.  `flowInputState` is the component-state
`flowInput` value that the magic branch reads directly (line 509 of the
source reads the pre-`setFlowInput` state, not the value passed in). -/
structure Inputs where
  mode : Mode
  w_mm : ℝ
  h_mm : ℝ
  flowInputVal : ℝ
  velocityVal : ℝ
  targetDpVal : ℝ
  flowUnit : FlowUnit
  temperature : ℝ
  rh : ℝ
  material : Material
  magicLocks : Locks
  flowInputState : ℝ

/-- The locked target values read by the magic branch: note that the flow
target comes from the (stale) component state `flowInput`, not from the value
passed into the solve call. -/
def magicTargets (inp : Inputs) : Targets :=
  { flow := flowInputToM3s inp.flowInputState inp.flowUnit,
    width := inp.w_mm, height := inp.h_mm,
    velocity := inp.velocityVal, dp := inp.targetDpVal }

/-- The full configuration captured by the magic solver's closures. -/
def magicCfgOf (inp : Inputs) : MagicCfg :=
  { locked := inp.magicLocks, targets := magicTargets inp,
    T := inp.temperature, RH := inp.rh, mat := inp.material }

/-- The initial descent state (`targets.x || default` in the source: the
default applies exactly when the target value is `0`). -/
def magicInit (inp : Inputs) : MState :=
  { flow := if (magicTargets inp).flow = 0 then 0.1 else (magicTargets inp).flow,
    width := if (magicTargets inp).width = 0 then 200 else (magicTargets inp).width,
    height := if (magicTargets inp).height = 0 then 200 else (magicTargets inp).height }

/-- The magic-mode branch of the dispatcher. -/
def magicSolve (inp : Inputs) : SolveOut :=
  let locked := inp.magicLocks
  if 4 ≤ lockedCount locked then
    { results := none, warnings := [.tooManyLocked] }
  else if lockedCount locked < 2 then
    { results := none, warnings := [.notEnough (suggest locked)] }
  else
    match magicLoop (magicCfgOf inp) 200 (magicInit inp) none with
    | some b =>
      let c := calcRectNums b.1.width b.1.height b.1.flow inp.temperature inp.rh
        inp.material
      { results := some (.magic b.1.width b.1.height b.1.flow c.V c.dp_per_m),
        warnings := [] }
    | none => { results := none, warnings := [.magicFailed] }

/-- The dispatcher `runSolverWithValues`.  The JavaScript truthiness tests
`!h_mm || h_mm <= 0` coincide with `h_mm ≤ 0` over finite numbers, and
`if (pick)` keeps the old dimension exactly when the picked candidate is `0`. -/
def runSolverWithValues (inp : Inputs) : SolveOut :=
  let Tn := inp.temperature
  let RHn := inp.rh
  let Q := flowInputToM3s inp.flowInputVal inp.flowUnit
  match inp.mode with
  | .pressureDrop =>
    let c := calcRectNums inp.w_mm inp.h_mm Q Tn RHn inp.material
    { results := some (.pressureDrop inp.w_mm inp.h_mm Q c.eqDiameter c.V c.V
        c.dp_per_m c.velocityPressure),
      warnings := if c.V > 15 then [.velocityHigh] else [] }
  | .fixedDim =>
    let needDp := inp.targetDpVal
    let needV := inp.velocityVal
    let Qv := if Q > 0 then Q
      else if needV > 0 then needV * rectArea_m2_from_mm inp.w_mm inp.h_mm else 0
    let wh : ℝ × ℝ :=
      if inp.w_mm > 0 ∧ inp.h_mm ≤ 0 then
        let hFromV : Option ℝ :=
          if needV > 0 ∧ Qv > 0 then some (mToMm ((Qv / needV) / mmToM inp.w_mm))
          else none
        let hFromDp : Option ℝ :=
          if needDp > 0 ∧ Qv > 0 then
            (solveMissingDimension true inp.w_mm Qv needDp Tn RHn inp.material).map
              Prod.fst
          else none
        let pick : Option ℝ :=
          match hFromV, hFromDp with
          | some a, some b => some (max a b)
          | some a, none => some a
          | none, some b => some b
          | none, none => none
        (inp.w_mm, match pick with
          | some p => if p = 0 then inp.h_mm else p
          | none => inp.h_mm)
      else if inp.h_mm > 0 ∧ inp.w_mm ≤ 0 then
        let wFromV : Option ℝ :=
          if needV > 0 ∧ Qv > 0 then some (mToMm ((Qv / needV) / mmToM inp.h_mm))
          else none
        let wFromDp : Option ℝ :=
          if needDp > 0 ∧ Qv > 0 then
            (solveMissingDimension false inp.h_mm Qv needDp Tn RHn inp.material).map
              Prod.fst
          else none
        let pick : Option ℝ :=
          match wFromV, wFromDp with
          | some a, some b => some (max a b)
          | some a, none => some a
          | none, some b => some b
          | none, none => none
        ((match pick with
          | some p => if p = 0 then inp.w_mm else p
          | none => inp.w_mm), inp.h_mm)
      else (inp.w_mm, inp.h_mm)
    let c := calcRectNums wh.1 wh.2 Qv Tn RHn inp.material
    { results := some (.fixedDim wh.1 wh.2 Qv c.dp_per_m), warnings := [] }
  | .maxFlow =>
    let needDp := inp.targetDpVal
    let needV := inp.velocityVal
    if needV > 0 ∧ needDp > 0 then
      { results := none, warnings := [.maxFlowBothInputs] }
    else if needV > 0 then
      let A := rectArea_m2_from_mm inp.w_mm inp.h_mm
      let Qcalc := needV * A
      let c := calcRectNums inp.w_mm inp.h_mm Qcalc Tn RHn inp.material
      { results := some (.maxFlowV inp.w_mm inp.h_mm Qcalc needV c.dp_per_m),
        warnings := [] }
    else if needDp > 0 then
      let maxQ := solveMaxFlow inp.w_mm inp.h_mm needDp Tn RHn inp.material
      let c := calcRectNums inp.w_mm inp.h_mm (maxQ.getD 0) Tn RHn inp.material
      { results := some (.maxFlowDp inp.w_mm inp.h_mm maxQ c.V needDp),
        warnings := [] }
    else { results := none, warnings := [] }
  | .magic => magicSolve inp

/-! ## Claim theorems -/

/-- Sample inputs used by concrete witnesses. -/
def sampleInputs (m : Mode) (l : Locks) : Inputs :=
  { mode := m, w_mm := 200, h_mm := 200, flowInputVal := 100, velocityVal := 0,
    targetDpVal := 1, flowUnit := .ls, temperature := 20, rh := 50,
    material := .galvanisedSteel, magicLocks := l, flowInputState := 100 }

/-- C7: in magic mode, locking 4 or 5 constraints emits the
"too many locked fields" warning with no result, and locking fewer than 2
emits the insufficient-constraints warning naming the needed input with
priority width, then height, then flow-or-velocity, else generic — with no
result in either case. -/
theorem magic_lock_count_policy (inp : Inputs) (hm : inp.mode = .magic) :
    (4 ≤ lockedCount inp.magicLocks →
      runSolverWithValues inp =
        { results := none, warnings := [.tooManyLocked] }) ∧
    (lockedCount inp.magicLocks < 2 →
      runSolverWithValues inp =
        { results := none,
          warnings := [.notEnough
            (if !inp.magicLocks.width then .enterWidth
             else if !inp.magicLocks.height then .enterHeight
             else if !inp.magicLocks.flow && !inp.magicLocks.velocity then
               .enterFlowOrVelocity
             else .generic)] }) := by
  obtain ⟨mode, w, h, fv, vv, dv, fu, T, RH, mat, locks, fs⟩ := inp
  simp only at hm
  subst hm
  constructor
  · intro h4
    have h4' : 4 ≤ lockedCount locks := h4
    simp only [runSolverWithValues, magicSolve]
    rw [if_pos h4']
  · intro h2
    have h2' : lockedCount locks < 2 := h2
    have hn4 : ¬ 4 ≤ lockedCount locks := by omega
    simp only [runSolverWithValues, magicSolve]
    rw [if_neg hn4, if_pos h2']
    simp [suggest]

/-- Witness for C7 at two concrete inputs: all five locks set, and no lock
set. -/
theorem magic_lock_count_policy_witness :
    runSolverWithValues (sampleInputs .magic ⟨true, true, true, true, true⟩) =
      { results := none, warnings := [.tooManyLocked] } ∧
    runSolverWithValues (sampleInputs .magic ⟨false, false, false, false, false⟩) =
      { results := none, warnings := [.notEnough .enterWidth] } := by
  constructor
  · exact (magic_lock_count_policy _ rfl).1 (by norm_num [lockedCount, sampleInputs])
  · have h := (magic_lock_count_policy
      (sampleInputs .magic ⟨false, false, false, false, false⟩) rfl).2
      (by norm_num [lockedCount, sampleInputs])
    simpa [sampleInputs] using h

/-- C8: zero-area geometry (width or height `= 0`) yields velocity `0`,
Reynolds number `0` and pressure drop `+∞`, for every flow, temperature,
relative humidity and material; and the friction factor is `NaN` for every
`Re ≤ 0` and every relative roughness.  (Over this real-valued model `Re` is
always a finite real, so the source's `!Number.isFinite(Re)` disjunct is
vacuous.) -/
theorem zero_area_degeneracy (w h Q T RH : ℝ) (mat : Material)
    (hwh : w = 0 ∨ h = 0) :
    (calcRectNums w h Q T RH mat).V = 0 ∧
    (calcRectNums w h Q T RH mat).Re = 0 ∧
    (calcRectNums w h Q T RH mat).dp_per_m = Flt.inf ∧
    (∀ Re' ≤ (0 : ℝ), ∀ eod : ℝ, haalandFrictionFactor Re' eod = Flt.nan) := by
  have hA : rectArea_m2_from_mm w h = 0 := by
    rcases hwh with hw | hh
    · simp [rectArea_m2_from_mm, hw]
    · simp [rectArea_m2_from_mm, hh]
  refine ⟨?_, ?_, ?_, ?_⟩
  · simp [calcRectNums, hA]
  · simp [calcRectNums, hA]
  · simp [calcRectNums, hA]
  · intro Re' hRe eod
    simp [haalandFrictionFactor, hRe]

/-- Witness for C8 at width `0`, height `200`, and `Re = -1`. -/
theorem zero_area_degeneracy_witness :
    (calcRectNums 0 200 0.1 20 50 .galvanisedSteel).V = 0 ∧
    (calcRectNums 0 200 0.1 20 50 .galvanisedSteel).Re = 0 ∧
    (calcRectNums 0 200 0.1 20 50 .galvanisedSteel).dp_per_m = Flt.inf ∧
    haalandFrictionFactor (-1) 0.5 = Flt.nan := by
  obtain ⟨h1, h2, h3, h4⟩ :=
    zero_area_degeneracy 0 200 0.1 20 50 .galvanisedSteel (Or.inl rfl)
  exact ⟨h1, h2, h3, h4 (-1) (by norm_num) 0.5⟩

/-- C10: in fixed-dimension mode with both width and height strictly
positive, the result reports exactly the input width and height, the flow is
the stated flow if positive (else velocity times area, else `0`), and the
pressure drop is the direct evaluation at those dimensions; no warning is
emitted. -/
theorem fixedDim_both_dims_present (inp : Inputs) (hm : inp.mode = .fixedDim)
    (hw : 0 < inp.w_mm) (hh : 0 < inp.h_mm) :
    runSolverWithValues inp =
      { results := some (.fixedDim inp.w_mm inp.h_mm
          (if flowInputToM3s inp.flowInputVal inp.flowUnit > 0 then
            flowInputToM3s inp.flowInputVal inp.flowUnit
          else if inp.velocityVal > 0 then
            inp.velocityVal * rectArea_m2_from_mm inp.w_mm inp.h_mm
          else 0)
          (calcRectNums inp.w_mm inp.h_mm
            (if flowInputToM3s inp.flowInputVal inp.flowUnit > 0 then
              flowInputToM3s inp.flowInputVal inp.flowUnit
            else if inp.velocityVal > 0 then
              inp.velocityVal * rectArea_m2_from_mm inp.w_mm inp.h_mm
            else 0)
            inp.temperature inp.rh inp.material).dp_per_m),
        warnings := [] } := by
  obtain ⟨mode, w, h, fv, vv, dv, fu, T, RH, mat, locks, fs⟩ := inp
  simp only at hm hw hh
  subst hm
  have h1 : ¬ (w > 0 ∧ h ≤ 0) := by
    rintro ⟨-, hle⟩; exact absurd hh (not_lt.mpr hle)
  have h2 : ¬ (h > 0 ∧ w ≤ 0) := by
    rintro ⟨-, hle⟩; exact absurd hw (not_lt.mpr hle)
  simp only [runSolverWithValues]
  rw [if_neg h1, if_neg h2]

/-- Witness for C10 at 200 mm × 200 mm, 100 L/s. -/
theorem fixedDim_both_dims_present_witness :
    runSolverWithValues (sampleInputs .fixedDim ⟨false, false, false, false, false⟩) =
      { results := some (.fixedDim 200 200
          (if flowInputToM3s 100 FlowUnit.ls > 0 then flowInputToM3s 100 FlowUnit.ls
           else if (0 : ℝ) > 0 then 0 * rectArea_m2_from_mm 200 200 else 0)
          (calcRectNums 200 200
            (if flowInputToM3s 100 FlowUnit.ls > 0 then flowInputToM3s 100 FlowUnit.ls
             else if (0 : ℝ) > 0 then 0 * rectArea_m2_from_mm 200 200 else 0)
            20 50 .galvanisedSteel).dp_per_m),
        warnings := [] } := by
  have h := fixedDim_both_dims_present
    (sampleInputs .fixedDim ⟨false, false, false, false, false⟩) rfl
    (by norm_num [sampleInputs]) (by norm_num [sampleInputs])
  simpa [sampleInputs] using h

/-- Counterexample for C6: a violated precondition (`width = 0`) makes
`solveMaxFlow` return `null` (no value), not the flow value `0`. -/
theorem solveMaxFlow_null_on_bad_precondition :
    solveMaxFlow 0 200 1 20 50 .galvanisedSteel = none ∧
    solveMaxFlow 0 200 1 20 50 .galvanisedSteel ≠ some 0 := by
  have h : solveMaxFlow 0 200 1 20 50 .galvanisedSteel = none := by
    simp [solveMaxFlow, mmToM]
  exact ⟨h, by simp [h]⟩


/-! ## Bisection invariants -/

/-- Feasibility invariant of the max-flow bisection: the tracked best flow is
either still the initial `0` or a flow whose (deterministic re-)evaluation
has a finite pressure drop not exceeding the target. -/
theorem mfLoop_feasible (w_m h_m t T RH : ℝ) (mat : Material) :
    ∀ n lo hi bq,
      (bq = 0 ∨ ∃ d, (calcRectNums (mToMm w_m) (mToMm h_m) bq T RH mat).dp_per_m =
        Flt.fin d ∧ d ≤ t) →
      (mfLoop w_m h_m t T RH mat n lo hi bq = 0 ∨
        ∃ d, (calcRectNums (mToMm w_m) (mToMm h_m)
          (mfLoop w_m h_m t T RH mat n lo hi bq) T RH mat).dp_per_m =
            Flt.fin d ∧ d ≤ t) := by
  intro n
  induction n with
  | zero => intro lo hi bq hbq; simpa [mfLoop] using hbq
  | succ n ih =>
    intro lo hi bq hbq
    rw [mfLoop]
    rcases hdp : (calcRectNums (mToMm w_m) (mToMm h_m) (0.5 * (lo + hi)) T RH
        mat).dp_per_m with dp | - | -
    · simp only
      by_cases hgt : dp > t
      · rw [if_pos hgt]
        split
        · exact hbq
        · exact ih _ _ _ hbq
      · rw [if_neg hgt]
        have hmid : (0.5 * (lo + hi) = 0 ∨
            ∃ d, (calcRectNums (mToMm w_m) (mToMm h_m) (0.5 * (lo + hi)) T RH
              mat).dp_per_m = Flt.fin d ∧ d ≤ t) :=
          Or.inr ⟨dp, hdp, not_lt.mp hgt⟩
        split
        · exact hmid
        · exact ih _ _ _ hmid
    · simp only; exact hbq
    · simp only; exact hbq

/-- Amended C6: `solveMaxFlow` returns `null` (no value) — not the flow `0` —
whenever a precondition is violated; when the preconditions hold it always
returns a flow, which is either `0` (no feasible flow was recorded before the
loop ended or aborted) or a feasible flow whose evaluation meets the target. -/
theorem solveMaxFlow_failure_semantics (w h t T RH : ℝ) (mat : Material) :
    ((mmToM w ≤ 0 ∨ mmToM h ≤ 0 ∨ t ≤ 0) →
      solveMaxFlow w h t T RH mat = none) ∧
    (0 < mmToM w → 0 < mmToM h → 0 < t →
      ∃ q, solveMaxFlow w h t T RH mat = some q ∧
        (q = 0 ∨ ∃ d, (calcRectNums (mToMm (mmToM w)) (mToMm (mmToM h)) q T RH
          mat).dp_per_m = Flt.fin d ∧ d ≤ t)) := by
  constructor
  · intro hbad
    simp only [solveMaxFlow]
    rw [if_pos hbad]
  · intro hw hh ht
    have hok : ¬ (mmToM w ≤ 0 ∨ mmToM h ≤ 0 ∨ t ≤ 0) := by
      push_neg; exact ⟨hw, hh, ht⟩
    refine ⟨mfLoop (mmToM w) (mmToM h) t T RH mat 80 1e-6 10 0, ?_, ?_⟩
    · simp only [solveMaxFlow]
      rw [if_neg hok]
    · exact mfLoop_feasible (mmToM w) (mmToM h) t T RH mat 80 1e-6 10 0 (Or.inl rfl)

/-- Witness for the amended C6 at concrete inputs: a negative width gives
`none`; a well-posed 5 m × 5 m duct gives a flow value. -/
theorem solveMaxFlow_failure_semantics_witness :
    solveMaxFlow (-5) 200 1 20 50 .galvanisedSteel = none ∧
    (∃ q, solveMaxFlow 5000 5000 1 20 50 .galvanisedSteel = some q ∧
      (q = 0 ∨ ∃ d, (calcRectNums (mToMm (mmToM 5000)) (mToMm (mmToM 5000)) q 20 50
        .galvanisedSteel).dp_per_m = Flt.fin d ∧ d ≤ 1)) := by
  constructor
  · exact (solveMaxFlow_failure_semantics (-5) 200 1 20 50 .galvanisedSteel).1
      (Or.inl (by norm_num [mmToM]))
  · exact (solveMaxFlow_failure_semantics 5000 5000 1 20 50 .galvanisedSteel).2
      (by norm_num [mmToM]) (by norm_num [mmToM]) (by norm_num)

/-- Amended C5 (feedback half): any nonzero flow returned by `solveMaxFlow`
evaluates, at the same geometry and air state, to a finite pressure drop that
does not exceed the target. -/
theorem solveMaxFlow_feedback (w h t T RH : ℝ) (mat : Material) (q : ℝ)
    (hq : solveMaxFlow w h t T RH mat = some q) (hq0 : q ≠ 0) :
    ∃ d, (calcRectNums (mToMm (mmToM w)) (mToMm (mmToM h)) q T RH mat).dp_per_m =
      Flt.fin d ∧ d ≤ t := by
  by_cases hbad : mmToM w ≤ 0 ∨ mmToM h ≤ 0 ∨ t ≤ 0
  · simp only [solveMaxFlow] at hq
    rw [if_pos hbad] at hq
    exact absurd hq (by simp)
  · simp only [solveMaxFlow] at hq
    rw [if_neg hbad] at hq
    have hqe : mfLoop (mmToM w) (mmToM h) t T RH mat 80 1e-6 10 0 = q :=
      Option.some_injective _ hq
    have := mfLoop_feasible (mmToM w) (mmToM h) t T RH mat 80 1e-6 10 0 (Or.inl rfl)
    rw [hqe] at this
    rcases this with h0 | hfeas
    · exact absurd h0 hq0
    · exact hfeas


/-! ## Magic solver lemmas -/

/-- Once the outer loop has a best record (and it acquires one in its very
first round, unconditionally, because `!best` is true), it never loses it. -/
theorem magicLoop_isSome (cfg : MagicCfg) :
    ∀ n s best, best.isSome = true ∨ 1 ≤ n →
      (magicLoop cfg n s best).isSome = true := by
  intro n
  induction n with
  | zero =>
    intro s best h
    rcases h with h | h
    · simpa [magicLoop] using h
    · omega
  | succ n ih =>
    intro s best _
    rw [magicLoop.eq_def]; simp only
    rcases best with - | b
    · simp only
      split
      · simp
      · exact ih _ _ (Or.inl Option.isSome_some)
    · simp only
      split
      all_goals split
      all_goals first
        | simp
        | exact ih _ _ (Or.inl Option.isSome_some)

/-- The flow update never touches width or height. -/
theorem updateVar_flow_fixes_dims (cfg : MagicCfg) (s : MState) :
    (updateVar cfg s .flow).width = s.width ∧
      (updateVar cfg s .flow).height = s.height := by
  unfold updateVar
  split
  · exact ⟨rfl, rfl⟩
  · exact ⟨rfl, rfl⟩

/-- With width and height locked, a round of coordinate descent fixes both
dimensions. -/
theorem magicRound_fixes_locked_dims (cfg : MagicCfg)
    (hw : cfg.locked.width = true) (hh : cfg.locked.height = true) (s : MState) :
    (magicRound cfg s).width = s.width ∧ (magicRound cfg s).height = s.height := by
  have hW : ∀ s' : MState, updateVar cfg s' .width = s' := by
    intro s'; unfold updateVar; rw [if_pos (by simpa [Locks.of] using hw)]
  have hH : ∀ s' : MState, updateVar cfg s' .height = s' := by
    intro s'; unfold updateVar; rw [if_pos (by simpa [Locks.of] using hh)]
  unfold magicRound
  rw [hW, hH]
  exact updateVar_flow_fixes_dims cfg s

/-- If every state with the locked dimensions has the same finite RMS value
`r`, and `r` is not below the `1e-4` threshold, the outer loop returns a best
record carrying exactly that RMS and those dimensions. -/
theorem magicLoop_const_rms (cfg : MagicCfg) (w0 h0 r : ℝ)
    (hw : cfg.locked.width = true) (hh : cfg.locked.height = true)
    (hrms : ∀ s : MState, s.width = w0 → s.height = h0 → rmsOf cfg s = .fin r)
    (hr : ¬ r < 1e-4) :
    ∀ n s best, s.width = w0 → s.height = h0 →
      (best = none ∨ ∃ b, best = some b ∧ b.2 = Flt.fin r ∧
        b.1.width = w0 ∧ b.1.height = h0) →
      (magicLoop cfg n s best = best ∨
        ∃ b, magicLoop cfg n s best = some b ∧ b.2 = Flt.fin r ∧
          b.1.width = w0 ∧ b.1.height = h0) := by
  intro n
  induction n with
  | zero => intro s best _ _ _; left; rw [magicLoop]
  | succ n ih =>
    intro s best hsw hsh hbest
    have hdims := magicRound_fixes_locked_dims cfg hw hh s
    have hsw' : (magicRound cfg s).width = w0 := by rw [hdims.1, hsw]
    have hsh' : (magicRound cfg s).height = h0 := by rw [hdims.2, hsh]
    have hcur : rmsOf cfg (magicRound cfg s) = Flt.fin r :=
      hrms _ hsw' hsh'
    rw [magicLoop.eq_def]; simp only
    rcases hb : best with - | b
    · simp only [hcur]
      have hnb : ¬ Flt.lt (Flt.fin r) (Flt.fin 1e-4) := hr
      rw [if_neg hnb]
      have := ih (magicRound cfg s) (some (magicRound cfg s, Flt.fin r)) hsw' hsh'
        (Or.inr ⟨(magicRound cfg s, Flt.fin r), rfl, rfl, hsw', hsh'⟩)
      rcases this with heq | hsome
      · right
        exact ⟨(magicRound cfg s, Flt.fin r), heq, rfl, hsw', hsh'⟩
      · right; exact hsome
    · rcases hbest with hno | ⟨b', hb', hbr, hbw, hbh⟩
      · rw [hb] at hno; exact absurd hno (by simp)
      · rw [hb] at hb'
        have hbb : b = b' := by injection hb'
        subst hbb
        simp only [hcur, hbr]
        have hlt : ¬ Flt.lt (Flt.fin r) (Flt.fin r) := lt_irrefl r
        rw [if_neg hlt]
        have hnb : ¬ Flt.lt (Flt.fin r) (Flt.fin 1e-4) := hr
        rw [hbr, if_neg hnb]
        have := ih (magicRound cfg s) (some b) hsw' hsh'
          (Or.inr ⟨b, rfl, hbr, hbw, hbh⟩)
        rcases this with heq | hsome
        · right; exact ⟨b, heq, hbr, hbw, hbh⟩
        · right; exact hsome


/-- `s.set v (s.get v) = s`. -/
theorem MState.eta_set (s : MState) (v : MVar) : s.set v (s.get v) = s := by
  cases v <;> rfl

/-- The ÷factor trial state of one per-variable step (floors applied). -/
def trialDown (s : MState) (v : MVar) : MState :=
  applyFloors (s.set v (s.get v * (1 / stepFactor v)))

/-- The ×factor trial state of one per-variable step (floors applied). -/
def trialUp (s : MState) (v : MVar) : MState :=
  applyFloors (s.set v (s.get v * stepFactor v))

/-- `updateVar` written with the two named trial states. -/
theorem updateVar_eq (cfg : MagicCfg) (s : MState) (v : MVar) :
    updateVar cfg s v =
      if cfg.locked.of v then s
      else
        let r1 := rmsOf cfg (trialDown s v)
        let r2 := rmsOf cfg (trialUp s v)
        let b1 : ℝ × Flt :=
          if Flt.lt r1 Flt.inf then ((trialDown s v).get v, r1) else (s.get v, Flt.inf)
        let b2 : ℝ × Flt :=
          if Flt.lt r2 b1.2 then ((trialUp s v).get v, r2) else b1
        s.set v b2.1 := rfl

/-- Amended C2: the per-variable step compares the two perturbations\' RMS
values against a running best initialised to `Infinity` — never against the
original value\'s RMS.  Hence: the ×factor trial wins when its RMS is below
the ÷factor trial\'s; otherwise the ÷factor trial wins whenever its RMS is
finite (ties included, and even when both trials are worse than the
original); the ×factor trial also wins when only it is finite; and the
original value survives only when neither trial\'s RMS compares below
`Infinity`. -/
theorem updateVar_selection_rule (cfg : MagicCfg) (s : MState) (v : MVar)
    (hv : cfg.locked.of v = false) :
    (Flt.lt (rmsOf cfg (trialUp s v)) (rmsOf cfg (trialDown s v)) →
      updateVar cfg s v = s.set v ((trialUp s v).get v)) ∧
    (Flt.lt (rmsOf cfg (trialDown s v)) Flt.inf →
      ¬ Flt.lt (rmsOf cfg (trialUp s v)) (rmsOf cfg (trialDown s v)) →
      updateVar cfg s v = s.set v ((trialDown s v).get v)) ∧
    (¬ Flt.lt (rmsOf cfg (trialDown s v)) Flt.inf →
      Flt.lt (rmsOf cfg (trialUp s v)) Flt.inf →
      updateVar cfg s v = s.set v ((trialUp s v).get v)) ∧
    (¬ Flt.lt (rmsOf cfg (trialDown s v)) Flt.inf →
      ¬ Flt.lt (rmsOf cfg (trialUp s v)) Flt.inf →
      updateVar cfg s v = s) := by
  have hb : ¬ (cfg.locked.of v = true) := by simp [hv]
  rw [updateVar_eq, if_neg hb]
  simp only
  rcases hr1 : rmsOf cfg (trialDown s v) with x1 | - | - <;>
    rcases hr2 : rmsOf cfg (trialUp s v) with x2 | - | - <;>
    refine ⟨?_, ?_, ?_, ?_⟩ <;> intro h1 <;> try intro h2
  all_goals first
    | simp only [Flt.lt] at h1 h2 ⊢
    | simp only [Flt.lt] at h1 ⊢
    | skip
  all_goals split_ifs <;>
    first
      | rfl
      | exact (MState.eta_set s v)
      | tauto
      | linarith

/-! ## A concrete magic-mode run that does not converge -/

/-- Locks for the counterexample runs: width and height locked (2 locks). -/
def cexLocks : Locks :=
  { flow := false, width := true, height := true, velocity := false, dp := false }

/-- Counterexample targets: every field entered as `0`. -/
def cexTargets : Targets :=
  { flow := 0, width := 0, height := 0, velocity := 0, dp := 0 }

/-- The magic configuration produced by a solve with width and height locked
while the width/height inputs are `0`. -/
def cexCfg : MagicCfg :=
  { locked := cexLocks, targets := cexTargets, T := 20, RH := 50,
    mat := .galvanisedSteel }

/-- Dispatcher inputs realising `cexCfg` in magic mode. -/
def cexInputs : Inputs :=
  { mode := .magic, w_mm := 0, h_mm := 0, flowInputVal := 0, velocityVal := 0,
    targetDpVal := 0, flowUnit := .m3s, temperature := 20, rh := 50,
    material := .galvanisedSteel, magicLocks := cexLocks, flowInputState := 0 }

/-- Under `cexCfg` every state whose dimensions sit at the `200 mm` defaults
has RMS exactly `2e8`: both active residuals are `(200 - 0) / max 0 1e-6 = 2e8`. -/
theorem rmsOf_cexCfg (s : MState) (hw : s.width = 200) (hh : s.height = 200) :
    rmsOf cexCfg s = Flt.fin 2e8 := by
  have hmax : max (0 : ℝ) 1e-6 = 1e-6 := by norm_num
  simp only [rmsOf, residList, cexCfg, cexLocks, cexTargets, hw, hh, hmax,
    if_false, if_true, Bool.false_eq_true, List.nil_append, List.append_nil,
    List.cons_append, List.singleton_append]
  norm_num [sumFlt, Flt.sq, Flt.add, Flt.divNat, Flt.sqrtF]
  rw [show (40000000000000000 : ℝ) = 200000000 ^ 2 by norm_num]
  exact Real.sqrt_sq (by norm_num)


/-- The descent state embedded in a magic result record. -/
def ResRecord.magicState : ResRecord → Option MState
  | .magic w h fl _ _ => some { flow := fl, width := w, height := h }
  | _ => none

/-- With an admissible lock count, `magicSolve` reports exactly the best
record found by the 200-round loop, with no warnings. -/
theorem magicSolve_run (inp : Inputs)
    (h4 : ¬ 4 ≤ lockedCount inp.magicLocks)
    (h2 : ¬ lockedCount inp.magicLocks < 2)
    (b : MState × Flt)
    (hrun : magicLoop (magicCfgOf inp) 200 (magicInit inp) none = some b) :
    magicSolve inp =
      { results := some (.magic b.1.width b.1.height b.1.flow
          (calcRectNums b.1.width b.1.height b.1.flow inp.temperature inp.rh
            inp.material).V
          (calcRectNums b.1.width b.1.height b.1.flow inp.temperature inp.rh
            inp.material).dp_per_m),
        warnings := [] } := by
  simp only [magicSolve]
  rw [if_neg h4, if_neg h2, hrun]

/-- Amended C1: in magic mode with exactly 2 or 3 locked constraints, a
result is always produced and the "failed to converge" warning is never
emitted — the loop's best record is set unconditionally in the first round
(`!best || …`), so the no-result branch is unreachable, even when the best
RMS never falls below `1e-4`. -/
theorem magic_locked_2_3_always_yields_result (inp : Inputs)
    (hm : inp.mode = .magic)
    (hc : lockedCount inp.magicLocks = 2 ∨ lockedCount inp.magicLocks = 3) :
    (runSolverWithValues inp).results.isSome = true ∧
      Warning.magicFailed ∉ (runSolverWithValues inp).warnings := by
  obtain ⟨mode, w, h, fv, vv, dv, fu, T, RH, mat, locks, fs⟩ := inp
  simp only at hm hc
  subst hm
  have hc' : lockedCount locks = 2 ∨ lockedCount locks = 3 := hc
  have h4 : ¬ 4 ≤ lockedCount locks := by omega
  have h2 : ¬ lockedCount locks < 2 := by omega
  have hsome := magicLoop_isSome
    (magicCfgOf ⟨.magic, w, h, fv, vv, dv, fu, T, RH, mat, locks, fs⟩) 200
    (magicInit ⟨.magic, w, h, fv, vv, dv, fu, T, RH, mat, locks, fs⟩) none
    (Or.inr (by norm_num))
  obtain ⟨b, hb⟩ := Option.isSome_iff_exists.mp hsome
  have hrun := magicSolve_run ⟨.magic, w, h, fv, vv, dv, fu, T, RH, mat, locks, fs⟩
    h4 h2 b hb
  simp only [runSolverWithValues, hrun]
  exact ⟨rfl, by simp⟩

/-- Witness for the amended C1: the concrete two-lock input `cexInputs`. -/
theorem magic_locked_2_3_always_yields_result_witness :
    (runSolverWithValues cexInputs).results.isSome = true ∧
      Warning.magicFailed ∉ (runSolverWithValues cexInputs).warnings :=
  magic_locked_2_3_always_yields_result cexInputs rfl
    (Or.inl (by simp [cexInputs, cexLocks, lockedCount]))

/-- Counterexample for C1: with exactly 2 locks (width and height, entered as
`0`), the solve produces a result whose residual RMS is `2e8` — far above the
`1e-4` convergence tolerance — and emits no warning at all: a
non-converged result appears with no "failed to converge" signal. -/
theorem magic_nonconverged_result_no_warning :
    lockedCount cexInputs.magicLocks = 2 ∧
    ((runSolverWithValues cexInputs).results.bind ResRecord.magicState).map
      (rmsOf cexCfg) = some (Flt.fin 2e8) ∧
    (runSolverWithValues cexInputs).warnings = [] ∧
    ¬ ((2e8 : ℝ) < 1e-4) := by
  have hcount : lockedCount cexInputs.magicLocks = 2 := by
    simp [cexInputs, cexLocks, lockedCount]
  have h4 : ¬ 4 ≤ lockedCount cexInputs.magicLocks := by omega
  have h2 : ¬ lockedCount cexInputs.magicLocks < 2 := by omega
  have hcfg : magicCfgOf cexInputs = cexCfg := rfl
  have hinit : magicInit cexInputs = ⟨0.1, 200, 200⟩ := by
    simp [magicInit, magicTargets, cexInputs, flowInputToM3s]
  have hsome := magicLoop_isSome (magicCfgOf cexInputs) 200 (magicInit cexInputs)
    none (Or.inr (by norm_num))
  obtain ⟨b, hb⟩ := Option.isSome_iff_exists.mp hsome
  have hb' : magicLoop cexCfg 200 ⟨0.1, 200, 200⟩ none = some b := by
    rw [← hcfg, ← hinit]; exact hb
  have hgood := magicLoop_const_rms cexCfg 200 200 2e8 rfl rfl rmsOf_cexCfg
    (by norm_num) 200 ⟨0.1, 200, 200⟩ none rfl rfl (Or.inl rfl)
  rcases hgood with hnone | ⟨b', hb2, hr', hw', hh'⟩
  · rw [hb'] at hnone; exact absurd hnone (by simp)
  · rw [hb'] at hb2
    have hbb : b = b' := by injection hb2
    subst hbb
    have hrun := magicSolve_run cexInputs h4 h2 b hb
    have hout : runSolverWithValues cexInputs = magicSolve cexInputs := rfl
    rw [hout, hrun]
    refine ⟨hcount, ?_, rfl, by norm_num⟩
    show some (rmsOf cexCfg ⟨b.1.flow, b.1.width, b.1.height⟩) = some (Flt.fin 2e8)
    rw [rmsOf_cexCfg ⟨b.1.flow, b.1.width, b.1.height⟩ hw' hh']


/-- The ÷1.1 flow trial of the counterexample state has RMS `2e8`. -/
theorem rms_trialDown_cex :
    rmsOf cexCfg (trialDown ⟨0.1, 200, 200⟩ .flow) = Flt.fin 2e8 := by
  refine rmsOf_cexCfg _ ?_ ?_ <;>
    simp [trialDown, applyFloors, MState.set, MState.get] <;> norm_num

/-- The ×1.1 flow trial of the counterexample state has RMS `2e8`. -/
theorem rms_trialUp_cex :
    rmsOf cexCfg (trialUp ⟨0.1, 200, 200⟩ .flow) = Flt.fin 2e8 := by
  refine rmsOf_cexCfg _ ?_ ?_ <;>
    simp [trialUp, applyFloors, MState.set, MState.get] <;> norm_num

/-- Counterexample for C2: under `cexCfg` both flow perturbations have
exactly the same RMS (`2e8`) as the original state — neither improves on the
original — yet the step does not keep the original flow: it accepts the
÷1.1 perturbation. -/
theorem magic_perturbation_kept_without_improvement :
    rmsOf cexCfg (trialDown ⟨0.1, 200, 200⟩ .flow) = rmsOf cexCfg ⟨0.1, 200, 200⟩ ∧
    rmsOf cexCfg (trialUp ⟨0.1, 200, 200⟩ .flow) = rmsOf cexCfg ⟨0.1, 200, 200⟩ ∧
    (updateVar cexCfg ⟨0.1, 200, 200⟩ .flow).flow = 0.1 * (1 / 1.1) ∧
    (0.1 : ℝ) * (1 / 1.1) ≠ 0.1 := by
  have h0 : rmsOf cexCfg ⟨0.1, 200, 200⟩ = Flt.fin 2e8 := rmsOf_cexCfg _ rfl rfl
  have hsel := (updateVar_selection_rule cexCfg ⟨0.1, 200, 200⟩ .flow rfl).2.1
    (by rw [rms_trialDown_cex]; trivial)
    (by rw [rms_trialUp_cex, rms_trialDown_cex]; exact lt_irrefl (2e8 : ℝ))
  refine ⟨by rw [rms_trialDown_cex, h0], by rw [rms_trialUp_cex, h0], ?_, by norm_num⟩
  rw [hsel]
  show (trialDown ⟨0.1, 200, 200⟩ .flow).get .flow = 0.1 * (1 / 1.1)
  simp only [trialDown, applyFloors, MState.set, MState.get, stepFactor]
  norm_num

/-- Witness for the amended C2 at the concrete two-lock configuration: the
÷1.1 trial's RMS is finite and the ×1.1 trial does not beat it, so the step
commits the ÷1.1 trial value. -/
theorem updateVar_selection_rule_witness :
    updateVar cexCfg ⟨0.1, 200, 200⟩ .flow =
      MState.set ⟨0.1, 200, 200⟩ .flow
        ((trialDown ⟨0.1, 200, 200⟩ .flow).get .flow) :=
  (updateVar_selection_rule cexCfg ⟨0.1, 200, 200⟩ .flow rfl).2.1
    (by rw [rms_trialDown_cex]; trivial)
    (by rw [rms_trialUp_cex, rms_trialDown_cex]; exact lt_irrefl (2e8 : ℝ))


/-! ## Missing-dimension solver lemmas -/

/-- Once the missing-dimension bisection has a best record it never loses it. -/
theorem mdLoop_keeps_some (fw : Bool) (fv Q t T RH : ℝ) (mat : Material) :
    ∀ n lo hi best, best.isSome = true →
      (mdLoop fw fv Q t T RH mat n lo hi best).isSome = true := by
  intro n
  induction n with
  | zero => intro lo hi best h; simpa [mdLoop] using h
  | succ n ih =>
    intro lo hi best h
    rw [mdLoop.eq_def]; simp only
    rcases (calcRectNums (mToMm (if fw then fv else 0.5 * (lo + hi)))
        (mToMm (if fw then 0.5 * (lo + hi) else fv)) Q T RH mat).dp_per_m with
      dp | - | -
    · simp only
      split
      · simp
      · exact ih _ _ _ Option.isSome_some
    · exact h
    · exact h

/-- The bisection returns a record as soon as its first evaluation is finite:
no comparison outcome can erase the recorded best. -/
theorem solveMissingDimension_isSome (fw : Bool) (fv Q t T RH : ℝ) (mat : Material)
    (hok : ¬ (mmToM fv ≤ 0 ∨ Q ≤ 0 ∨ t ≤ 0))
    (hfin : ∃ d, (calcRectNums (mToMm (if fw then mmToM fv else 0.5 * (1e-4 + 5.0)))
      (mToMm (if fw then 0.5 * (1e-4 + 5.0) else mmToM fv)) Q T RH mat).dp_per_m =
        Flt.fin d) :
    (solveMissingDimension fw fv Q t T RH mat).isSome = true := by
  simp only [solveMissingDimension]
  rw [if_neg hok]
  have hmap : ∀ o : Option (ℝ × ℝ), o.isSome = true →
      (Option.map (fun b => (mToMm b.1, b.2)) o).isSome = true := by
    intro o h
    cases o
    · simp at h
    · rfl
  refine hmap _ ?_
  rw [show (60 : ℕ) = 59 + 1 from rfl]
  rw [mdLoop.eq_def]; simp only
  obtain ⟨d, hd⟩ := hfin
  rw [hd]
  simp only
  split
  · simp
  · exact mdLoop_keeps_some fw (mmToM fv) Q t T RH mat 59 _ _ _ Option.isSome_some


/-- C9: in fixed-dimension mode with exactly one dimension present, a
velocity target, a pressure-drop target and a positive stated flow, whenever
the bisection produces a candidate, the reported missing dimension is the
larger (`max`) of the velocity-implied candidate and the pressure-drop
implied candidate.  The first conjunct fixes the width, the second the
height. -/
theorem fixedDim_picks_larger_candidate (inp : Inputs) (hm : inp.mode = .fixedDim)
    (hv : inp.velocityVal > 0) (hdp : inp.targetDpVal > 0)
    (hQ : flowInputToM3s inp.flowInputVal inp.flowUnit > 0) :
    (inp.w_mm > 0 → inp.h_mm ≤ 0 →
      (solveMissingDimension true inp.w_mm
        (flowInputToM3s inp.flowInputVal inp.flowUnit) inp.targetDpVal
        inp.temperature inp.rh inp.material).isSome = true →
      ∃ sol : ℝ × ℝ,
        solveMissingDimension true inp.w_mm
          (flowInputToM3s inp.flowInputVal inp.flowUnit) inp.targetDpVal
          inp.temperature inp.rh inp.material = some sol ∧
        (runSolverWithValues inp).results = some (.fixedDim inp.w_mm
          (max (mToMm ((flowInputToM3s inp.flowInputVal inp.flowUnit /
              inp.velocityVal) / mmToM inp.w_mm)) sol.1)
          (flowInputToM3s inp.flowInputVal inp.flowUnit)
          (calcRectNums inp.w_mm
            (max (mToMm ((flowInputToM3s inp.flowInputVal inp.flowUnit /
                inp.velocityVal) / mmToM inp.w_mm)) sol.1)
            (flowInputToM3s inp.flowInputVal inp.flowUnit)
            inp.temperature inp.rh inp.material).dp_per_m)) ∧
    (inp.h_mm > 0 → inp.w_mm ≤ 0 →
      (solveMissingDimension false inp.h_mm
        (flowInputToM3s inp.flowInputVal inp.flowUnit) inp.targetDpVal
        inp.temperature inp.rh inp.material).isSome = true →
      ∃ sol : ℝ × ℝ,
        solveMissingDimension false inp.h_mm
          (flowInputToM3s inp.flowInputVal inp.flowUnit) inp.targetDpVal
          inp.temperature inp.rh inp.material = some sol ∧
        (runSolverWithValues inp).results = some (.fixedDim
          (max (mToMm ((flowInputToM3s inp.flowInputVal inp.flowUnit /
              inp.velocityVal) / mmToM inp.h_mm)) sol.1)
          inp.h_mm
          (flowInputToM3s inp.flowInputVal inp.flowUnit)
          (calcRectNums
            (max (mToMm ((flowInputToM3s inp.flowInputVal inp.flowUnit /
                inp.velocityVal) / mmToM inp.h_mm)) sol.1)
            inp.h_mm
            (flowInputToM3s inp.flowInputVal inp.flowUnit)
            inp.temperature inp.rh inp.material).dp_per_m)) := by
  obtain ⟨mode, w, h, fv, vv, dv, fu, T, RH, mat, locks, fs⟩ := inp
  simp only at hm hv hdp hQ ⊢
  subst hm
  constructor
  · intro hw hh hsome
    obtain ⟨sol, hsol⟩ := Option.isSome_iff_exists.mp hsome
    refine ⟨sol, hsol, ?_⟩
    have hpos : 0 < mToMm ((flowInputToM3s fv fu / vv) / mmToM w) := by
      have h1 : 0 < flowInputToM3s fv fu / vv := div_pos hQ hv
      have h2 : 0 < mmToM w := by simp only [mmToM]; positivity
      simp only [mToMm]
      positivity
    simp only [runSolverWithValues]
    rw [if_pos hQ, if_pos (⟨hw, hh⟩ : w > 0 ∧ h ≤ 0),
      if_pos (⟨hv, hQ⟩ : vv > 0 ∧ flowInputToM3s fv fu > 0),
      if_pos (⟨hdp, hQ⟩ : dv > 0 ∧ flowInputToM3s fv fu > 0), hsol]
    simp only [Option.map_some']
    rw [if_neg (ne_of_gt (lt_of_lt_of_le hpos (le_max_left _ _)))]
  · intro hh hw hsome
    obtain ⟨sol, hsol⟩ := Option.isSome_iff_exists.mp hsome
    refine ⟨sol, hsol, ?_⟩
    have hpos : 0 < mToMm ((flowInputToM3s fv fu / vv) / mmToM h) := by
      have h1 : 0 < flowInputToM3s fv fu / vv := div_pos hQ hv
      have h2 : 0 < mmToM h := by simp only [mmToM]; positivity
      simp only [mToMm]
      positivity
    have hn1 : ¬ (w > 0 ∧ h ≤ 0) := by
      rintro ⟨hw', -⟩; exact absurd hw' (not_lt.mpr hw)
    simp only [runSolverWithValues]
    rw [if_pos hQ, if_neg hn1, if_pos (⟨hh, hw⟩ : h > 0 ∧ w ≤ 0),
      if_pos (⟨hv, hQ⟩ : vv > 0 ∧ flowInputToM3s fv fu > 0),
      if_pos (⟨hdp, hQ⟩ : dv > 0 ∧ flowInputToM3s fv fu > 0), hsol]
    simp only [Option.map_some']
    rw [if_neg (ne_of_gt (lt_of_lt_of_le hpos (le_max_left _ _)))]


/-! ## Concrete evaluations (dry air at 0 °C, where the transcendental
air-property terms collapse to rationals) -/

/-- At 0 % relative humidity the vapor term vanishes and the density is the
dry-air rational value. -/
theorem moistAirDensity_dry0 :
    moistAirDensity 101325 0 0 = 101325 / (287.058 * 273.15) := by
  simp only [moistAirDensity]
  norm_num

/-- At 0 °C Sutherland's law degenerates to the reference viscosity. -/
theorem dynamicViscosityAir_at0 : dynamicViscosityAir 0 = 1.716e-5 := by
  simp only [dynamicViscosityAir]
  rw [show ((0 : ℝ) + 273.15) / 273.15 = 1 by norm_num, Real.one_rpow]
  norm_num

/-- The Reynolds-number field, written out. -/
theorem calcRectNums_Re_eq (w h Q T RH : ℝ) (mat : Material) :
    (calcRectNums w h Q T RH mat).Re =
      moistAirDensity 101325 T RH *
        |if rectArea_m2_from_mm w h > 0 then Q / rectArea_m2_from_mm w h else 0| *
        (if rectArea_m2_from_mm w h > 0 then
          4 * rectArea_m2_from_mm w h / rectPerimeter_m_from_mm w h else 0) /
        dynamicViscosityAir T := rfl

/-- In the laminar regime (`0 < Re < 2300`) with genuine geometry, the
pressure drop is the finite value `64/Re · ρV²/(2 Dh)`. -/
theorem dp_fin_of_laminar (w h Q T RH : ℝ) (mat : Material)
    (hprod : 0 < (w / 1000) * (h / 1000))
    (hper : 0 < rectPerimeter_m_from_mm w h)
    (hRe0 : 0 < (calcRectNums w h Q T RH mat).Re)
    (hRe1 : (calcRectNums w h Q T RH mat).Re < 2300) :
    (calcRectNums w h Q T RH mat).dp_per_m =
      Flt.fin ((64.0 / (calcRectNums w h Q T RH mat).Re) *
        ((calcRectNums w h Q T RH mat).rho * (calcRectNums w h Q T RH mat).V *
          (calcRectNums w h Q T RH mat).V /
            (2 * (calcRectNums w h Q T RH mat).Dh))) := by
  have hA : rectArea_m2_from_mm w h = (w / 1000) * (h / 1000) :=
    max_eq_right (le_of_lt hprod)
  have hApos : rectArea_m2_from_mm w h > 0 := by rw [hA]; exact hprod
  have hDhpos : 0 < 4 * rectArea_m2_from_mm w h / rectPerimeter_m_from_mm w h := by
    positivity
  have hc : (rectArea_m2_from_mm w h > 0) = True := eq_true hApos
  simp only [calcRectNums, haalandFrictionFactor, hc, if_true] at hRe0 hRe1 ⊢
  rw [if_pos hDhpos, if_neg (not_le.mpr hRe0), if_pos hRe1]
  rfl

/-- Inputs for the fixed-width witness run of C9 (width 300 mm given, height
missing, velocity target 1 m/s, pressure-drop target 1 Pa/m, flow 1e-6 m³/s,
dry air at 0 °C). -/
def c9inpW : Inputs :=
  { mode := .fixedDim, w_mm := 300, h_mm := 0, flowInputVal := 1e-6,
    velocityVal := 1, targetDpVal := 1, flowUnit := .m3s, temperature := 0,
    rh := 0, material := .galvanisedSteel, magicLocks := cexLocks,
    flowInputState := 0 }

/-- Inputs for the fixed-height witness run of C9. -/
def c9inpH : Inputs :=
  { mode := .fixedDim, w_mm := 0, h_mm := 300, flowInputVal := 1e-6,
    velocityVal := 1, targetDpVal := 1, flowUnit := .m3s, temperature := 0,
    rh := 0, material := .galvanisedSteel, magicLocks := cexLocks,
    flowInputState := 0 }

/-- The first bisection evaluation of the fixed-width run is finite (laminar:
the tiny flow `1e-6 m³/s` through a `0.3 m × 2.50005 m` duct). -/
theorem c9_first_eval_W :
    ∃ d, (calcRectNums (mToMm (if (true : Bool) then mmToM 300 else 0.5 * (1e-4 + 5.0)))
      (mToMm (if (true : Bool) then 0.5 * (1e-4 + 5.0) else mmToM 300)) 1e-6 0 0
      .galvanisedSteel).dp_per_m = Flt.fin d := by
  have harg1 : mToMm (if (true : Bool) then mmToM 300 else 0.5 * (1e-4 + 5.0)) =
      300 := by norm_num [mToMm, mmToM]
  have harg2 : mToMm (if (true : Bool) then 0.5 * (1e-4 + 5.0) else mmToM 300) =
      2500.05 := by norm_num [mToMm]
  rw [harg1, harg2]
  have hA : rectArea_m2_from_mm 300 2500.05 = 0.750015 := by
    rw [rectArea_m2_from_mm,
      max_eq_right (by norm_num : (0 : ℝ) ≤ 300 / 1000 * (2500.05 / 1000))]
    norm_num
  have hRe : (calcRectNums 300 2500.05 1e-6 0 0 .galvanisedSteel).Re =
      101325 / (287.058 * 273.15) * (1e-6 / 0.750015) *
        (4 * 0.750015 / 5.6001) / 1.716e-5 := by
    rw [calcRectNums_Re_eq, moistAirDensity_dry0, dynamicViscosityAir_at0, hA]
    rw [if_pos (by norm_num : (0.750015 : ℝ) > 0),
      if_pos (by norm_num : (0.750015 : ℝ) > 0)]
    rw [abs_of_pos (by norm_num : (0 : ℝ) < 1e-6 / 0.750015)]
    rw [show rectPerimeter_m_from_mm 300 2500.05 = 5.6001 by
      rw [rectPerimeter_m_from_mm]; norm_num]
  refine ⟨_, dp_fin_of_laminar 300 2500.05 1e-6 0 0 .galvanisedSteel
    (by norm_num) (by rw [rectPerimeter_m_from_mm]; norm_num) ?_ ?_⟩
  · rw [hRe]; positivity
  · rw [hRe]; norm_num

/-- The first bisection evaluation of the fixed-height run is finite. -/
theorem c9_first_eval_H :
    ∃ d, (calcRectNums (mToMm (if (false : Bool) then mmToM 300 else 0.5 * (1e-4 + 5.0)))
      (mToMm (if (false : Bool) then 0.5 * (1e-4 + 5.0) else mmToM 300)) 1e-6 0 0
      .galvanisedSteel).dp_per_m = Flt.fin d := by
  have harg1 : mToMm (if (false : Bool) then mmToM 300 else 0.5 * (1e-4 + 5.0)) =
      2500.05 := by norm_num [mToMm]
  have harg2 : mToMm (if (false : Bool) then 0.5 * (1e-4 + 5.0) else mmToM 300) =
      300 := by norm_num [mToMm, mmToM]
  rw [harg1, harg2]
  have hA : rectArea_m2_from_mm 2500.05 300 = 0.750015 := by
    rw [rectArea_m2_from_mm,
      max_eq_right (by norm_num : (0 : ℝ) ≤ 2500.05 / 1000 * (300 / 1000))]
    norm_num
  have hRe : (calcRectNums 2500.05 300 1e-6 0 0 .galvanisedSteel).Re =
      101325 / (287.058 * 273.15) * (1e-6 / 0.750015) *
        (4 * 0.750015 / 5.6001) / 1.716e-5 := by
    rw [calcRectNums_Re_eq, moistAirDensity_dry0, dynamicViscosityAir_at0, hA]
    rw [if_pos (by norm_num : (0.750015 : ℝ) > 0),
      if_pos (by norm_num : (0.750015 : ℝ) > 0)]
    rw [abs_of_pos (by norm_num : (0 : ℝ) < 1e-6 / 0.750015)]
    rw [show rectPerimeter_m_from_mm 2500.05 300 = 5.6001 by
      rw [rectPerimeter_m_from_mm]; norm_num]
  refine ⟨_, dp_fin_of_laminar 2500.05 300 1e-6 0 0 .galvanisedSteel
    (by norm_num) (by rw [rectPerimeter_m_from_mm]; norm_num) ?_ ?_⟩
  · rw [hRe]; positivity
  · rw [hRe]; norm_num


/-- Witness for C9 at the two concrete fixed-dimension runs. -/
theorem fixedDim_picks_larger_candidate_witness :
    (∃ sol : ℝ × ℝ,
      solveMissingDimension true 300 (flowInputToM3s 1e-6 .m3s) 1 0 0
        .galvanisedSteel = some sol ∧
      (runSolverWithValues c9inpW).results = some (.fixedDim 300
        (max (mToMm ((flowInputToM3s 1e-6 .m3s / 1) / mmToM 300)) sol.1)
        (flowInputToM3s 1e-6 .m3s)
        (calcRectNums 300
          (max (mToMm ((flowInputToM3s 1e-6 .m3s / 1) / mmToM 300)) sol.1)
          (flowInputToM3s 1e-6 .m3s) 0 0 .galvanisedSteel).dp_per_m)) ∧
    (∃ sol : ℝ × ℝ,
      solveMissingDimension false 300 (flowInputToM3s 1e-6 .m3s) 1 0 0
        .galvanisedSteel = some sol ∧
      (runSolverWithValues c9inpH).results = some (.fixedDim
        (max (mToMm ((flowInputToM3s 1e-6 .m3s / 1) / mmToM 300)) sol.1) 300
        (flowInputToM3s 1e-6 .m3s)
        (calcRectNums
          (max (mToMm ((flowInputToM3s 1e-6 .m3s / 1) / mmToM 300)) sol.1) 300
          (flowInputToM3s 1e-6 .m3s) 0 0 .galvanisedSteel).dp_per_m)) := by
  constructor
  · exact (fixedDim_picks_larger_candidate c9inpW rfl (by norm_num [c9inpW])
      (by norm_num [c9inpW]) (by norm_num [c9inpW, flowInputToM3s])).1
      (by norm_num [c9inpW]) (by norm_num [c9inpW])
      (solveMissingDimension_isSome true 300 (flowInputToM3s 1e-6 .m3s) 1 0 0
        .galvanisedSteel (by norm_num [mmToM, flowInputToM3s]) c9_first_eval_W)
  · exact (fixedDim_picks_larger_candidate c9inpH rfl (by norm_num [c9inpH])
      (by norm_num [c9inpH]) (by norm_num [c9inpH, flowInputToM3s])).2
      (by norm_num [c9inpH]) (by norm_num [c9inpH])
      (solveMissingDimension_isSome false 300 (flowInputToM3s 1e-6 .m3s) 1 0 0
        .galvanisedSteel (by norm_num [mmToM, flowInputToM3s]) c9_first_eval_H)


/-- In the turbulent regime (`Re ≥ 2300`) with genuine geometry and a
nonzero Haaland denominator, the pressure drop is the finite Haaland value. -/
theorem dp_fin_of_turbulent (w h Q T RH : ℝ) (mat : Material)
    (hprod : 0 < (w / 1000) * (h / 1000))
    (hper : 0 < rectPerimeter_m_from_mm w h)
    (hRe : 2300 ≤ (calcRectNums w h Q T RH mat).Re)
    (hd : (-1.8 * Real.logb 10
        ((roughness mat / max (calcRectNums w h Q T RH mat).Dh 1e-9 / 3.7) ^
          (1.11 : ℝ) + 6.9 / (calcRectNums w h Q T RH mat).Re)) ^ 2 ≠ 0) :
    (calcRectNums w h Q T RH mat).dp_per_m =
      Flt.fin ((1.0 / (-1.8 * Real.logb 10
          ((roughness mat / max (calcRectNums w h Q T RH mat).Dh 1e-9 / 3.7) ^
            (1.11 : ℝ) + 6.9 / (calcRectNums w h Q T RH mat).Re)) ^ 2) *
        ((calcRectNums w h Q T RH mat).rho * (calcRectNums w h Q T RH mat).V *
          (calcRectNums w h Q T RH mat).V /
            (2 * (calcRectNums w h Q T RH mat).Dh))) := by
  have hA : rectArea_m2_from_mm w h = (w / 1000) * (h / 1000) :=
    max_eq_right (le_of_lt hprod)
  have hApos : rectArea_m2_from_mm w h > 0 := by rw [hA]; exact hprod
  have hDhpos : 0 < 4 * rectArea_m2_from_mm w h / rectPerimeter_m_from_mm w h := by
    positivity
  have hRe0 : (0 : ℝ) < (calcRectNums w h Q T RH mat).Re :=
    lt_of_lt_of_le (by norm_num) hRe
  have hc : (rectArea_m2_from_mm w h > 0) = True := eq_true hApos
  simp only [calcRectNums, haalandFrictionFactor, hc, if_true] at hRe hRe0 hd ⊢
  rw [if_pos hDhpos, if_neg (not_le.mpr hRe0), if_neg (not_lt.mpr hRe), if_neg hd]
  rfl

set_option maxHeartbeats 1000000 in
/-- Every flow in the bisection bracket through the 5 m × 5 m galvanised duct
with dry 0 °C air evaluates to a finite pressure drop of at most `1 Pa/m`. -/
theorem dom5m (q : ℝ) (hq1 : 1e-6 ≤ q) (hq2 : q ≤ 10) :
    ∃ d, (calcRectNums 5000 5000 q 0 0 .galvanisedSteel).dp_per_m = Flt.fin d ∧
      0 ≤ d ∧ d ≤ 1 := by
  have hq0 : (0 : ℝ) < q := by linarith
  have hprod : (0 : ℝ) < 5000 / 1000 * (5000 / 1000) := by norm_num
  have hA : rectArea_m2_from_mm 5000 5000 = 25 := by
    rw [rectArea_m2_from_mm,
      max_eq_right (by norm_num : (0 : ℝ) ≤ 5000 / 1000 * (5000 / 1000))]
    norm_num
  have hP : rectPerimeter_m_from_mm 5000 5000 = 20 := by
    rw [rectPerimeter_m_from_mm]; norm_num
  have hApos : rectArea_m2_from_mm 5000 5000 > 0 := by rw [hA]; norm_num
  have hRe : (calcRectNums 5000 5000 q 0 0 .galvanisedSteel).Re =
      101325 / (287.058 * 273.15) * (q / 25) * 5 / 1.716e-5 := by
    rw [calcRectNums_Re_eq, moistAirDensity_dry0, dynamicViscosityAir_at0, hA, hP]
    rw [if_pos (by norm_num : (25 : ℝ) > 0), if_pos (by norm_num : (25 : ℝ) > 0)]
    rw [abs_of_pos (by positivity)]
    norm_num
  have hrho : (calcRectNums 5000 5000 q 0 0 .galvanisedSteel).rho =
      101325 / (287.058 * 273.15) := moistAirDensity_dry0
  have hV : (calcRectNums 5000 5000 q 0 0 .galvanisedSteel).V = q / 25 := by
    rw [show (calcRectNums 5000 5000 q 0 0 .galvanisedSteel).V =
      (if rectArea_m2_from_mm 5000 5000 > 0 then
        q / rectArea_m2_from_mm 5000 5000 else 0) from rfl]
    rw [if_pos hApos, hA]
  have hDh : (calcRectNums 5000 5000 q 0 0 .galvanisedSteel).Dh = 5 := by
    rw [show (calcRectNums 5000 5000 q 0 0 .galvanisedSteel).Dh =
      (if rectArea_m2_from_mm 5000 5000 > 0 then
        4 * rectArea_m2_from_mm 5000 5000 / rectPerimeter_m_from_mm 5000 5000
      else 0) from rfl]
    rw [if_pos hApos, hA, hP]
    norm_num
  have hrho_pos : (0 : ℝ) < 101325 / (287.058 * 273.15) := by norm_num
  rcases lt_or_ge (calcRectNums 5000 5000 q 0 0 .galvanisedSteel).Re 2300 with
    hlam | hturb
  · have hRe0 : 0 < (calcRectNums 5000 5000 q 0 0 .galvanisedSteel).Re := by
      rw [hRe]; positivity
    refine ⟨_, dp_fin_of_laminar 5000 5000 q 0 0 .galvanisedSteel hprod
      (by rw [hP]; norm_num) hRe0 hlam, ?_, ?_⟩
    · rw [hRe, hrho, hV, hDh]
      positivity
    · rw [hRe, hrho, hV, hDh]
      have heq : 64.0 / (101325 / (287.058 * 273.15) * (q / 25) * 5 / 1.716e-5) *
          (101325 / (287.058 * 273.15) * (q / 25) * (q / 25) / (2 * 5)) =
          64.0 * 1.716e-5 / 1250 * q := by
        field_simp
        ring
      rw [heq]
      nlinarith [hq2]
  · -- turbulent branch
    have hx : roughness Material.galvanisedSteel /
        max (calcRectNums 5000 5000 q 0 0 .galvanisedSteel).Dh 1e-9 / 3.7 =
        0.00015 / 5 / 3.7 := by
      rw [hDh, roughness, max_eq_left (by norm_num)]
    have hxpos : (0 : ℝ) < 0.00015 / 5 / 3.7 := by norm_num
    have hxle : (0.00015 : ℝ) / 5 / 3.7 ≤ 1 := by norm_num
    have hrp_le : (0.00015 / 5 / 3.7 : ℝ) ^ (1.11 : ℝ) ≤ 0.00015 / 5 / 3.7 := by
      have := Real.rpow_le_rpow_of_exponent_ge hxpos hxle
        (by norm_num : (1 : ℝ) ≤ 1.11)
      rwa [Real.rpow_one] at this
    have hrp_pos : (0 : ℝ) < (0.00015 / 5 / 3.7 : ℝ) ^ (1.11 : ℝ) :=
      Real.rpow_pos_of_pos hxpos _
    have h69le : 6.9 / (calcRectNums 5000 5000 q 0 0 .galvanisedSteel).Re ≤
        6.9 / 2300 :=
      div_le_div_of_nonneg_left (by norm_num) (by norm_num) hturb
    have h69pos : 0 < 6.9 / (calcRectNums 5000 5000 q 0 0 .galvanisedSteel).Re :=
      div_pos (by norm_num) (lt_of_lt_of_le (by norm_num) hturb)
    set Ah := (0.00015 / 5 / 3.7 : ℝ) ^ (1.11 : ℝ) +
      6.9 / (calcRectNums 5000 5000 q 0 0 .galvanisedSteel).Re with hAh
    have hAhpos : 0 < Ah := by positivity
    have hAhle : Ah ≤ 1 / 10 := by
      have : (0.00015 / 5 / 3.7 : ℝ) + 6.9 / 2300 ≤ 1 / 10 := by norm_num
      linarith
    have hlogb : Real.logb 10 Ah ≤ -1 := by
      rw [Real.logb_le_iff_le_rpow (by norm_num) hAhpos]
      rw [show ((-1 : ℝ)) = -(1 : ℝ) from rfl, Real.rpow_neg (by norm_num),
        Real.rpow_one]
      rw [show ((10 : ℝ))⁻¹ = 1 / 10 by norm_num]
      exact hAhle
    have hneg : (1.8 : ℝ) ≤ -1.8 * Real.logb 10 Ah := by nlinarith
    have hsq : (3.24 : ℝ) ≤ (-1.8 * Real.logb 10 Ah) ^ 2 := by nlinarith
    have hdne : (-1.8 * Real.logb 10 Ah) ^ 2 ≠ 0 := by positivity
    have hdp := dp_fin_of_turbulent 5000 5000 q 0 0 .galvanisedSteel hprod
      (by rw [hP]; norm_num) hturb (by rw [hx, ← hAh]; exact hdne)
    rw [hx, ← hAh] at hdp
    refine ⟨_, hdp, ?_, ?_⟩
    · rw [hrho, hV, hDh]
      have h1 : 0 < (-1.8 * Real.logb 10 Ah) ^ 2 := by positivity
      positivity
    · rw [hrho, hV, hDh]
      set F := 1.0 / (-1.8 * Real.logb 10 Ah) ^ 2 with hF
      have hfle : F ≤ 1 / 3.24 := by
        rw [hF, show (1.0 : ℝ) = 1 by norm_num]
        exact one_div_le_one_div_of_le (by norm_num) hsq
      have hF0 : 0 ≤ F := by rw [hF]; positivity
      have hVle : q / 25 ≤ 0.4 := by linarith
      have hV0 : 0 ≤ q / 25 := by positivity
      have hrhole : (101325 : ℝ) / (287.058 * 273.15) ≤ 1.293 := by norm_num
      have h1 : 101325 / (287.058 * 273.15) * (q / 25) ≤ 1.293 * 0.4 :=
        mul_le_mul hrhole hVle hV0 (by norm_num)
      have h2 : 101325 / (287.058 * 273.15) * (q / 25) * (q / 25) ≤
          1.293 * 0.4 * 0.4 :=
        mul_le_mul h1 hVle hV0 (by norm_num)
      have hbody : 101325 / (287.058 * 273.15) * (q / 25) * (q / 25) / (2 * 5) ≤
          1.293 * 0.4 * 0.4 / 10 := by linarith
      have hbody0 : 0 ≤ 101325 / (287.058 * 273.15) * (q / 25) * (q / 25) /
          (2 * 5) := by positivity
      have hmul := mul_le_mul hfle hbody hbody0 (by norm_num : (0 : ℝ) ≤ 1 / 3.24)
      linarith [hmul]


/-- When every midpoint evaluation in the bracket is feasible (finite,
`0 ≤ dp ≤ 1`) and the target is at least `2`, every round takes the
"feasible" branch with no early exit, so the loop result is determined by
pure interval halving: `hi - (hi - lo)/2^n`. -/
theorem mfLoop_saturated (w_m h_m T RH : ℝ) (mat : Material) (t : ℝ) (ht : 2 ≤ t)
    (hdom : ∀ q : ℝ, 1e-6 ≤ q → q ≤ 10 →
      ∃ d, (calcRectNums (mToMm w_m) (mToMm h_m) q T RH mat).dp_per_m =
        Flt.fin d ∧ 0 ≤ d ∧ d ≤ 1) :
    ∀ n lo hi bq, 1e-6 ≤ lo → lo ≤ hi → hi ≤ 10 →
      mfLoop w_m h_m t T RH mat n lo hi bq =
        if n = 0 then bq else hi - (hi - lo) / 2 ^ n := by
  intro n
  induction n with
  | zero => intro lo hi bq _ _ _; simp [mfLoop]
  | succ n ih =>
    intro lo hi bq hlo hlh hhi
    rw [mfLoop.eq_def]; simp only
    have hmid1 : 1e-6 ≤ 0.5 * (lo + hi) := by linarith
    have hmid2 : 0.5 * (lo + hi) ≤ 10 := by linarith
    obtain ⟨d, hd, hd0, hd1⟩ := hdom _ hmid1 hmid2
    rw [hd]
    simp only
    have hngt : (d > t) = False := eq_false (by linarith)
    simp only [hngt, if_false]
    have htol : ¬ (|d - t| / max t 1e-6 < 1e-4) := by
      rw [abs_of_nonpos (by linarith), max_eq_left (by linarith),
        neg_sub, div_lt_iff (by linarith)]
      nlinarith
    rw [if_neg htol]
    rw [ih (0.5 * (lo + hi)) hi (0.5 * (lo + hi)) hmid1 (by linarith) hhi]
    by_cases hn : n = 0
    · subst hn
      simp only [if_pos rfl, if_neg (Nat.succ_ne_zero 0)]
      ring_nf
      simp
    · rw [if_neg hn, if_neg (Nat.succ_ne_zero n)]
      have h2 : (2 : ℝ) ^ n ≠ 0 := by positivity
      field_simp
      ring


/-- For the 5 m × 5 m galvanised duct with dry 0 °C air, every target of at
least `2 Pa/m` is saturated: the bisection exhausts all 80 iterations on the
feasible branch, returning the same flow regardless of the target. -/
theorem solveMaxFlow_saturated (t : ℝ) (ht : 2 ≤ t) :
    solveMaxFlow 5000 5000 t 0 0 .galvanisedSteel =
      some (10 - (10 - 1e-6) / 2 ^ 80) := by
  have hok : ¬ (mmToM 5000 ≤ 0 ∨ mmToM 5000 ≤ 0 ∨ t ≤ 0) := by
    push_neg
    refine ⟨by norm_num [mmToM], by norm_num [mmToM], by linarith⟩
  simp only [solveMaxFlow]
  rw [if_neg hok]
  have hdom : ∀ q : ℝ, 1e-6 ≤ q → q ≤ 10 →
      ∃ d, (calcRectNums (mToMm (mmToM 5000)) (mToMm (mmToM 5000)) q 0 0
        .galvanisedSteel).dp_per_m = Flt.fin d ∧ 0 ≤ d ∧ d ≤ 1 := by
    intro q h1 h2
    rw [show mToMm (mmToM 5000) = 5000 by norm_num [mToMm, mmToM]]
    exact dom5m q h1 h2
  rw [mfLoop_saturated (mmToM 5000) (mmToM 5000) 0 0 .galvanisedSteel t ht hdom
    80 1e-6 10 0 (le_refl _) (by norm_num) (le_refl _)]
  norm_num

/-- Counterexample for C5: doubling a saturated target does not change the
returned flow at all — the "strictly greater flow for a strictly greater
target" half of the claim fails. -/
theorem solveMaxFlow_not_strictly_monotone :
    (0 : ℝ) < 1e9 ∧ (1e9 : ℝ) < 2e9 ∧
    solveMaxFlow 5000 5000 2e9 0 0 .galvanisedSteel =
      solveMaxFlow 5000 5000 1e9 0 0 .galvanisedSteel := by
  refine ⟨by norm_num, by norm_num, ?_⟩
  rw [solveMaxFlow_saturated 2e9 (by norm_num),
    solveMaxFlow_saturated 1e9 (by norm_num)]

/-- Witness for the amended C5 at the saturated run: the returned flow is
nonzero and its evaluation meets the (huge) target. -/
theorem solveMaxFlow_feedback_witness :
    ∃ d, (calcRectNums (mToMm (mmToM 5000)) (mToMm (mmToM 5000))
      (10 - (10 - 1e-6) / 2 ^ 80) 0 0 .galvanisedSteel).dp_per_m =
        Flt.fin d ∧ d ≤ 1e9 :=
  solveMaxFlow_feedback 5000 5000 1e9 0 0 .galvanisedSteel
    (10 - (10 - 1e-6) / 2 ^ 80) (solveMaxFlow_saturated 1e9 (by norm_num))
    (by norm_num)



/-- At width 0.021 mm, height 0.1 mm (the bottom of the search range), flow
0.01 m³/s, dry 0 °C air and galvanised steel, the evaluated pressure drop is
finite and at most `3.4e19 Pa/m`: the Haaland argument is comfortably above
`1`, so `log₁₀` of it is at least `1/16` and the friction factor is bounded. -/
theorem c3_dp_h1 :
    ∃ d, (calcRectNums 0.021 0.1 0.01 0 0 .galvanisedSteel).dp_per_m = Flt.fin d ∧
      d ≤ 3.4e19 := by
  have hprod : (0 : ℝ) < 0.021 / 1000 * (0.1 / 1000) := by norm_num
  have hA : rectArea_m2_from_mm 0.021 0.1 = 0.021 / 1000 * (0.1 / 1000) :=
    max_eq_right (le_of_lt hprod)
  have hApos : rectArea_m2_from_mm 0.021 0.1 > 0 := by rw [hA]; exact hprod
  have hc : (rectArea_m2_from_mm 0.021 0.1 > 0) = True := eq_true hApos
  have hDh : (calcRectNums 0.021 0.1 0.01 0 0 .galvanisedSteel).Dh = (21 / 605000 : ℝ) := by
    rw [show (calcRectNums 0.021 0.1 0.01 0 0 .galvanisedSteel).Dh =
      (if rectArea_m2_from_mm 0.021 0.1 > 0 then
        4 * rectArea_m2_from_mm 0.021 0.1 / rectPerimeter_m_from_mm 0.021 0.1
      else 0) from rfl]
    rw [if_pos hApos, hA, rectPerimeter_m_from_mm]
    norm_num
  have hV : (calcRectNums 0.021 0.1 0.01 0 0 .galvanisedSteel).V = (100000000 / 21 : ℝ) := by
    rw [show (calcRectNums 0.021 0.1 0.01 0 0 .galvanisedSteel).V =
      (if rectArea_m2_from_mm 0.021 0.1 > 0 then
        0.01 / rectArea_m2_from_mm 0.021 0.1 else 0) from rfl]
    rw [if_pos hApos, hA]
    norm_num
  have hrho : (calcRectNums 0.021 0.1 0.01 0 0 .galvanisedSteel).rho = (337750000 / 261366309 : ℝ) := by
    rw [show (calcRectNums 0.021 0.1 0.01 0 0 .galvanisedSteel).rho = moistAirDensity 101325 0 0 from rfl, moistAirDensity_dry0]
    norm_num
  have hRe : (calcRectNums 0.021 0.1 0.01 0 0 .galvanisedSteel).Re = (168875000000000000000 / 13567263733881 : ℝ) := by
    rw [calcRectNums_Re_eq, moistAirDensity_dry0, dynamicViscosityAir_at0]
    simp only [hc, if_true]
    rw [hA, rectPerimeter_m_from_mm,
      abs_of_pos (by norm_num : (0 : ℝ) < 0.01 / (0.021 / 1000 * (0.1 / 1000)))]
    norm_num
  have hRe2300 : (2300 : ℝ) ≤ (calcRectNums 0.021 0.1 0.01 0 0 .galvanisedSteel).Re := by rw [hRe]; norm_num
  have hx : roughness Material.galvanisedSteel / max (calcRectNums 0.021 0.1 0.01 0 0 .galvanisedSteel).Dh 1e-9 / 3.7 = (605 / 518 : ℝ) := by
    rw [hDh, max_eq_left (by norm_num : (1e-9 : ℝ) ≤ (21 / 605000 : ℝ)),
      show roughness Material.galvanisedSteel = 0.00015 from rfl]
    norm_num
  have hxge : (1 : ℝ) ≤ (605 / 518 : ℝ) := by norm_num
  have hrp_ge : (605 / 518 : ℝ) ≤ (605 / 518 : ℝ) ^ (1.11 : ℝ) := by
    have h := Real.rpow_le_rpow_of_exponent_le hxge (by norm_num : (1 : ℝ) ≤ 1.11)
    rwa [Real.rpow_one] at h
  have hAexpr_pos : (0 : ℝ) < (605 / 518 : ℝ) ^ (1.11 : ℝ) + 6.9 / (168875000000000000000 / 13567263733881 : ℝ) := by positivity

  have hlog_lo : (1 : ℝ) / 16 ≤ Real.logb 10 ((605 / 518 : ℝ) ^ (1.11 : ℝ) + 6.9 / (168875000000000000000 / 13567263733881 : ℝ)) := by
    rw [Real.le_logb_iff_rpow_le (by norm_num) hAexpr_pos]
    have hbase : (0 : ℝ) ≤ (605 / 518 : ℝ) + 6.9 / (168875000000000000000 / 13567263733881 : ℝ) := by norm_num
    have h10 : ((10 : ℝ) ^ ((1 : ℝ) / 16)) ^ (16 : ℕ) = 10 := by
      rw [← Real.rpow_natCast ((10 : ℝ) ^ ((1 : ℝ) / 16)) 16,
        ← Real.rpow_mul (by norm_num : (0 : ℝ) ≤ 10)]
      norm_num
    have hcert : ((10 : ℝ) ^ ((1 : ℝ) / 16)) ^ (16 : ℕ) ≤
        ((605 / 518 : ℝ) + 6.9 / (168875000000000000000 / 13567263733881 : ℝ)) ^ (16 : ℕ) := by
      rw [h10]; norm_num
    have hle : (10 : ℝ) ^ ((1 : ℝ) / 16) ≤ (605 / 518 : ℝ) + 6.9 / (168875000000000000000 / 13567263733881 : ℝ) :=
      le_of_pow_le_pow_left (by norm_num) hbase hcert
    have := add_le_add_right hrp_ge (6.9 / (168875000000000000000 / 13567263733881 : ℝ))
    linarith
  have hlog_pos : (0 : ℝ) < Real.logb 10 ((605 / 518 : ℝ) ^ (1.11 : ℝ) + 6.9 / (168875000000000000000 / 13567263733881 : ℝ)) :=
    lt_of_lt_of_le (by norm_num) hlog_lo
  have hdlo : ((1.8 / 16 : ℝ)) ^ 2 ≤
      (-1.8 * Real.logb 10 ((605 / 518 : ℝ) ^ (1.11 : ℝ) + 6.9 / (168875000000000000000 / 13567263733881 : ℝ))) ^ 2 := by
    nlinarith [hlog_lo]
  have hdpos : (0 : ℝ) < (-1.8 * Real.logb 10 ((605 / 518 : ℝ) ^ (1.11 : ℝ) + 6.9 / (168875000000000000000 / 13567263733881 : ℝ))) ^ 2 := by
    nlinarith [hlog_pos]
  have hAeq : (roughness Material.galvanisedSteel / max (calcRectNums 0.021 0.1 0.01 0 0 .galvanisedSteel).Dh 1e-9 / 3.7) ^
      (1.11 : ℝ) + 6.9 / (calcRectNums 0.021 0.1 0.01 0 0 .galvanisedSteel).Re = (605 / 518 : ℝ) ^ (1.11 : ℝ) + 6.9 / (168875000000000000000 / 13567263733881 : ℝ) := by
    rw [hx, hRe]
  have hdne : (-1.8 * Real.logb 10
      ((roughness Material.galvanisedSteel / max (calcRectNums 0.021 0.1 0.01 0 0 .galvanisedSteel).Dh 1e-9 / 3.7) ^ (1.11 : ℝ) +
        6.9 / (calcRectNums 0.021 0.1 0.01 0 0 .galvanisedSteel).Re)) ^ 2 ≠ 0 := by
    rw [hAeq]; exact ne_of_gt hdpos
  have hdp := dp_fin_of_turbulent 0.021 0.1 0.01 0 0 .galvanisedSteel hprod
    (by rw [rectPerimeter_m_from_mm]; norm_num) hRe2300 hdne
  rw [hAeq, hrho, hV, hDh] at hdp
  refine ⟨_, hdp, ?_⟩
  have hfle : 1.0 / (-1.8 * Real.logb 10 ((605 / 518 : ℝ) ^ (1.11 : ℝ) + 6.9 / (168875000000000000000 / 13567263733881 : ℝ))) ^ 2 ≤
      (6400 / 81 : ℝ) := by
    rw [show (1.0 : ℝ) = 1 by norm_num]
    have h := one_div_le_one_div_of_le (by norm_num : (0 : ℝ) < (1.8 / 16 : ℝ) ^ 2) hdlo
    have he : (1 : ℝ) / ((1.8 / 16 : ℝ) ^ 2) = 6400 / 81 := by norm_num
    linarith [h, he.le, he.ge]
  have hbody : (337750000 / 261366309 : ℝ) * (100000000 / 21 : ℝ) * (100000000 / 21 : ℝ) / (2 * (21 / 605000 : ℝ)) = (145956250000000000000000000000 / 345787626807 : ℝ) := by norm_num
  rw [hbody]
  have hmul := mul_le_mul_of_nonneg_right hfle (by norm_num : (0 : ℝ) ≤ (145956250000000000000000000000 / 345787626807 : ℝ))
  have hfin : (6400 / 81 : ℝ) * (145956250000000000000000000000 / 345787626807 : ℝ) ≤ 3.4e19 := by norm_num
  linarith

/-- At width 0.021 mm, height 0.55 mm, same flow and air state, the
evaluated pressure drop is finite and at least `9.6e20 Pa/m`: the Haaland
argument sits just above `1`, so its `log₁₀` is positive yet below `1/512`
and the friction factor exceeds `(512/1.8)²`. -/
theorem c3_dp_h2 :
    ∃ d, (calcRectNums 0.021 0.55 0.01 0 0 .galvanisedSteel).dp_per_m = Flt.fin d ∧
      9.6e20 ≤ d := by
  have hprod : (0 : ℝ) < 0.021 / 1000 * (0.55 / 1000) := by norm_num
  have hA : rectArea_m2_from_mm 0.021 0.55 = 0.021 / 1000 * (0.55 / 1000) :=
    max_eq_right (le_of_lt hprod)
  have hApos : rectArea_m2_from_mm 0.021 0.55 > 0 := by rw [hA]; exact hprod
  have hc : (rectArea_m2_from_mm 0.021 0.55 > 0) = True := eq_true hApos
  have hDh : (calcRectNums 0.021 0.55 0.01 0 0 .galvanisedSteel).Dh = (231 / 5710000 : ℝ) := by
    rw [show (calcRectNums 0.021 0.55 0.01 0 0 .galvanisedSteel).Dh =
      (if rectArea_m2_from_mm 0.021 0.55 > 0 then
        4 * rectArea_m2_from_mm 0.021 0.55 / rectPerimeter_m_from_mm 0.021 0.55
      else 0) from rfl]
    rw [if_pos hApos, hA, rectPerimeter_m_from_mm]
    norm_num
  have hV : (calcRectNums 0.021 0.55 0.01 0 0 .galvanisedSteel).V = (200000000 / 231 : ℝ) := by
    rw [show (calcRectNums 0.021 0.55 0.01 0 0 .galvanisedSteel).V =
      (if rectArea_m2_from_mm 0.021 0.55 > 0 then
        0.01 / rectArea_m2_from_mm 0.021 0.55 else 0) from rfl]
    rw [if_pos hApos, hA]
    norm_num
  have hrho : (calcRectNums 0.021 0.55 0.01 0 0 .galvanisedSteel).rho = (337750000 / 261366309 : ℝ) := by
    rw [show (calcRectNums 0.021 0.55 0.01 0 0 .galvanisedSteel).rho = moistAirDensity 101325 0 0 from rfl, moistAirDensity_dry0]
    norm_num
  have hRe : (calcRectNums 0.021 0.55 0.01 0 0 .galvanisedSteel).Re = (168875000000000000000 / 64024029686331 : ℝ) := by
    rw [calcRectNums_Re_eq, moistAirDensity_dry0, dynamicViscosityAir_at0]
    simp only [hc, if_true]
    rw [hA, rectPerimeter_m_from_mm,
      abs_of_pos (by norm_num : (0 : ℝ) < 0.01 / (0.021 / 1000 * (0.55 / 1000)))]
    norm_num
  have hRe2300 : (2300 : ℝ) ≤ (calcRectNums 0.021 0.55 0.01 0 0 .galvanisedSteel).Re := by rw [hRe]; norm_num
  have hx : roughness Material.galvanisedSteel / max (calcRectNums 0.021 0.55 0.01 0 0 .galvanisedSteel).Dh 1e-9 / 3.7 = (2855 / 2849 : ℝ) := by
    rw [hDh, max_eq_left (by norm_num : (1e-9 : ℝ) ≤ (231 / 5710000 : ℝ)),
      show roughness Material.galvanisedSteel = 0.00015 from rfl]
    norm_num
  have hxge : (1 : ℝ) ≤ (2855 / 2849 : ℝ) := by norm_num
  have hrp_ge : (2855 / 2849 : ℝ) ≤ (2855 / 2849 : ℝ) ^ (1.11 : ℝ) := by
    have h := Real.rpow_le_rpow_of_exponent_le hxge (by norm_num : (1 : ℝ) ≤ 1.11)
    rwa [Real.rpow_one] at h
  have hAexpr_pos : (0 : ℝ) < (2855 / 2849 : ℝ) ^ (1.11 : ℝ) + 6.9 / (168875000000000000000 / 64024029686331 : ℝ) := by positivity

  have hxgt1 : (1 : ℝ) < (2855 / 2849 : ℝ) := by norm_num
  have hAgt1 : (1 : ℝ) < (2855 / 2849 : ℝ) ^ (1.11 : ℝ) + 6.9 / (168875000000000000000 / 64024029686331 : ℝ) := by
    have h69 : (0 : ℝ) < 6.9 / (168875000000000000000 / 64024029686331 : ℝ) := by norm_num
    linarith [hrp_ge, hxgt1]
  have hrp_le : (2855 / 2849 : ℝ) ^ (1.11 : ℝ) ≤ (2855 / 2849 : ℝ) ^ 2 := by
    have h := Real.rpow_le_rpow_of_exponent_le (le_of_lt hxgt1)
      (by norm_num : (1.11 : ℝ) ≤ 2)
    rwa [Real.rpow_two] at h
  have hlog_hi : Real.logb 10 ((2855 / 2849 : ℝ) ^ (1.11 : ℝ) + 6.9 / (168875000000000000000 / 64024029686331 : ℝ)) ≤ (1 : ℝ) / 512 := by
    rw [Real.logb_le_iff_le_rpow (by norm_num) hAexpr_pos]
    have hub : (2855 / 2849 : ℝ) ^ (1.11 : ℝ) + 6.9 / (168875000000000000000 / 64024029686331 : ℝ) ≤ (2855 / 2849 : ℝ) ^ 2 + 6.9 / (168875000000000000000 / 64024029686331 : ℝ) :=
      add_le_add_right hrp_le _
    have h10 : ((10 : ℝ) ^ ((1 : ℝ) / 512)) ^ (512 : ℕ) = 10 := by
      rw [← Real.rpow_natCast ((10 : ℝ) ^ ((1 : ℝ) / 512)) 512,
        ← Real.rpow_mul (by norm_num : (0 : ℝ) ≤ 10)]
      norm_num
    have hcert : ((2855 / 2849 : ℝ) ^ 2 + 6.9 / (168875000000000000000 / 64024029686331 : ℝ)) ^ (512 : ℕ) ≤
        ((10 : ℝ) ^ ((1 : ℝ) / 512)) ^ (512 : ℕ) := by
      rw [h10]; norm_num
    have hle : (2855 / 2849 : ℝ) ^ 2 + 6.9 / (168875000000000000000 / 64024029686331 : ℝ) ≤ (10 : ℝ) ^ ((1 : ℝ) / 512) :=
      le_of_pow_le_pow_left (by norm_num)
        (Real.rpow_nonneg (by norm_num) _) hcert
    linarith
  have hlog_pos : (0 : ℝ) < Real.logb 10 ((2855 / 2849 : ℝ) ^ (1.11 : ℝ) + 6.9 / (168875000000000000000 / 64024029686331 : ℝ)) :=
    Real.logb_pos (by norm_num) hAgt1
  have hdhi : (-1.8 * Real.logb 10 ((2855 / 2849 : ℝ) ^ (1.11 : ℝ) + 6.9 / (168875000000000000000 / 64024029686331 : ℝ))) ^ 2 ≤
      ((1.8 / 512 : ℝ)) ^ 2 := by
    nlinarith [hlog_pos, hlog_hi]
  have hdpos : (0 : ℝ) < (-1.8 * Real.logb 10 ((2855 / 2849 : ℝ) ^ (1.11 : ℝ) + 6.9 / (168875000000000000000 / 64024029686331 : ℝ))) ^ 2 := by
    nlinarith [hlog_pos]
  have hAeq : (roughness Material.galvanisedSteel / max (calcRectNums 0.021 0.55 0.01 0 0 .galvanisedSteel).Dh 1e-9 / 3.7) ^
      (1.11 : ℝ) + 6.9 / (calcRectNums 0.021 0.55 0.01 0 0 .galvanisedSteel).Re = (2855 / 2849 : ℝ) ^ (1.11 : ℝ) + 6.9 / (168875000000000000000 / 64024029686331 : ℝ) := by
    rw [hx, hRe]
  have hdne : (-1.8 * Real.logb 10
      ((roughness Material.galvanisedSteel / max (calcRectNums 0.021 0.55 0.01 0 0 .galvanisedSteel).Dh 1e-9 / 3.7) ^ (1.11 : ℝ) +
        6.9 / (calcRectNums 0.021 0.55 0.01 0 0 .galvanisedSteel).Re)) ^ 2 ≠ 0 := by
    rw [hAeq]; exact ne_of_gt hdpos
  have hdp := dp_fin_of_turbulent 0.021 0.55 0.01 0 0 .galvanisedSteel hprod
    (by rw [rectPerimeter_m_from_mm]; norm_num) hRe2300 hdne
  rw [hAeq, hrho, hV, hDh] at hdp
  refine ⟨_, hdp, ?_⟩
  have hfge : (6553600 / 81 : ℝ) ≤
      1.0 / (-1.8 * Real.logb 10 ((2855 / 2849 : ℝ) ^ (1.11 : ℝ) + 6.9 / (168875000000000000000 / 64024029686331 : ℝ))) ^ 2 := by
    rw [show (1.0 : ℝ) = 1 by norm_num]
    have h := one_div_le_one_div_of_le hdpos hdhi
    have he : (1 : ℝ) / ((1.8 / 512 : ℝ) ^ 2) = 6553600 / 81 := by norm_num
    linarith [h, he.le, he.ge]
  have hbody : (337750000 / 261366309 : ℝ) * (200000000 / 231 : ℝ) * (200000000 / 231 : ℝ) / (2 * (231 / 5710000 : ℝ)) = (5510150000000000000000000000000 / 460243331280117 : ℝ) := by norm_num
  rw [hbody]
  have hmul := mul_le_mul_of_nonneg_right hfge (by norm_num : (0 : ℝ) ≤ (5510150000000000000000000000000 / 460243331280117 : ℝ))
  have hfin : (9.6e20 : ℝ) ≤ (6553600 / 81 : ℝ) * (5510150000000000000000000000000 / 460243331280117 : ℝ) := by norm_num
  linarith


/-- Counterexample for C3: at fixed width `0.021 mm > 0`, flow
`0.01 m³/s > 0`, dry 0 °C air and galvanised steel, the pressure drop per
metre strictly increases when the height grows from `0.1 mm` (i.e. `1e-4 m`,
the bottom of the search range) to `0.55 mm`: the relative roughness drives
the Haaland correlation towards its singularity at argument `1`.  Pressure
drop is therefore not non-increasing in height over the search range. -/
theorem dp_not_monotone_in_height :
    (0 : ℝ) < 0.021 ∧ (1e-4 : ℝ) ≤ mmToM 0.1 ∧ mmToM 0.1 < mmToM 0.55 ∧
    mmToM 0.55 ≤ 5 ∧ (0 : ℝ) < 0.01 ∧
    Flt.lt (calcRectNums 0.021 0.1 0.01 0 0 .galvanisedSteel).dp_per_m
      (calcRectNums 0.021 0.55 0.01 0 0 .galvanisedSteel).dp_per_m := by
  obtain ⟨d1, he1, hb1⟩ := c3_dp_h1
  obtain ⟨d2, he2, hb2⟩ := c3_dp_h2
  refine ⟨by norm_num, by norm_num [mmToM], by norm_num [mmToM],
    by norm_num [mmToM], by norm_num, ?_⟩
  rw [he1, he2]
  show d1 < d2
  linarith

set_option maxHeartbeats 2000000 in
/-- Amended C3: monotonicity does hold on the laminar branch.  For fixed
width, flow and air state, if two evaluations with `h1 ≤ h2` both land in
the laminar regime (`0 < Re < 2300`), the pressure drop at the larger height
is no larger. -/
theorem dp_laminar_monotone_in_height (w h1 h2 Q T RH : ℝ) (mat : Material)
    (hw : 0 < w) (hh1 : 0 < h1) (h12 : h1 ≤ h2) (hQ : 0 < Q)
    (hmu : 0 < (calcRectNums w h1 Q T RH mat).mu)
    (hRe1pos : 0 < (calcRectNums w h1 Q T RH mat).Re)
    (hRe1 : (calcRectNums w h1 Q T RH mat).Re < 2300)
    (hRe2pos : 0 < (calcRectNums w h2 Q T RH mat).Re)
    (hRe2 : (calcRectNums w h2 Q T RH mat).Re < 2300) :
    Flt.le (calcRectNums w h2 Q T RH mat).dp_per_m
      (calcRectNums w h1 Q T RH mat).dp_per_m := by
  have hh2 : 0 < h2 := lt_of_lt_of_le hh1 h12
  have ha : 0 < w / 1000 := by positivity
  have hb1 : 0 < h1 / 1000 := by positivity
  have hb2 : 0 < h2 / 1000 := by positivity
  have hb12 : h1 / 1000 ≤ h2 / 1000 := by linarith
  have hprod1 : 0 < w / 1000 * (h1 / 1000) := by positivity
  have hprod2 : 0 < w / 1000 * (h2 / 1000) := by positivity
  have hdp1 := dp_fin_of_laminar w h1 Q T RH mat hprod1
    (by rw [rectPerimeter_m_from_mm]; positivity) hRe1pos hRe1
  have hdp2 := dp_fin_of_laminar w h2 Q T RH mat hprod2
    (by rw [rectPerimeter_m_from_mm]; positivity) hRe2pos hRe2
  rw [hdp1, hdp2]
  show (64.0 / (calcRectNums w h2 Q T RH mat).Re) *
      ((calcRectNums w h2 Q T RH mat).rho * (calcRectNums w h2 Q T RH mat).V *
        (calcRectNums w h2 Q T RH mat).V /
          (2 * (calcRectNums w h2 Q T RH mat).Dh)) ≤
    (64.0 / (calcRectNums w h1 Q T RH mat).Re) *
      ((calcRectNums w h1 Q T RH mat).rho * (calcRectNums w h1 Q T RH mat).V *
        (calcRectNums w h1 Q T RH mat).V /
          (2 * (calcRectNums w h1 Q T RH mat).Dh))
  have hA1 : rectArea_m2_from_mm w h1 = w / 1000 * (h1 / 1000) :=
    max_eq_right (le_of_lt hprod1)
  have hA2 : rectArea_m2_from_mm w h2 = w / 1000 * (h2 / 1000) :=
    max_eq_right (le_of_lt hprod2)
  have hA1pos : rectArea_m2_from_mm w h1 > 0 := by rw [hA1]; exact hprod1
  have hA2pos : rectArea_m2_from_mm w h2 > 0 := by rw [hA2]; exact hprod2
  have hV1 : (calcRectNums w h1 Q T RH mat).V = Q / (w / 1000 * (h1 / 1000)) := by
    rw [show (calcRectNums w h1 Q T RH mat).V =
      (if rectArea_m2_from_mm w h1 > 0 then Q / rectArea_m2_from_mm w h1 else 0)
      from rfl, if_pos hA1pos, hA1]
  have hV2 : (calcRectNums w h2 Q T RH mat).V = Q / (w / 1000 * (h2 / 1000)) := by
    rw [show (calcRectNums w h2 Q T RH mat).V =
      (if rectArea_m2_from_mm w h2 > 0 then Q / rectArea_m2_from_mm w h2 else 0)
      from rfl, if_pos hA2pos, hA2]
  have hD1 : (calcRectNums w h1 Q T RH mat).Dh =
      4 * (w / 1000 * (h1 / 1000)) / (2 * (w / 1000 + h1 / 1000)) := by
    rw [show (calcRectNums w h1 Q T RH mat).Dh =
      (if rectArea_m2_from_mm w h1 > 0 then
        4 * rectArea_m2_from_mm w h1 / rectPerimeter_m_from_mm w h1 else 0)
      from rfl, if_pos hA1pos, hA1, rectPerimeter_m_from_mm]
  have hD2 : (calcRectNums w h2 Q T RH mat).Dh =
      4 * (w / 1000 * (h2 / 1000)) / (2 * (w / 1000 + h2 / 1000)) := by
    rw [show (calcRectNums w h2 Q T RH mat).Dh =
      (if rectArea_m2_from_mm w h2 > 0 then
        4 * rectArea_m2_from_mm w h2 / rectPerimeter_m_from_mm w h2 else 0)
      from rfl, if_pos hA2pos, hA2, rectPerimeter_m_from_mm]
  have hrho1 : (calcRectNums w h1 Q T RH mat).rho = moistAirDensity 101325 T RH :=
    rfl
  have hrho2 : (calcRectNums w h2 Q T RH mat).rho = moistAirDensity 101325 T RH :=
    rfl
  have hmu' : (0 : ℝ) < dynamicViscosityAir T := hmu
  have hRe1eq : (calcRectNums w h1 Q T RH mat).Re =
      moistAirDensity 101325 T RH * (Q / (w / 1000 * (h1 / 1000))) *
        (4 * (w / 1000 * (h1 / 1000)) / (2 * (w / 1000 + h1 / 1000))) /
        dynamicViscosityAir T := by
    rw [calcRectNums_Re_eq]
    rw [if_pos hA1pos, if_pos hA1pos, hA1, rectPerimeter_m_from_mm,
      abs_of_pos (by positivity)]
  have hRe2eq : (calcRectNums w h2 Q T RH mat).Re =
      moistAirDensity 101325 T RH * (Q / (w / 1000 * (h2 / 1000))) *
        (4 * (w / 1000 * (h2 / 1000)) / (2 * (w / 1000 + h2 / 1000))) /
        dynamicViscosityAir T := by
    rw [calcRectNums_Re_eq]
    rw [if_pos hA2pos, if_pos hA2pos, hA2, rectPerimeter_m_from_mm,
      abs_of_pos (by positivity)]
  -- density is positive because Re₁ is
  have hrho_pos : 0 < moistAirDensity 101325 T RH := by
    by_contra hneg
    push_neg at hneg
    have hnum : moistAirDensity 101325 T RH * (Q / (w / 1000 * (h1 / 1000))) *
        (4 * (w / 1000 * (h1 / 1000)) / (2 * (w / 1000 + h1 / 1000))) ≤ 0 := by
      have hVD : (0 : ℝ) ≤ Q / (w / 1000 * (h1 / 1000)) *
          (4 * (w / 1000 * (h1 / 1000)) / (2 * (w / 1000 + h1 / 1000))) := by
        positivity
      calc moistAirDensity 101325 T RH * (Q / (w / 1000 * (h1 / 1000))) *
            (4 * (w / 1000 * (h1 / 1000)) / (2 * (w / 1000 + h1 / 1000))) =
          moistAirDensity 101325 T RH * (Q / (w / 1000 * (h1 / 1000)) *
            (4 * (w / 1000 * (h1 / 1000)) / (2 * (w / 1000 + h1 / 1000)))) := by
            ring
        _ ≤ 0 := mul_nonpos_iff.mpr (Or.inr ⟨hneg, hVD⟩)
    have : (calcRectNums w h1 Q T RH mat).Re ≤ 0 := by
      rw [hRe1eq]
      exact div_nonpos_iff.mpr (Or.inr ⟨hnum, le_of_lt hmu'⟩)
    linarith
  rw [hV1, hV2, hD1, hD2, hrho1, hrho2, hRe1eq, hRe2eq]
  set ρ := moistAirDensity 101325 T RH
  set μ := dynamicViscosityAir T
  set a := w / 1000
  set b1 := h1 / 1000
  set b2 := h2 / 1000
  have hab1 : a + b1 > 0 := by positivity
  have hab2 : a + b2 > 0 := by positivity
  have hE2 : 64.0 / (ρ * (Q / (a * b2)) * (4 * (a * b2) / (2 * (a + b2))) / μ) *
      (ρ * (Q / (a * b2)) * (Q / (a * b2)) / (2 * (4 * (a * b2) / (2 * (a + b2))))) =
      8 * μ * Q * (a + b2) ^ 2 / (a ^ 3 * b2 ^ 3) := by
    field_simp
    ring
  have hE1 : 64.0 / (ρ * (Q / (a * b1)) * (4 * (a * b1) / (2 * (a + b1))) / μ) *
      (ρ * (Q / (a * b1)) * (Q / (a * b1)) / (2 * (4 * (a * b1) / (2 * (a + b1))))) =
      8 * μ * Q * (a + b1) ^ 2 / (a ^ 3 * b1 ^ 3) := by
    field_simp
    ring
  rw [hE1, hE2]
  rw [div_le_div_iff (by positivity) (by positivity)]
  have key : (a + b2) * b1 ≤ (a + b1) * b2 := by nlinarith
  have key2 : ((a + b2) * b1) ^ 2 ≤ ((a + b1) * b2) ^ 2 :=
    pow_le_pow_left (by positivity) key 2
  have key3 : (a + b2) ^ 2 * b1 ^ 2 * b1 ≤ (a + b1) ^ 2 * b2 ^ 2 * b2 := by
    have h1' : (a + b2) ^ 2 * b1 ^ 2 ≤ (a + b1) ^ 2 * b2 ^ 2 := by nlinarith [key2]
    have h2' : (0 : ℝ) ≤ (a + b1) ^ 2 * b2 ^ 2 := by positivity
    nlinarith [mul_le_mul h1' hb12 (le_of_lt hb1) h2']
  nlinarith [key3, mul_pos (mul_pos hmu' hQ) (pow_pos ha 3)]

/-- Witness for the amended C3 theorem: the concrete laminar pair
`w = 200 mm`, `h₁ = 200 mm`, `h₂ = 300 mm`, flow `1e-6 m³/s`, dry 0 °C air
(both Reynolds numbers are below 1, hence laminar), where the pressure drop
at the larger height is indeed no larger. -/
theorem dp_laminar_monotone_in_height_witness :
    Flt.le (calcRectNums 200 300 1e-6 0 0 .galvanisedSteel).dp_per_m
      (calcRectNums 200 200 1e-6 0 0 .galvanisedSteel).dp_per_m := by
  have hA1 : rectArea_m2_from_mm 200 200 = 0.04 := by
    rw [rectArea_m2_from_mm,
      max_eq_right (by norm_num : (0 : ℝ) ≤ 200 / 1000 * (200 / 1000))]
    norm_num
  have hA2 : rectArea_m2_from_mm 200 300 = 0.06 := by
    rw [rectArea_m2_from_mm,
      max_eq_right (by norm_num : (0 : ℝ) ≤ 200 / 1000 * (300 / 1000))]
    norm_num
  have hRe1 : (calcRectNums 200 200 1e-6 0 0 .galvanisedSteel).Re =
      101325 / (287.058 * 273.15) * (1e-6 / 0.04) * (4 * 0.04 / 0.8) /
        1.716e-5 := by
    rw [calcRectNums_Re_eq, moistAirDensity_dry0, dynamicViscosityAir_at0, hA1]
    rw [if_pos (by norm_num : (0.04 : ℝ) > 0),
      if_pos (by norm_num : (0.04 : ℝ) > 0)]
    rw [abs_of_pos (by norm_num : (0 : ℝ) < 1e-6 / 0.04)]
    rw [show rectPerimeter_m_from_mm 200 200 = 0.8 by
      rw [rectPerimeter_m_from_mm]; norm_num]
  have hRe2 : (calcRectNums 200 300 1e-6 0 0 .galvanisedSteel).Re =
      101325 / (287.058 * 273.15) * (1e-6 / 0.06) * (4 * 0.06 / 1.0) /
        1.716e-5 := by
    rw [calcRectNums_Re_eq, moistAirDensity_dry0, dynamicViscosityAir_at0, hA2]
    rw [if_pos (by norm_num : (0.06 : ℝ) > 0),
      if_pos (by norm_num : (0.06 : ℝ) > 0)]
    rw [abs_of_pos (by norm_num : (0 : ℝ) < 1e-6 / 0.06)]
    rw [show rectPerimeter_m_from_mm 200 300 = 1.0 by
      rw [rectPerimeter_m_from_mm]; norm_num]
  exact dp_laminar_monotone_in_height 200 200 300 1e-6 0 0 .galvanisedSteel
    (by norm_num) (by norm_num) (by norm_num) (by norm_num)
    (by show (0 : ℝ) < dynamicViscosityAir 0
        rw [dynamicViscosityAir_at0]; norm_num)
    (by rw [hRe1]; positivity) (by rw [hRe1]; norm_num)
    (by rw [hRe2]; positivity) (by rw [hRe2]; norm_num)

/-! ## C4: certified round-trip run of the missing-dimension bisection
(width 300 mm, flow 0.2 m³/s, target 1 Pa/m, galvanised steel, 20 °C, 50 %
relative humidity).  The air-property transcendentals are bracketed by
rational certificates: Taylor bounds for `exp`, power certificates for
`rpow` and `logb`. -/

/-- Taylor certificate for `exp (5875/8768)` (half of the Magnus exponent at
20 °C), 13 terms. -/
theorem exp_c4_half_bounds :
    (1.9543353915 : ℝ) ≤ Real.exp (5875 / 8768) ∧
      Real.exp ((5875 : ℝ) / 8768) ≤ 1.9543353916 := by
  have hb := @Real.exp_bound ((5875 : ℝ) / 8768)
    (by rw [abs_of_pos (by norm_num : (0 : ℝ) < 5875 / 8768)]; norm_num) 13
    (by norm_num)
  simp only [Finset.sum_range_succ, Finset.sum_range_zero] at hb
  rw [show |(5875 : ℝ) / 8768| = 5875 / 8768 from abs_of_pos (by norm_num)] at hb
  norm_num [Nat.factorial] at hb
  rw [abs_le] at hb
  obtain ⟨h1, h2⟩ := hb
  constructor <;> linarith

/-- Rational bracket for the moist-air density at 20 °C, 50 % RH. -/
theorem rho2050_bounds :
    (1.1988441854 : ℝ) ≤ moistAirDensity 101325 20 50 ∧
      moistAirDensity 101325 20 50 ≤ 1.1988441855 := by
  obtain ⟨he1, he2⟩ := exp_c4_half_bounds
  simp only [moistAirDensity, saturationVaporPressurePa]
  rw [show (17.625 * 20 / (243.04 + 20) : ℝ) = ((2 : ℕ) : ℝ) * (5875 / 8768) by
    norm_num, Real.exp_nat_mul]
  have hE0 : (0 : ℝ) ≤ Real.exp ((5875 : ℝ) / 8768) := (Real.exp_pos _).le
  have hE2lo : (1.9543353915 : ℝ) ^ 2 ≤ Real.exp ((5875 : ℝ) / 8768) ^ 2 :=
    pow_le_pow_left (by norm_num) he1 2
  have hE2hi : Real.exp ((5875 : ℝ) / 8768) ^ 2 ≤ (1.9543353916 : ℝ) ^ 2 :=
    pow_le_pow_left hE0 he2 2
  rw [show (1.9543353915 : ℝ) ^ 2 = 3.81942682246945827225 by norm_num] at hE2lo
  rw [show (1.9543353916 : ℝ) ^ 2 = 3.81942682286032535056 by norm_num] at hE2hi
  rw [max_eq_left (by nlinarith)]
  rw [show (287.058 * (20 + 273.15) : ℝ) = 84151.0527 by norm_num,
    show (461.495 * (20 + 273.15) : ℝ) = 135287.25925 by norm_num]
  rw [div_add_div _ _ (by norm_num) (by norm_num)]
  constructor
  · rw [le_div_iff (by norm_num)]
    linarith
  · rw [div_le_iff (by norm_num)]
    linarith

/-- Rational bracket for the dynamic viscosity of air at 20 °C, via a square
certificate for `(293.15/273.15)^1.5`. -/
theorem mu20_bounds :
    (1.8133221203e-5 : ℝ) ≤ dynamicViscosityAir 20 ∧
      dynamicViscosityAir 20 ≤ 1.8133221204e-5 := by
  simp only [dynamicViscosityAir]
  rw [show ((20 : ℝ) + 273.15) / 273.15 = 5863 / 5463 by norm_num]
  rw [show ((273.15 : ℝ) + 110.4) / (20 + 273.15 + 110.4) = 7671 / 8071 by
    norm_num]
  have hkey : (((5863 : ℝ) / 5463) ^ (1.5 : ℝ)) ^ (2 : ℕ) =
      ((5863 : ℝ) / 5463) ^ (3 : ℕ) := by
    rw [← Real.rpow_natCast (((5863 : ℝ) / 5463) ^ (1.5 : ℝ)) 2,
      ← Real.rpow_mul (by norm_num : (0 : ℝ) ≤ 5863 / 5463),
      ← Real.rpow_natCast ((5863 : ℝ) / 5463) 3]
    norm_num
  have hq1 : (1.111816309464612639717132947367 : ℝ) ≤
      ((5863 : ℝ) / 5463) ^ (1.5 : ℝ) := by
    apply le_of_pow_le_pow_left (by norm_num : (2 : ℕ) ≠ 0)
      (Real.rpow_nonneg (by norm_num) _)
    rw [hkey]; norm_num
  have hq2 : ((5863 : ℝ) / 5463) ^ (1.5 : ℝ) ≤
      (1.111816309464612639717132947371 : ℝ) := by
    apply le_of_pow_le_pow_left (by norm_num : (2 : ℕ) ≠ 0) (by norm_num)
    rw [hkey]; norm_num
  constructor <;> nlinarith

/-- Certificate form of a lower bound on `logb 10`: if `1 ≤ Al^q * 10^p`
then `10^(-p/q) ≤ Al`, hence `-p/q ≤ logb 10 A` for any `A ≥ Al`. -/
theorem logb10_ge_cert (A Al : ℝ) (p q : ℕ) (hq : 0 < q) (hAl : 0 < Al)
    (hle : Al ≤ A) (hcert : 1 ≤ Al ^ q * 10 ^ p) :
    -((p : ℝ) / (q : ℝ)) ≤ Real.logb 10 A := by
  have hA0 : 0 < A := lt_of_lt_of_le hAl hle
  rw [Real.le_logb_iff_rpow_le (by norm_num) hA0]
  have hq0 : ((q : ℕ) : ℝ) ≠ 0 := Nat.cast_ne_zero.mpr (Nat.pos_iff_ne_zero.mp hq)
  have key : ((10 : ℝ) ^ (-((p : ℝ) / (q : ℝ)))) ^ (q : ℕ) =
      ((10 : ℝ) ^ (p : ℕ))⁻¹ := by
    rw [← Real.rpow_natCast ((10 : ℝ) ^ (-((p : ℝ) / (q : ℝ)))) q,
      ← Real.rpow_mul (by norm_num : (0 : ℝ) ≤ 10)]
    rw [show -((p : ℝ) / (q : ℝ)) * ((q : ℕ) : ℝ) = -(p : ℝ) by field_simp]
    rw [Real.rpow_neg (by norm_num : (0 : ℝ) ≤ 10), Real.rpow_natCast]
  have hcert' : ((10 : ℝ) ^ (p : ℕ))⁻¹ ≤ Al ^ q := by
    rw [inv_eq_one_div, div_le_iff (by positivity : (0 : ℝ) < 10 ^ p)]
    linarith
  have step : (10 : ℝ) ^ (-((p : ℝ) / (q : ℝ))) ≤ Al := by
    apply le_of_pow_le_pow_left (Nat.pos_iff_ne_zero.mp hq) (le_of_lt hAl)
    rw [key]; exact hcert'
  exact le_trans step hle

/-- Certificate form of an upper bound on `logb 10`: if `Ah^q * 10^p ≤ 1`
then `Ah ≤ 10^(-p/q)`, hence `logb 10 A ≤ -p/q` for any `0 < A ≤ Ah`. -/
theorem logb10_le_cert (A Ah : ℝ) (p q : ℕ) (hq : 0 < q) (hA0 : 0 < A)
    (hle : A ≤ Ah) (hcert : Ah ^ q * 10 ^ p ≤ 1) :
    Real.logb 10 A ≤ -((p : ℝ) / (q : ℝ)) := by
  have hAh0 : 0 < Ah := lt_of_lt_of_le hA0 hle
  rw [Real.logb_le_iff_le_rpow (by norm_num) hA0]
  have key : ((10 : ℝ) ^ (-((p : ℝ) / (q : ℝ)))) ^ (q : ℕ) =
      ((10 : ℝ) ^ (p : ℕ))⁻¹ := by
    rw [← Real.rpow_natCast ((10 : ℝ) ^ (-((p : ℝ) / (q : ℝ)))) q,
      ← Real.rpow_mul (by norm_num : (0 : ℝ) ≤ 10)]
    rw [show -((p : ℝ) / (q : ℝ)) * ((q : ℕ) : ℝ) = -(p : ℝ) by
      field_simp]
    rw [Real.rpow_neg (by norm_num : (0 : ℝ) ≤ 10), Real.rpow_natCast]
  have hcert' : Ah ^ q ≤ ((10 : ℝ) ^ (p : ℕ))⁻¹ := by
    rw [inv_eq_one_div, le_div_iff (by positivity : (0 : ℝ) < 10 ^ p)]
    exact hcert
  have step : Ah ≤ (10 : ℝ) ^ (-((p : ℝ) / (q : ℝ))) := by
    apply le_of_pow_le_pow_left (Nat.pos_iff_ne_zero.mp hq)
      (Real.rpow_nonneg (by norm_num) _)
    rw [key]; exact hcert'
  exact le_trans hle step

set_option maxHeartbeats 1600000 in
/-- Master bound for one turbulent evaluation of the C4 bisection run: with
width 300 mm, flow 0.2 m³/s, air at 20 °C / 50 % RH and galvanised steel, a
height `hmm` (mm) whose derived quantities and certificates are supplied as
rational side conditions yields a finite pressure drop in `[dl, dh]`. -/
theorem c4_eval (hmm a Dh V x xl xh Re1 Re2 Al Ah dl dh : ℝ) (p1 q1 p2 q2 : ℕ)
    (ha : (300 : ℝ) / 1000 * (hmm / 1000) = a) (ha0 : 0 < a) (hhmm : 0 < hmm)
    (hDh : 4 * a / (2 * (300 / 1000 + hmm / 1000)) = Dh) (hDh9 : 1e-9 ≤ Dh)
    (hDh0 : 0 < Dh)
    (hV : (0.2 : ℝ) / a = V) (hV0 : 0 < V)
    (hx : (0.00015 : ℝ) / Dh / 3.7 = x) (hx0 : 0 < x)
    (hxl0 : 0 ≤ xl) (hxh0 : 0 ≤ xh)
    (hcl : xl ^ (100 : ℕ) ≤ x ^ (111 : ℕ)) (hch : x ^ (111 : ℕ) ≤ xh ^ (100 : ℕ))
    (hRe1 : (2300 : ℝ) ≤ Re1) (hRe2 : 0 < Re2)
    (hRe1c : Re1 * 1.8133221204e-5 ≤ 1.1988441854 * (V * Dh))
    (hRe2c : 1.1988441855 * (V * Dh) ≤ Re2 * 1.8133221203e-5)
    (hAl0 : 0 < Al) (hAlc : Al ≤ xl + 6.9 / Re2) (hAhc : xh + 6.9 / Re1 ≤ Ah)
    (hq1 : 0 < q1) (hq2 : 0 < q2) (hp2 : 0 < p2)
    (hcert1 : 1 ≤ Al ^ q1 * 10 ^ p1) (hcert2 : Ah ^ q2 * 10 ^ p2 ≤ 1)
    (hdl0 : 0 ≤ dl) (hdh0 : 0 ≤ dh)
    (hdl : dl * (1.8 * ((p1 : ℝ) / (q1 : ℝ))) ^ 2 ≤ 1.1988441854 * (V * V / (2 * Dh)))
    (hdh : 1.1988441855 * (V * V / (2 * Dh)) ≤ dh * (1.8 * ((p2 : ℝ) / (q2 : ℝ))) ^ 2) :
    ∃ d, (calcRectNums 300 hmm 0.2 20 50 .galvanisedSteel).dp_per_m = Flt.fin d ∧
      dl ≤ d ∧ d ≤ dh := by
  obtain ⟨hρ1, hρ2⟩ := rho2050_bounds
  obtain ⟨hμ1, hμ2⟩ := mu20_bounds
  have hρ0 : (0 : ℝ) < moistAirDensity 101325 20 50 :=
    lt_of_lt_of_le (by norm_num) hρ1
  have hμ0 : (0 : ℝ) < dynamicViscosityAir 20 :=
    lt_of_lt_of_le (by norm_num) hμ1
  have hA : rectArea_m2_from_mm 300 hmm = a := by
    rw [rectArea_m2_from_mm, max_eq_right (by rw [ha]; exact ha0.le)]
    exact ha
  have hApos : rectArea_m2_from_mm 300 hmm > 0 := by rw [hA]; exact ha0
  have hVf : (calcRectNums 300 hmm 0.2 20 50 .galvanisedSteel).V = V := by
    rw [show (calcRectNums 300 hmm 0.2 20 50 .galvanisedSteel).V =
      (if rectArea_m2_from_mm 300 hmm > 0 then 0.2 / rectArea_m2_from_mm 300 hmm
        else 0) from rfl, if_pos hApos, hA]
    exact hV
  have hDf : (calcRectNums 300 hmm 0.2 20 50 .galvanisedSteel).Dh = Dh := by
    rw [show (calcRectNums 300 hmm 0.2 20 50 .galvanisedSteel).Dh =
      (if rectArea_m2_from_mm 300 hmm > 0 then
        4 * rectArea_m2_from_mm 300 hmm / rectPerimeter_m_from_mm 300 hmm
      else 0) from rfl, if_pos hApos, hA, rectPerimeter_m_from_mm]
    exact hDh
  have hReEq : (calcRectNums 300 hmm 0.2 20 50 .galvanisedSteel).Re =
      moistAirDensity 101325 20 50 * V * Dh / dynamicViscosityAir 20 := by
    rw [calcRectNums_Re_eq, if_pos hApos, if_pos hApos, hA,
      rectPerimeter_m_from_mm, hDh, hV, abs_of_pos hV0]
  have hVD0 : (0 : ℝ) ≤ V * Dh := by positivity
  have hRelo : Re1 ≤ (calcRectNums 300 hmm 0.2 20 50 .galvanisedSteel).Re := by
    rw [hReEq, le_div_iff hμ0]
    have s1 : Re1 * dynamicViscosityAir 20 ≤ Re1 * 1.8133221204e-5 :=
      mul_le_mul_of_nonneg_left hμ2 (le_trans (by norm_num) hRe1)
    have s2 : 1.1988441854 * (V * Dh) ≤ moistAirDensity 101325 20 50 * (V * Dh) :=
      mul_le_mul_of_nonneg_right hρ1 hVD0
    calc Re1 * dynamicViscosityAir 20 ≤ 1.1988441854 * (V * Dh) :=
          le_trans s1 hRe1c
      _ ≤ moistAirDensity 101325 20 50 * (V * Dh) := s2
      _ = moistAirDensity 101325 20 50 * V * Dh := by ring
  have hRehi : (calcRectNums 300 hmm 0.2 20 50 .galvanisedSteel).Re ≤ Re2 := by
    rw [hReEq, div_le_iff hμ0]
    calc moistAirDensity 101325 20 50 * V * Dh
        = moistAirDensity 101325 20 50 * (V * Dh) := by ring
      _ ≤ 1.1988441855 * (V * Dh) := mul_le_mul_of_nonneg_right hρ2 hVD0
      _ ≤ Re2 * 1.8133221203e-5 := hRe2c
      _ ≤ Re2 * dynamicViscosityAir 20 :=
          mul_le_mul_of_nonneg_left hμ1 (le_of_lt hRe2)
  have hturb : (2300 : ℝ) ≤ (calcRectNums 300 hmm 0.2 20 50 .galvanisedSteel).Re :=
    le_trans hRe1 hRelo
  have hRe0 : (0 : ℝ) < (calcRectNums 300 hmm 0.2 20 50 .galvanisedSteel).Re :=
    lt_of_lt_of_le (by norm_num) hturb
  have hxp_eq : (x ^ ((1.11 : ℝ))) ^ (100 : ℕ) = x ^ (111 : ℕ) := by
    rw [← Real.rpow_natCast (x ^ ((1.11 : ℝ))) 100, ← Real.rpow_mul hx0.le,
      ← Real.rpow_natCast x 111]
    norm_num
  have hxl : xl ≤ x ^ ((1.11 : ℝ)) :=
    le_of_pow_le_pow_left (by norm_num : (100 : ℕ) ≠ 0)
      (Real.rpow_nonneg hx0.le _) (by rw [hxp_eq]; exact hcl)
  have hxh : x ^ ((1.11 : ℝ)) ≤ xh :=
    le_of_pow_le_pow_left (by norm_num : (100 : ℕ) ≠ 0) hxh0
      (by rw [hxp_eq]; exact hch)
  have hbase : roughness Material.galvanisedSteel /
      max (calcRectNums 300 hmm 0.2 20 50 .galvanisedSteel).Dh 1e-9 / 3.7 = x := by
    rw [hDf, roughness, max_eq_left hDh9]
    exact hx
  have hAA1 : Al ≤ x ^ ((1.11 : ℝ)) +
      6.9 / (calcRectNums 300 hmm 0.2 20 50 .galvanisedSteel).Re := by
    have h69 : 6.9 / Re2 ≤
        6.9 / (calcRectNums 300 hmm 0.2 20 50 .galvanisedSteel).Re :=
      div_le_div_of_nonneg_left (by norm_num) hRe0 hRehi
    linarith only [hAlc, hxl, h69]
  have hAA2 : x ^ ((1.11 : ℝ)) +
      6.9 / (calcRectNums 300 hmm 0.2 20 50 .galvanisedSteel).Re ≤ Ah := by
    have h69 : 6.9 / (calcRectNums 300 hmm 0.2 20 50 .galvanisedSteel).Re ≤
        6.9 / Re1 :=
      div_le_div_of_nonneg_left (by norm_num)
        (lt_of_lt_of_le (by norm_num) hRe1) hRelo
    linarith only [hAhc, hxh, h69]
  have hAA0 : 0 < x ^ ((1.11 : ℝ)) +
      6.9 / (calcRectNums 300 hmm 0.2 20 50 .galvanisedSteel).Re :=
    lt_of_lt_of_le hAl0 hAA1
  have hL1 : -((p1 : ℝ) / (q1 : ℝ)) ≤ Real.logb 10 (x ^ ((1.11 : ℝ)) +
      6.9 / (calcRectNums 300 hmm 0.2 20 50 .galvanisedSteel).Re) :=
    logb10_ge_cert _ Al p1 q1 hq1 hAl0 hAA1 hcert1
  have hL2 : Real.logb 10 (x ^ ((1.11 : ℝ)) +
      6.9 / (calcRectNums 300 hmm 0.2 20 50 .galvanisedSteel).Re) ≤
      -((p2 : ℝ) / (q2 : ℝ)) :=
    logb10_le_cert _ Ah p2 q2 hq2 hAA0 hAA2 hcert2
  have hP2pos : (0 : ℝ) < (p2 : ℝ) / (q2 : ℝ) :=
    div_pos (by exact_mod_cast hp2) (by exact_mod_cast hq2)
  have hP1P2 : (p2 : ℝ) / (q2 : ℝ) ≤ (p1 : ℝ) / (q1 : ℝ) := by
    linarith only [hL1, hL2]
  have hml : 1.8 * ((p2 : ℝ) / (q2 : ℝ)) ≤ -1.8 * Real.logb 10 (x ^ ((1.11 : ℝ)) +
      6.9 / (calcRectNums 300 hmm 0.2 20 50 .galvanisedSteel).Re) := by
    linarith only [hL2]
  have hmh : -1.8 * Real.logb 10 (x ^ ((1.11 : ℝ)) +
      6.9 / (calcRectNums 300 hmm 0.2 20 50 .galvanisedSteel).Re) ≤
      1.8 * ((p1 : ℝ) / (q1 : ℝ)) := by linarith only [hL1]
  have hd2lo : (1.8 * ((p2 : ℝ) / (q2 : ℝ))) ^ 2 ≤
      (-1.8 * Real.logb 10 (x ^ ((1.11 : ℝ)) +
        6.9 / (calcRectNums 300 hmm 0.2 20 50 .galvanisedSteel).Re)) ^ 2 :=
    pow_le_pow_left (by positivity) hml 2
  have hd2hi : (-1.8 * Real.logb 10 (x ^ ((1.11 : ℝ)) +
      6.9 / (calcRectNums 300 hmm 0.2 20 50 .galvanisedSteel).Re)) ^ 2 ≤
      (1.8 * ((p1 : ℝ) / (q1 : ℝ))) ^ 2 :=
    pow_le_pow_left (by linarith only [hml, hP2pos]) hmh 2
  have hd2pos : (0 : ℝ) < (-1.8 * Real.logb 10 (x ^ ((1.11 : ℝ)) +
      6.9 / (calcRectNums 300 hmm 0.2 20 50 .galvanisedSteel).Re)) ^ 2 :=
    lt_of_lt_of_le (by positivity) hd2lo
  have hdp := dp_fin_of_turbulent 300 hmm 0.2 20 50 .galvanisedSteel
    (by rw [ha]; exact ha0)
    (by rw [rectPerimeter_m_from_mm]; positivity) hturb
    (by rw [hbase]; exact ne_of_gt hd2pos)
  rw [hbase, hVf, hDf,
    show (calcRectNums 300 hmm 0.2 20 50 .galvanisedSteel).rho =
      moistAirDensity 101325 20 50 from rfl,
    show (1.0 : ℝ) = 1 from by norm_num] at hdp
  refine ⟨_, hdp, ?_, ?_⟩
  · have hS0 : (0 : ℝ) ≤ moistAirDensity 101325 20 50 * V * V / (2 * Dh) := by
      positivity
    have hS1 : 1.1988441854 * (V * V / (2 * Dh)) ≤
        moistAirDensity 101325 20 50 * V * V / (2 * Dh) := by
      calc 1.1988441854 * (V * V / (2 * Dh))
          ≤ moistAirDensity 101325 20 50 * (V * V / (2 * Dh)) :=
            mul_le_mul_of_nonneg_right hρ1 (by positivity)
        _ = moistAirDensity 101325 20 50 * V * V / (2 * Dh) := by ring
    have hP1pos : (0 : ℝ) < (p1 : ℝ) / (q1 : ℝ) := lt_of_lt_of_le hP2pos hP1P2
    have hf1 : 1 / (1.8 * ((p1 : ℝ) / (q1 : ℝ))) ^ 2 ≤
        1 / (-1.8 * Real.logb 10 (x ^ ((1.11 : ℝ)) +
          6.9 / (calcRectNums 300 hmm 0.2 20 50 .galvanisedSteel).Re)) ^ 2 :=
      one_div_le_one_div_of_le hd2pos hd2hi
    have c1 : (1 / (1.8 * ((p1 : ℝ) / (q1 : ℝ))) ^ 2) *
        (dl * (1.8 * ((p1 : ℝ) / (q1 : ℝ))) ^ 2) ≤
        (1 / (1.8 * ((p1 : ℝ) / (q1 : ℝ))) ^ 2) *
        (moistAirDensity 101325 20 50 * V * V / (2 * Dh)) :=
      mul_le_mul_of_nonneg_left (le_trans hdl hS1) (by positivity)
    have hq1ne : ((q1 : ℕ) : ℝ) ≠ 0 :=
      Nat.cast_ne_zero.mpr (Nat.pos_iff_ne_zero.mp hq1)
    have hp1ne : ((p1 : ℕ) : ℝ) ≠ 0 := by
      intro h0
      rw [h0] at hP1pos
      simp at hP1pos
    have c2 : (1 / (1.8 * ((p1 : ℝ) / (q1 : ℝ))) ^ 2) *
        (dl * (1.8 * ((p1 : ℝ) / (q1 : ℝ))) ^ 2) = dl := by
      field_simp
      ring
    have c3 : (1 / (1.8 * ((p1 : ℝ) / (q1 : ℝ))) ^ 2) *
        (moistAirDensity 101325 20 50 * V * V / (2 * Dh)) ≤
        (1 / (-1.8 * Real.logb 10 (x ^ ((1.11 : ℝ)) +
          6.9 / (calcRectNums 300 hmm 0.2 20 50 .galvanisedSteel).Re)) ^ 2) *
        (moistAirDensity 101325 20 50 * V * V / (2 * Dh)) :=
      mul_le_mul_of_nonneg_right hf1 hS0
    linarith only [c1, c2, c3]
  · have hS0 : (0 : ℝ) ≤ moistAirDensity 101325 20 50 * V * V / (2 * Dh) := by
      positivity
    have hS2 : moistAirDensity 101325 20 50 * V * V / (2 * Dh) ≤
        1.1988441855 * (V * V / (2 * Dh)) := by
      calc moistAirDensity 101325 20 50 * V * V / (2 * Dh)
          = moistAirDensity 101325 20 50 * (V * V / (2 * Dh)) := by ring
        _ ≤ 1.1988441855 * (V * V / (2 * Dh)) :=
            mul_le_mul_of_nonneg_right hρ2 (by positivity)
    have hf0 : (0 : ℝ) ≤ 1 / (-1.8 * Real.logb 10 (x ^ ((1.11 : ℝ)) +
        6.9 / (calcRectNums 300 hmm 0.2 20 50 .galvanisedSteel).Re)) ^ 2 :=
      div_nonneg (by norm_num) (sq_nonneg _)
    have hf2 : 1 / (-1.8 * Real.logb 10 (x ^ ((1.11 : ℝ)) +
        6.9 / (calcRectNums 300 hmm 0.2 20 50 .galvanisedSteel).Re)) ^ 2 ≤
        1 / (1.8 * ((p2 : ℝ) / (q2 : ℝ))) ^ 2 :=
      one_div_le_one_div_of_le (by positivity) hd2lo
    have c1 : (1 / (-1.8 * Real.logb 10 (x ^ ((1.11 : ℝ)) +
        6.9 / (calcRectNums 300 hmm 0.2 20 50 .galvanisedSteel).Re)) ^ 2) *
        (moistAirDensity 101325 20 50 * V * V / (2 * Dh)) ≤
        (1 / (-1.8 * Real.logb 10 (x ^ ((1.11 : ℝ)) +
          6.9 / (calcRectNums 300 hmm 0.2 20 50 .galvanisedSteel).Re)) ^ 2) *
        (dh * (1.8 * ((p2 : ℝ) / (q2 : ℝ))) ^ 2) :=
      mul_le_mul_of_nonneg_left (le_trans hS2 hdh) hf0
    have c3 : (1 / (-1.8 * Real.logb 10 (x ^ ((1.11 : ℝ)) +
        6.9 / (calcRectNums 300 hmm 0.2 20 50 .galvanisedSteel).Re)) ^ 2) *
        (dh * (1.8 * ((p2 : ℝ) / (q2 : ℝ))) ^ 2) ≤
        (1 / (1.8 * ((p2 : ℝ) / (q2 : ℝ))) ^ 2) *
        (dh * (1.8 * ((p2 : ℝ) / (q2 : ℝ))) ^ 2) :=
      mul_le_mul_of_nonneg_right hf2 (by positivity)
    have hq2ne : ((q2 : ℕ) : ℝ) ≠ 0 :=
      Nat.cast_ne_zero.mpr (Nat.pos_iff_ne_zero.mp hq2)
    have hp2ne : ((p2 : ℕ) : ℝ) ≠ 0 :=
      Nat.cast_ne_zero.mpr (Nat.pos_iff_ne_zero.mp hp2)
    have c2 : (1 / (1.8 * ((p2 : ℝ) / (q2 : ℝ))) ^ 2) *
        (dh * (1.8 * ((p2 : ℝ) / (q2 : ℝ))) ^ 2) = dh := by
      field_simp
      ring
    linarith only [c1, c2, c3]

/-- C4 bisection evaluation 0: height `2500.05` mm. -/
theorem c4_s0 :
    ∃ d, (calcRectNums 300 2500.05 0.2 20 50 .galvanisedSteel).dp_per_m =
      Flt.fin d ∧ (0.00251462730257 : ℝ) ≤ d ∧ d ≤ 0.00252269346378 :=
  c4_eval 2500.05 ((150003 : ℝ) / 200000) ((50001 : ℝ) / 93335) ((40000 : ℝ) / 150003) ((18667 : ℝ) / 246671600)
    0.00002664651811 0.00002664651812 9444.56557988 9444.5655812
    0.00075722538282 0.000757225382933 0.00251462730257 0.00252269346378
    25 8 78 25
    (by norm_num) (by norm_num) (by norm_num) (by norm_num) (by norm_num)
    (by norm_num) (by norm_num) (by norm_num) (by norm_num) (by norm_num)
    (by norm_num) (by norm_num) (by norm_num) (by norm_num) (by norm_num)
    (by norm_num) (by norm_num) (by norm_num) (by norm_num) (by norm_num)
    (by norm_num) (by norm_num) (by norm_num) (by norm_num) (by norm_num)
    (by norm_num) (by norm_num) (by norm_num) (by norm_num) (by norm_num)

/-- C4 bisection evaluation 1: height `1250.075` mm. -/
theorem c4_s1 :
    ∃ d, (calcRectNums 300 1250.075 0.2 20 50 .galvanisedSteel).dp_per_m =
      Flt.fin d ∧ (0.00961126144923 : ℝ) ≤ d ∧ d ≤ 0.00962022508812 :=
  c4_eval 1250.075 ((150009 : ℝ) / 400000) ((150009 : ℝ) / 310015) ((80000 : ℝ) / 150009) ((62003 : ℝ) / 740044400)
    0.00002983334624 0.00002983334625 17060.629874 17060.6298764
    0.000434273278996 0.000434273279064 0.00961126144923 0.00962022508812
    37 11 195 58
    (by norm_num) (by norm_num) (by norm_num) (by norm_num) (by norm_num)
    (by norm_num) (by norm_num) (by norm_num) (by norm_num) (by norm_num)
    (by norm_num) (by norm_num) (by norm_num) (by norm_num) (by norm_num)
    (by norm_num) (by norm_num) (by norm_num) (by norm_num) (by norm_num)
    (by norm_num) (by norm_num) (by norm_num) (by norm_num) (by norm_num)
    (by norm_num) (by norm_num) (by norm_num) (by norm_num) (by norm_num)

/-- C4 bisection evaluation 2: height `625.0875` mm. -/
theorem c4_s2 :
    ∃ d, (calcRectNums 300 625.0875 0.2 20 50 .galvanisedSteel).dp_per_m =
      Flt.fin d ∧ (0.0410358469431 : ℝ) ≤ d ∧ d ≤ 0.0410581520675 :=
  c4_eval 625.0875 ((150021 : ℝ) / 800000) ((16669 : ℝ) / 41115) ((160000 : ℝ) / 150021) ((24669 : ℝ) / 246701200)
    0.00003630597582 0.00003630597583 28586.7616327 28586.7616368
    0.000277676442599 0.000277676442645 0.0410358469431 0.0410581520675
    409 115 32 9
    (by norm_num) (by norm_num) (by norm_num) (by norm_num) (by norm_num)
    (by norm_num) (by norm_num) (by norm_num) (by norm_num) (by norm_num)
    (by norm_num) (by norm_num) (by norm_num) (by norm_num) (by norm_num)
    (by norm_num) (by norm_num) (by norm_num) (by norm_num) (by norm_num)
    (by norm_num) (by norm_num) (by norm_num) (by norm_num) (by norm_num)
    (by norm_num) (by norm_num) (by norm_num) (by norm_num) (by norm_num)

/-- C4 bisection evaluation 3: height `312.59375` mm. -/
theorem c4_s3 :
    ∃ d, (calcRectNums 300 312.59375 0.2 20 50 .galvanisedSteel).dp_per_m =
      Flt.fin d ∧ (0.202950450481 : ℝ) ≤ d ∧ d ≤ 0.203108112525 :=
  c4_eval 312.59375 ((30009 : ℝ) / 320000) ((30009 : ℝ) / 98015) ((64000 : ℝ) / 30009) ((19603 : ℝ) / 148044400)
    0.00004958415503 0.00004958415504 43169.3203725 43169.3203786
    0.000209419888821 0.000209419888855 0.202950450481 0.203108112525
    92 25 103 28
    (by norm_num) (by norm_num) (by norm_num) (by norm_num) (by norm_num)
    (by norm_num) (by norm_num) (by norm_num) (by norm_num) (by norm_num)
    (by norm_num) (by norm_num) (by norm_num) (by norm_num) (by norm_num)
    (by norm_num) (by norm_num) (by norm_num) (by norm_num) (by norm_num)
    (by norm_num) (by norm_num) (by norm_num) (by norm_num) (by norm_num)
    (by norm_num) (by norm_num) (by norm_num) (by norm_num) (by norm_num)

/-- C4 bisection evaluation 4: height `156.346875` mm. -/
theorem c4_s4 :
    ∃ d, (calcRectNums 300 156.346875 0.2 20 50 .galvanisedSteel).dp_per_m =
      Flt.fin d ∧ (1.18612597422 : ℝ) ≤ d ∧ d ≤ 1.19151132938 :=
  c4_eval 156.346875 ((150093 : ℝ) / 3200000) ((50031 : ℝ) / 243385) ((640000 : ℝ) / 150093) ((48677 : ℝ) / 246819600)
    0.00007715925362 0.00007715925363 57949.9001761 57949.9001843
    0.000196227620917 0.000196227620945 1.18612597422 1.19151132938
    26 7 63 17
    (by norm_num) (by norm_num) (by norm_num) (by norm_num) (by norm_num)
    (by norm_num) (by norm_num) (by norm_num) (by norm_num) (by norm_num)
    (by norm_num) (by norm_num) (by norm_num) (by norm_num) (by norm_num)
    (by norm_num) (by norm_num) (by norm_num) (by norm_num) (by norm_num)
    (by norm_num) (by norm_num) (by norm_num) (by norm_num) (by norm_num)
    (by norm_num) (by norm_num) (by norm_num) (by norm_num) (by norm_num)

/-- C4 bisection evaluation 5: height `234.4703125` mm. -/
theorem c4_s5 :
    ∃ d, (calcRectNums 300 234.4703125 0.2 20 50 .galvanisedSteel).dp_per_m =
      Flt.fin d ∧ (0.411873026684 : ℝ) ≤ d ∧ d ≤ 0.415059653348 :=
  c4_eval 234.4703125 ((450183 : ℝ) / 6400000) ((450183 : ℝ) / 1710305) ((1280000 : ℝ) / 450183) ((342061 : ℝ) / 2220902800)
    0.00005864178082 0.00005864178083 49479.3728172 49479.3728242
    0.000198093831364 0.000198093831395 0.411873026684 0.415059653348
    26 7 37 10
    (by norm_num) (by norm_num) (by norm_num) (by norm_num) (by norm_num)
    (by norm_num) (by norm_num) (by norm_num) (by norm_num) (by norm_num)
    (by norm_num) (by norm_num) (by norm_num) (by norm_num) (by norm_num)
    (by norm_num) (by norm_num) (by norm_num) (by norm_num) (by norm_num)
    (by norm_num) (by norm_num) (by norm_num) (by norm_num) (by norm_num)
    (by norm_num) (by norm_num) (by norm_num) (by norm_num) (by norm_num)

/-- C4 bisection evaluation 6: height `195.40859375` mm. -/
theorem c4_s6 :
    ∃ d, (calcRectNums 300 195.40859375 0.2 20 50 .galvanisedSteel).dp_per_m =
      Flt.fin d ∧ (0.659532055796 : ℝ) ≤ d ∧ d ≤ 0.66165103298 :=
  c4_eval 195.40859375 ((750369 : ℝ) / 12800000) ((750369 : ℝ) / 3170615) ((2560000 : ℝ) / 750369) ((634123 : ℝ) / 3701820400)
    0.00006598900179 0.0000659890018 53380.6966322 53380.6966397
    0.000195249210711 0.00019524921074 0.659532055796 0.66165103298
    26 7 89 24
    (by norm_num) (by norm_num) (by norm_num) (by norm_num) (by norm_num)
    (by norm_num) (by norm_num) (by norm_num) (by norm_num) (by norm_num)
    (by norm_num) (by norm_num) (by norm_num) (by norm_num) (by norm_num)
    (by norm_num) (by norm_num) (by norm_num) (by norm_num) (by norm_num)
    (by norm_num) (by norm_num) (by norm_num) (by norm_num) (by norm_num)
    (by norm_num) (by norm_num) (by norm_num) (by norm_num) (by norm_num)

/-- C4 bisection evaluation 7: height `175.877734375` mm. -/
theorem c4_s7 :
    ∃ d, (calcRectNums 300 175.877734375 0.2 20 50 .galvanisedSteel).dp_per_m =
      Flt.fin d ∧ (0.868892700495 : ℝ) ≤ d ∧ d ≤ 0.87105278103 :=
  c4_eval 175.877734375 ((1350741 : ℝ) / 25600000) ((1350741 : ℝ) / 6091235) ((5120000 : ℝ) / 1350741) ((1218247 : ℝ) / 6663655600)
    0.00007093250808 0.00007093250809 55571.5343284 55571.5343362
    0.000195096796189 0.000195096796217 0.868892700495 0.87105278103
    26 7 115 31
    (by norm_num) (by norm_num) (by norm_num) (by norm_num) (by norm_num)
    (by norm_num) (by norm_num) (by norm_num) (by norm_num) (by norm_num)
    (by norm_num) (by norm_num) (by norm_num) (by norm_num) (by norm_num)
    (by norm_num) (by norm_num) (by norm_num) (by norm_num) (by norm_num)
    (by norm_num) (by norm_num) (by norm_num) (by norm_num) (by norm_num)
    (by norm_num) (by norm_num) (by norm_num) (by norm_num) (by norm_num)

/-- C4 bisection evaluation 8: height `166.1123046875` mm. -/
theorem c4_s8 :
    ∃ d, (calcRectNums 300 166.1123046875 0.2 20 50 .galvanisedSteel).dp_per_m =
      Flt.fin d ∧ (1.0129876892 : ℝ) ≤ d ∧ d ≤ 1.01340161827 :=
  c4_eval 166.1123046875 ((510297 : ℝ) / 10240000) ((510297 : ℝ) / 2386495) ((2048000 : ℝ) / 510297) ((477299 : ℝ) / 2517465200)
    0.00007385638113 0.00007385638114 56735.8029084 56735.8029164
    0.000195472708833 0.000195472708861 1.0129876892 1.01340161827
    204 55 89 24
    (by norm_num) (by norm_num) (by norm_num) (by norm_num) (by norm_num)
    (by norm_num) (by norm_num) (by norm_num) (by norm_num) (by norm_num)
    (by norm_num) (by norm_num) (by norm_num) (by norm_num) (by norm_num)
    (by norm_num) (by norm_num) (by norm_num) (by norm_num) (by norm_num)
    (by norm_num) (by norm_num) (by norm_num) (by norm_num) (by norm_num)
    (by norm_num) (by norm_num) (by norm_num) (by norm_num) (by norm_num)

/-- C4 bisection evaluation 9: height `170.99501953125` mm. -/
theorem c4_s9 :
    ∃ d, (calcRectNums 300 170.99501953125 0.2 20 50 .galvanisedSteel).dp_per_m =
      Flt.fin d ∧ (0.935770354044 : ℝ) ≤ d ∧ d ≤ 0.938776843284 :=
  c4_eval 170.99501953125 ((5252967 : ℝ) / 102400000) ((1750989 : ℝ) / 8038315) ((20480000 : ℝ) / 5252967) ((1607663 : ℝ) / 8638212400)
    0.00007235123745 0.00007235123746 56147.6337441 56147.633752
    0.000195241545356 0.000195241545384 0.935770354044 0.938776843284
    26 7 89 24
    (by norm_num) (by norm_num) (by norm_num) (by norm_num) (by norm_num)
    (by norm_num) (by norm_num) (by norm_num) (by norm_num) (by norm_num)
    (by norm_num) (by norm_num) (by norm_num) (by norm_num) (by norm_num)
    (by norm_num) (by norm_num) (by norm_num) (by norm_num) (by norm_num)
    (by norm_num) (by norm_num) (by norm_num) (by norm_num) (by norm_num)
    (by norm_num) (by norm_num) (by norm_num) (by norm_num) (by norm_num)

/-- C4 bisection evaluation 10: height `168.553662109375` mm. -/
theorem c4_s10 :
    ∃ d, (calcRectNums 300 168.553662109375 0.2 20 50 .galvanisedSteel).dp_per_m =
      Flt.fin d ∧ (0.974375672311 : ℝ) ≤ d ∧ d ≤ 0.97508212564 :=
  c4_eval 168.553662109375 ((10355937 : ℝ) / 204800000) ((10355937 : ℝ) / 47979895) ((40960000 : ℝ) / 10355937) ((9595979 : ℝ) / 51089289200)
    0.0000730925251 0.00007309252511 56440.1860246 56440.1860325
    0.000195345842904 0.000195345842933 0.974375672311 0.97508212564
    115 31 89 24
    (by norm_num) (by norm_num) (by norm_num) (by norm_num) (by norm_num)
    (by norm_num) (by norm_num) (by norm_num) (by norm_num) (by norm_num)
    (by norm_num) (by norm_num) (by norm_num) (by norm_num) (by norm_num)
    (by norm_num) (by norm_num) (by norm_num) (by norm_num) (by norm_num)
    (by norm_num) (by norm_num) (by norm_num) (by norm_num) (by norm_num)
    (by norm_num) (by norm_num) (by norm_num) (by norm_num) (by norm_num)

/-- C4 bisection evaluation 11: height `167.3329833984375` mm. -/
theorem c4_s11 :
    ∃ d, (calcRectNums 300 167.3329833984375 0.2 20 50 .galvanisedSteel).dp_per_m =
      Flt.fin d ∧ (0.993575289812 : ℝ) ≤ d ∧ d ≤ 0.993981286537 :=
  c4_eval 167.3329833984375 ((20561877 : ℝ) / 409600000) ((6853959 : ℝ) / 31903265) ((81920000 : ℝ) / 20561877) ((6380653 : ℝ) / 33812864400)
    0.00007347156862 0.00007347156863 56587.6083893 56587.6083972
    0.000195406391374 0.000195406391402 0.993575289812 0.993981286537
    204 55 89 24
    (by norm_num) (by norm_num) (by norm_num) (by norm_num) (by norm_num)
    (by norm_num) (by norm_num) (by norm_num) (by norm_num) (by norm_num)
    (by norm_num) (by norm_num) (by norm_num) (by norm_num) (by norm_num)
    (by norm_num) (by norm_num) (by norm_num) (by norm_num) (by norm_num)
    (by norm_num) (by norm_num) (by norm_num) (by norm_num) (by norm_num)
    (by norm_num) (by norm_num) (by norm_num) (by norm_num) (by norm_num)

/-- C4 bisection evaluation 12: height `166.72264404296875` mm. -/
theorem c4_s12 :
    ∃ d, (calcRectNums 300 166.72264404296875 0.2 20 50 .galvanisedSteel).dp_per_m =
      Flt.fin d ∧ (1.00321522792 : ℝ) ≤ d ∧ d ≤ 1.00328863087 :=
  c4_eval 166.72264404296875 ((40973757 : ℝ) / 819200000) ((40973757 : ℝ) / 191169595) ((163840000 : ℝ) / 40973757) ((38233919 : ℝ) / 202137201200)
    0.00007366324561 0.00007366324562 56661.6087509 56661.6087588
    0.000195438820838 0.000195438820866 1.00321522792 1.00328863087
    204 55 497 134
    (by norm_num) (by norm_num) (by norm_num) (by norm_num) (by norm_num)
    (by norm_num) (by norm_num) (by norm_num) (by norm_num) (by norm_num)
    (by norm_num) (by norm_num) (by norm_num) (by norm_num) (by norm_num)
    (by norm_num) (by norm_num) (by norm_num) (by norm_num) (by norm_num)
    (by norm_num) (by norm_num) (by norm_num) (by norm_num) (by norm_num)
    (by norm_num) (by norm_num) (by norm_num) (by norm_num) (by norm_num)

/-- C4 bisection evaluation 13: height `167.027813720703125` mm. -/
theorem c4_s13 :
    ∃ d, (calcRectNums 300 167.027813720703125 0.2 20 50 .galvanisedSteel).dp_per_m =
      Flt.fin d ∧ (0.998378838096 : ℝ) ≤ d ∧ d ≤ 0.998418954257 :=
  c4_eval 167.027813720703125 ((82097511 : ℝ) / 1638400000) ((82097511 : ℝ) / 382589185) ((327680000 : ℝ) / 82097511) ((76517837 : ℝ) / 405014387600)
    0.00007356722583 0.00007356722584 56624.5843931 56624.584401
    0.000195422424821 0.000195422424849 0.998378838096 0.998418954257
    204 55 905 244
    (by norm_num) (by norm_num) (by norm_num) (by norm_num) (by norm_num)
    (by norm_num) (by norm_num) (by norm_num) (by norm_num) (by norm_num)
    (by norm_num) (by norm_num) (by norm_num) (by norm_num) (by norm_num)
    (by norm_num) (by norm_num) (by norm_num) (by norm_num) (by norm_num)
    (by norm_num) (by norm_num) (by norm_num) (by norm_num) (by norm_num)
    (by norm_num) (by norm_num) (by norm_num) (by norm_num) (by norm_num)

/-- C4 bisection evaluation 14: height `166.8752288818359375` mm. -/
theorem c4_s14 :
    ∃ d, (calcRectNums 300 166.8752288818359375 0.2 20 50 .galvanisedSteel).dp_per_m =
      Flt.fin d ∧ (1.00079290985 : ℝ) ≤ d ∧ d ≤ 1.0008448257 :=
  c4_eval 166.8752288818359375 ((6561801 : ℝ) / 131072000) ((2187267 : ℝ) / 10199045) ((26214400 : ℝ) / 6561801) ((2039809 : ℝ) / 10790517200)
    0.00007361519027 0.00007361519028 56643.0905218 56643.0905297
    0.00019543057738 0.000195430577408 1.00079290985 1.0008448257
    204 55 701 189
    (by norm_num) (by norm_num) (by norm_num) (by norm_num) (by norm_num)
    (by norm_num) (by norm_num) (by norm_num) (by norm_num) (by norm_num)
    (by norm_num) (by norm_num) (by norm_num) (by norm_num) (by norm_num)
    (by norm_num) (by norm_num) (by norm_num) (by norm_num) (by norm_num)
    (by norm_num) (by norm_num) (by norm_num) (by norm_num) (by norm_num)
    (by norm_num) (by norm_num) (by norm_num) (by norm_num) (by norm_num)

/-- C4 bisection evaluation 15: height `166.95152130126953125` mm. -/
theorem c4_s15 :
    ∃ d, (calcRectNums 300 166.95152130126953125 0.2 20 50 .galvanisedSteel).dp_per_m =
      Flt.fin d ∧ (0.999624451979 : ℝ) ≤ d ∧ d ≤ 0.999625010062 :=
  c4_eval 166.95152130126953125 ((328240047 : ℝ) / 6553600000) ((328240047 : ℝ) / 1530106745) ((1310720000 : ℝ) / 328240047) ((306021349 : ℝ) / 1619317565200)
    0.0000735911967 0.00007359119671 56633.8359456 56633.8359536
    0.00019542648975 0.000195426489779 0.999624451979 0.999625010062
    14684 3959 905 244
    (by norm_num) (by norm_num) (by norm_num) (by norm_num) (by norm_num)
    (by norm_num) (by norm_num) (by norm_num) (by norm_num) (by norm_num)
    (by norm_num) (by norm_num) (by norm_num) (by norm_num) (by norm_num)
    (by norm_num) (by norm_num) (by norm_num) (by norm_num) (by norm_num)
    (by norm_num) (by norm_num) (by norm_num) (by norm_num) (by norm_num)
    (by norm_num) (by norm_num) (by norm_num) (by norm_num) (by norm_num)

/-- C4 bisection evaluation 16: height `166.913375091552734375` mm. -/
theorem c4_s16 :
    ∃ d, (calcRectNums 300 166.913375091552734375 0.2 20 50 .galvanisedSteel).dp_per_m =
      Flt.fin d ∧ (1.00022880903 : ℝ) ≤ d ∧ d ≤ 1.00024050473 :=
  c4_eval 166.913375091552734375 ((656330097 : ℝ) / 13107200000) ((656330097 : ℝ) / 3059963495) ((2621440000 : ℝ) / 656330097) ((611992699 : ℝ) / 3237895145200)
    0.00007360319065 0.00007360319066 56638.4628557 56638.4628636
    0.00019542853073 0.000195428530758 1.00022880903 1.00024050473
    905 244 701 189
    (by norm_num) (by norm_num) (by norm_num) (by norm_num) (by norm_num)
    (by norm_num) (by norm_num) (by norm_num) (by norm_num) (by norm_num)
    (by norm_num) (by norm_num) (by norm_num) (by norm_num) (by norm_num)
    (by norm_num) (by norm_num) (by norm_num) (by norm_num) (by norm_num)
    (by norm_num) (by norm_num) (by norm_num) (by norm_num) (by norm_num)
    (by norm_num) (by norm_num) (by norm_num) (by norm_num) (by norm_num)

/-- C4 bisection evaluation 17: height `166.9324481964111328125` mm. -/
theorem c4_s17 :
    ∃ d, (calcRectNums 300 166.9324481964111328125 0.2 20 50 .galvanisedSteel).dp_per_m =
      Flt.fin d ∧ (0.999926845183 : ℝ) ≤ d ∧ d ≤ 0.999928010151 :=
  c4_eval 166.9324481964111328125 ((1312810191 : ℝ) / 26214400000) ((145867799 : ℝ) / 680019665) ((5242880000 : ℝ) / 1312810191) ((408011799 : ℝ) / 2158843425200)
    0.00007359719296 0.00007359719297 56636.1493062 56636.1493141
    0.000195427509525 0.000195427509553 0.999926845183 0.999928010151
    905 244 7036 1897
    (by norm_num) (by norm_num) (by norm_num) (by norm_num) (by norm_num)
    (by norm_num) (by norm_num) (by norm_num) (by norm_num) (by norm_num)
    (by norm_num) (by norm_num) (by norm_num) (by norm_num) (by norm_num)
    (by norm_num) (by norm_num) (by norm_num) (by norm_num) (by norm_num)
    (by norm_num) (by norm_num) (by norm_num) (by norm_num) (by norm_num)
    (by norm_num) (by norm_num) (by norm_num) (by norm_num) (by norm_num)

/-- C4 chain, round 17 of the bisection. -/
theorem c4_chain17 (best : Option (ℝ × ℝ)) :
    ∃ d, mdLoop true 0.3 0.2 1 20 50 .galvanisedSteel 43 0.166913375091552734375 0.16695152130126953125
      best = some (0.1669324481964111328125, d) ∧
      (calcRectNums 300 166.9324481964111328125 0.2 20 50 .galvanisedSteel).dp_per_m =
        Flt.fin d ∧ (0.999926845183 : ℝ) ≤ d ∧ d ≤ 0.999928010151 := by
  obtain ⟨d, hd, hdl, hdh⟩ := c4_s17
  show ∃ d, mdLoop true 0.3 0.2 1 20 50 .galvanisedSteel (42 + 1) 0.166913375091552734375
    0.16695152130126953125 best = some (0.1669324481964111328125, d) ∧
      (calcRectNums 300 166.9324481964111328125 0.2 20 50 .galvanisedSteel).dp_per_m =
        Flt.fin d ∧ (0.999926845183 : ℝ) ≤ d ∧ d ≤ 0.999928010151
  rw [mdLoop.eq_def]
  simp only
  rw [show (0.5 * (0.166913375091552734375 + 0.16695152130126953125) : ℝ) = 0.1669324481964111328125 by norm_num]
  simp only [if_true]
  rw [show mToMm (0.3 : ℝ) = 300 by norm_num [mToMm]]
  rw [show mToMm (0.1669324481964111328125 : ℝ) = 166.9324481964111328125 by norm_num [mToMm]]
  rw [hd]
  simp only
  rw [if_pos (by
    rw [abs_of_nonpos (by linarith only [hdh] : d - 1 ≤ 0),
      show max (1 : ℝ) 1e-6 = 1 by norm_num, div_one]
    linarith only [hdl])]
  exact ⟨d, rfl, rfl, hdl, hdh⟩

/-- C4 chain, round 16 of the bisection. -/
theorem c4_chain16 (best : Option (ℝ × ℝ)) :
    ∃ d, mdLoop true 0.3 0.2 1 20 50 .galvanisedSteel 44 0.1668752288818359375 0.16695152130126953125
      best = some (0.1669324481964111328125, d) ∧
      (calcRectNums 300 166.9324481964111328125 0.2 20 50 .galvanisedSteel).dp_per_m =
        Flt.fin d ∧ (0.999926845183 : ℝ) ≤ d ∧ d ≤ 0.999928010151 := by
  obtain ⟨d, hd, hdl, hdh⟩ := c4_s16
  show ∃ d, mdLoop true 0.3 0.2 1 20 50 .galvanisedSteel (43 + 1) 0.1668752288818359375
    0.16695152130126953125 best = some (0.1669324481964111328125, d) ∧
      (calcRectNums 300 166.9324481964111328125 0.2 20 50 .galvanisedSteel).dp_per_m =
        Flt.fin d ∧ (0.999926845183 : ℝ) ≤ d ∧ d ≤ 0.999928010151
  rw [mdLoop.eq_def]
  simp only
  rw [show (0.5 * (0.1668752288818359375 + 0.16695152130126953125) : ℝ) = 0.166913375091552734375 by norm_num]
  simp only [if_true]
  rw [show mToMm (0.3 : ℝ) = 300 by norm_num [mToMm]]
  rw [show mToMm (0.166913375091552734375 : ℝ) = 166.913375091552734375 by norm_num [mToMm]]
  rw [hd]
  simp only
  rw [if_neg (by
    rw [abs_of_nonneg (by linarith only [hdl] : (0 : ℝ) ≤ d - 1),
      show max (1 : ℝ) 1e-6 = 1 by norm_num, div_one]
    push_neg
    linarith only [hdl])]
  have hbr : (d > (1 : ℝ)) = True := eq_true (by linarith only [hdl])
  simp only [hbr, if_true]
  exact c4_chain17 (some (0.166913375091552734375, d))

/-- C4 chain, round 15 of the bisection. -/
theorem c4_chain15 (best : Option (ℝ × ℝ)) :
    ∃ d, mdLoop true 0.3 0.2 1 20 50 .galvanisedSteel 45 0.1668752288818359375 0.167027813720703125
      best = some (0.1669324481964111328125, d) ∧
      (calcRectNums 300 166.9324481964111328125 0.2 20 50 .galvanisedSteel).dp_per_m =
        Flt.fin d ∧ (0.999926845183 : ℝ) ≤ d ∧ d ≤ 0.999928010151 := by
  obtain ⟨d, hd, hdl, hdh⟩ := c4_s15
  show ∃ d, mdLoop true 0.3 0.2 1 20 50 .galvanisedSteel (44 + 1) 0.1668752288818359375
    0.167027813720703125 best = some (0.1669324481964111328125, d) ∧
      (calcRectNums 300 166.9324481964111328125 0.2 20 50 .galvanisedSteel).dp_per_m =
        Flt.fin d ∧ (0.999926845183 : ℝ) ≤ d ∧ d ≤ 0.999928010151
  rw [mdLoop.eq_def]
  simp only
  rw [show (0.5 * (0.1668752288818359375 + 0.167027813720703125) : ℝ) = 0.16695152130126953125 by norm_num]
  simp only [if_true]
  rw [show mToMm (0.3 : ℝ) = 300 by norm_num [mToMm]]
  rw [show mToMm (0.16695152130126953125 : ℝ) = 166.95152130126953125 by norm_num [mToMm]]
  rw [hd]
  simp only
  rw [if_neg (by
    rw [abs_of_nonpos (by linarith only [hdh] : d - 1 ≤ 0),
      show max (1 : ℝ) 1e-6 = 1 by norm_num, div_one]
    push_neg
    linarith only [hdh])]
  have hbr : (d > (1 : ℝ)) = False := eq_false (not_lt.mpr (by linarith only [hdh]))
  simp only [hbr, if_false]
  exact c4_chain16 (some (0.16695152130126953125, d))

/-- C4 chain, round 14 of the bisection. -/
theorem c4_chain14 (best : Option (ℝ × ℝ)) :
    ∃ d, mdLoop true 0.3 0.2 1 20 50 .galvanisedSteel 46 0.16672264404296875 0.167027813720703125
      best = some (0.1669324481964111328125, d) ∧
      (calcRectNums 300 166.9324481964111328125 0.2 20 50 .galvanisedSteel).dp_per_m =
        Flt.fin d ∧ (0.999926845183 : ℝ) ≤ d ∧ d ≤ 0.999928010151 := by
  obtain ⟨d, hd, hdl, hdh⟩ := c4_s14
  show ∃ d, mdLoop true 0.3 0.2 1 20 50 .galvanisedSteel (45 + 1) 0.16672264404296875
    0.167027813720703125 best = some (0.1669324481964111328125, d) ∧
      (calcRectNums 300 166.9324481964111328125 0.2 20 50 .galvanisedSteel).dp_per_m =
        Flt.fin d ∧ (0.999926845183 : ℝ) ≤ d ∧ d ≤ 0.999928010151
  rw [mdLoop.eq_def]
  simp only
  rw [show (0.5 * (0.16672264404296875 + 0.167027813720703125) : ℝ) = 0.1668752288818359375 by norm_num]
  simp only [if_true]
  rw [show mToMm (0.3 : ℝ) = 300 by norm_num [mToMm]]
  rw [show mToMm (0.1668752288818359375 : ℝ) = 166.8752288818359375 by norm_num [mToMm]]
  rw [hd]
  simp only
  rw [if_neg (by
    rw [abs_of_nonneg (by linarith only [hdl] : (0 : ℝ) ≤ d - 1),
      show max (1 : ℝ) 1e-6 = 1 by norm_num, div_one]
    push_neg
    linarith only [hdl])]
  have hbr : (d > (1 : ℝ)) = True := eq_true (by linarith only [hdl])
  simp only [hbr, if_true]
  exact c4_chain15 (some (0.1668752288818359375, d))

/-- C4 chain, round 13 of the bisection. -/
theorem c4_chain13 (best : Option (ℝ × ℝ)) :
    ∃ d, mdLoop true 0.3 0.2 1 20 50 .galvanisedSteel 47 0.16672264404296875 0.1673329833984375
      best = some (0.1669324481964111328125, d) ∧
      (calcRectNums 300 166.9324481964111328125 0.2 20 50 .galvanisedSteel).dp_per_m =
        Flt.fin d ∧ (0.999926845183 : ℝ) ≤ d ∧ d ≤ 0.999928010151 := by
  obtain ⟨d, hd, hdl, hdh⟩ := c4_s13
  show ∃ d, mdLoop true 0.3 0.2 1 20 50 .galvanisedSteel (46 + 1) 0.16672264404296875
    0.1673329833984375 best = some (0.1669324481964111328125, d) ∧
      (calcRectNums 300 166.9324481964111328125 0.2 20 50 .galvanisedSteel).dp_per_m =
        Flt.fin d ∧ (0.999926845183 : ℝ) ≤ d ∧ d ≤ 0.999928010151
  rw [mdLoop.eq_def]
  simp only
  rw [show (0.5 * (0.16672264404296875 + 0.1673329833984375) : ℝ) = 0.167027813720703125 by norm_num]
  simp only [if_true]
  rw [show mToMm (0.3 : ℝ) = 300 by norm_num [mToMm]]
  rw [show mToMm (0.167027813720703125 : ℝ) = 167.027813720703125 by norm_num [mToMm]]
  rw [hd]
  simp only
  rw [if_neg (by
    rw [abs_of_nonpos (by linarith only [hdh] : d - 1 ≤ 0),
      show max (1 : ℝ) 1e-6 = 1 by norm_num, div_one]
    push_neg
    linarith only [hdh])]
  have hbr : (d > (1 : ℝ)) = False := eq_false (not_lt.mpr (by linarith only [hdh]))
  simp only [hbr, if_false]
  exact c4_chain14 (some (0.167027813720703125, d))

/-- C4 chain, round 12 of the bisection. -/
theorem c4_chain12 (best : Option (ℝ × ℝ)) :
    ∃ d, mdLoop true 0.3 0.2 1 20 50 .galvanisedSteel 48 0.1661123046875 0.1673329833984375
      best = some (0.1669324481964111328125, d) ∧
      (calcRectNums 300 166.9324481964111328125 0.2 20 50 .galvanisedSteel).dp_per_m =
        Flt.fin d ∧ (0.999926845183 : ℝ) ≤ d ∧ d ≤ 0.999928010151 := by
  obtain ⟨d, hd, hdl, hdh⟩ := c4_s12
  show ∃ d, mdLoop true 0.3 0.2 1 20 50 .galvanisedSteel (47 + 1) 0.1661123046875
    0.1673329833984375 best = some (0.1669324481964111328125, d) ∧
      (calcRectNums 300 166.9324481964111328125 0.2 20 50 .galvanisedSteel).dp_per_m =
        Flt.fin d ∧ (0.999926845183 : ℝ) ≤ d ∧ d ≤ 0.999928010151
  rw [mdLoop.eq_def]
  simp only
  rw [show (0.5 * (0.1661123046875 + 0.1673329833984375) : ℝ) = 0.16672264404296875 by norm_num]
  simp only [if_true]
  rw [show mToMm (0.3 : ℝ) = 300 by norm_num [mToMm]]
  rw [show mToMm (0.16672264404296875 : ℝ) = 166.72264404296875 by norm_num [mToMm]]
  rw [hd]
  simp only
  rw [if_neg (by
    rw [abs_of_nonneg (by linarith only [hdl] : (0 : ℝ) ≤ d - 1),
      show max (1 : ℝ) 1e-6 = 1 by norm_num, div_one]
    push_neg
    linarith only [hdl])]
  have hbr : (d > (1 : ℝ)) = True := eq_true (by linarith only [hdl])
  simp only [hbr, if_true]
  exact c4_chain13 (some (0.16672264404296875, d))

/-- C4 chain, round 11 of the bisection. -/
theorem c4_chain11 (best : Option (ℝ × ℝ)) :
    ∃ d, mdLoop true 0.3 0.2 1 20 50 .galvanisedSteel 49 0.1661123046875 0.168553662109375
      best = some (0.1669324481964111328125, d) ∧
      (calcRectNums 300 166.9324481964111328125 0.2 20 50 .galvanisedSteel).dp_per_m =
        Flt.fin d ∧ (0.999926845183 : ℝ) ≤ d ∧ d ≤ 0.999928010151 := by
  obtain ⟨d, hd, hdl, hdh⟩ := c4_s11
  show ∃ d, mdLoop true 0.3 0.2 1 20 50 .galvanisedSteel (48 + 1) 0.1661123046875
    0.168553662109375 best = some (0.1669324481964111328125, d) ∧
      (calcRectNums 300 166.9324481964111328125 0.2 20 50 .galvanisedSteel).dp_per_m =
        Flt.fin d ∧ (0.999926845183 : ℝ) ≤ d ∧ d ≤ 0.999928010151
  rw [mdLoop.eq_def]
  simp only
  rw [show (0.5 * (0.1661123046875 + 0.168553662109375) : ℝ) = 0.1673329833984375 by norm_num]
  simp only [if_true]
  rw [show mToMm (0.3 : ℝ) = 300 by norm_num [mToMm]]
  rw [show mToMm (0.1673329833984375 : ℝ) = 167.3329833984375 by norm_num [mToMm]]
  rw [hd]
  simp only
  rw [if_neg (by
    rw [abs_of_nonpos (by linarith only [hdh] : d - 1 ≤ 0),
      show max (1 : ℝ) 1e-6 = 1 by norm_num, div_one]
    push_neg
    linarith only [hdh])]
  have hbr : (d > (1 : ℝ)) = False := eq_false (not_lt.mpr (by linarith only [hdh]))
  simp only [hbr, if_false]
  exact c4_chain12 (some (0.1673329833984375, d))

/-- C4 chain, round 10 of the bisection. -/
theorem c4_chain10 (best : Option (ℝ × ℝ)) :
    ∃ d, mdLoop true 0.3 0.2 1 20 50 .galvanisedSteel 50 0.1661123046875 0.17099501953125
      best = some (0.1669324481964111328125, d) ∧
      (calcRectNums 300 166.9324481964111328125 0.2 20 50 .galvanisedSteel).dp_per_m =
        Flt.fin d ∧ (0.999926845183 : ℝ) ≤ d ∧ d ≤ 0.999928010151 := by
  obtain ⟨d, hd, hdl, hdh⟩ := c4_s10
  show ∃ d, mdLoop true 0.3 0.2 1 20 50 .galvanisedSteel (49 + 1) 0.1661123046875
    0.17099501953125 best = some (0.1669324481964111328125, d) ∧
      (calcRectNums 300 166.9324481964111328125 0.2 20 50 .galvanisedSteel).dp_per_m =
        Flt.fin d ∧ (0.999926845183 : ℝ) ≤ d ∧ d ≤ 0.999928010151
  rw [mdLoop.eq_def]
  simp only
  rw [show (0.5 * (0.1661123046875 + 0.17099501953125) : ℝ) = 0.168553662109375 by norm_num]
  simp only [if_true]
  rw [show mToMm (0.3 : ℝ) = 300 by norm_num [mToMm]]
  rw [show mToMm (0.168553662109375 : ℝ) = 168.553662109375 by norm_num [mToMm]]
  rw [hd]
  simp only
  rw [if_neg (by
    rw [abs_of_nonpos (by linarith only [hdh] : d - 1 ≤ 0),
      show max (1 : ℝ) 1e-6 = 1 by norm_num, div_one]
    push_neg
    linarith only [hdh])]
  have hbr : (d > (1 : ℝ)) = False := eq_false (not_lt.mpr (by linarith only [hdh]))
  simp only [hbr, if_false]
  exact c4_chain11 (some (0.168553662109375, d))

/-- C4 chain, round 9 of the bisection. -/
theorem c4_chain9 (best : Option (ℝ × ℝ)) :
    ∃ d, mdLoop true 0.3 0.2 1 20 50 .galvanisedSteel 51 0.1661123046875 0.175877734375
      best = some (0.1669324481964111328125, d) ∧
      (calcRectNums 300 166.9324481964111328125 0.2 20 50 .galvanisedSteel).dp_per_m =
        Flt.fin d ∧ (0.999926845183 : ℝ) ≤ d ∧ d ≤ 0.999928010151 := by
  obtain ⟨d, hd, hdl, hdh⟩ := c4_s9
  show ∃ d, mdLoop true 0.3 0.2 1 20 50 .galvanisedSteel (50 + 1) 0.1661123046875
    0.175877734375 best = some (0.1669324481964111328125, d) ∧
      (calcRectNums 300 166.9324481964111328125 0.2 20 50 .galvanisedSteel).dp_per_m =
        Flt.fin d ∧ (0.999926845183 : ℝ) ≤ d ∧ d ≤ 0.999928010151
  rw [mdLoop.eq_def]
  simp only
  rw [show (0.5 * (0.1661123046875 + 0.175877734375) : ℝ) = 0.17099501953125 by norm_num]
  simp only [if_true]
  rw [show mToMm (0.3 : ℝ) = 300 by norm_num [mToMm]]
  rw [show mToMm (0.17099501953125 : ℝ) = 170.99501953125 by norm_num [mToMm]]
  rw [hd]
  simp only
  rw [if_neg (by
    rw [abs_of_nonpos (by linarith only [hdh] : d - 1 ≤ 0),
      show max (1 : ℝ) 1e-6 = 1 by norm_num, div_one]
    push_neg
    linarith only [hdh])]
  have hbr : (d > (1 : ℝ)) = False := eq_false (not_lt.mpr (by linarith only [hdh]))
  simp only [hbr, if_false]
  exact c4_chain10 (some (0.17099501953125, d))

/-- C4 chain, round 8 of the bisection. -/
theorem c4_chain8 (best : Option (ℝ × ℝ)) :
    ∃ d, mdLoop true 0.3 0.2 1 20 50 .galvanisedSteel 52 0.156346875 0.175877734375
      best = some (0.1669324481964111328125, d) ∧
      (calcRectNums 300 166.9324481964111328125 0.2 20 50 .galvanisedSteel).dp_per_m =
        Flt.fin d ∧ (0.999926845183 : ℝ) ≤ d ∧ d ≤ 0.999928010151 := by
  obtain ⟨d, hd, hdl, hdh⟩ := c4_s8
  show ∃ d, mdLoop true 0.3 0.2 1 20 50 .galvanisedSteel (51 + 1) 0.156346875
    0.175877734375 best = some (0.1669324481964111328125, d) ∧
      (calcRectNums 300 166.9324481964111328125 0.2 20 50 .galvanisedSteel).dp_per_m =
        Flt.fin d ∧ (0.999926845183 : ℝ) ≤ d ∧ d ≤ 0.999928010151
  rw [mdLoop.eq_def]
  simp only
  rw [show (0.5 * (0.156346875 + 0.175877734375) : ℝ) = 0.1661123046875 by norm_num]
  simp only [if_true]
  rw [show mToMm (0.3 : ℝ) = 300 by norm_num [mToMm]]
  rw [show mToMm (0.1661123046875 : ℝ) = 166.1123046875 by norm_num [mToMm]]
  rw [hd]
  simp only
  rw [if_neg (by
    rw [abs_of_nonneg (by linarith only [hdl] : (0 : ℝ) ≤ d - 1),
      show max (1 : ℝ) 1e-6 = 1 by norm_num, div_one]
    push_neg
    linarith only [hdl])]
  have hbr : (d > (1 : ℝ)) = True := eq_true (by linarith only [hdl])
  simp only [hbr, if_true]
  exact c4_chain9 (some (0.1661123046875, d))

/-- C4 chain, round 7 of the bisection. -/
theorem c4_chain7 (best : Option (ℝ × ℝ)) :
    ∃ d, mdLoop true 0.3 0.2 1 20 50 .galvanisedSteel 53 0.156346875 0.19540859375
      best = some (0.1669324481964111328125, d) ∧
      (calcRectNums 300 166.9324481964111328125 0.2 20 50 .galvanisedSteel).dp_per_m =
        Flt.fin d ∧ (0.999926845183 : ℝ) ≤ d ∧ d ≤ 0.999928010151 := by
  obtain ⟨d, hd, hdl, hdh⟩ := c4_s7
  show ∃ d, mdLoop true 0.3 0.2 1 20 50 .galvanisedSteel (52 + 1) 0.156346875
    0.19540859375 best = some (0.1669324481964111328125, d) ∧
      (calcRectNums 300 166.9324481964111328125 0.2 20 50 .galvanisedSteel).dp_per_m =
        Flt.fin d ∧ (0.999926845183 : ℝ) ≤ d ∧ d ≤ 0.999928010151
  rw [mdLoop.eq_def]
  simp only
  rw [show (0.5 * (0.156346875 + 0.19540859375) : ℝ) = 0.175877734375 by norm_num]
  simp only [if_true]
  rw [show mToMm (0.3 : ℝ) = 300 by norm_num [mToMm]]
  rw [show mToMm (0.175877734375 : ℝ) = 175.877734375 by norm_num [mToMm]]
  rw [hd]
  simp only
  rw [if_neg (by
    rw [abs_of_nonpos (by linarith only [hdh] : d - 1 ≤ 0),
      show max (1 : ℝ) 1e-6 = 1 by norm_num, div_one]
    push_neg
    linarith only [hdh])]
  have hbr : (d > (1 : ℝ)) = False := eq_false (not_lt.mpr (by linarith only [hdh]))
  simp only [hbr, if_false]
  exact c4_chain8 (some (0.175877734375, d))

/-- C4 chain, round 6 of the bisection. -/
theorem c4_chain6 (best : Option (ℝ × ℝ)) :
    ∃ d, mdLoop true 0.3 0.2 1 20 50 .galvanisedSteel 54 0.156346875 0.2344703125
      best = some (0.1669324481964111328125, d) ∧
      (calcRectNums 300 166.9324481964111328125 0.2 20 50 .galvanisedSteel).dp_per_m =
        Flt.fin d ∧ (0.999926845183 : ℝ) ≤ d ∧ d ≤ 0.999928010151 := by
  obtain ⟨d, hd, hdl, hdh⟩ := c4_s6
  show ∃ d, mdLoop true 0.3 0.2 1 20 50 .galvanisedSteel (53 + 1) 0.156346875
    0.2344703125 best = some (0.1669324481964111328125, d) ∧
      (calcRectNums 300 166.9324481964111328125 0.2 20 50 .galvanisedSteel).dp_per_m =
        Flt.fin d ∧ (0.999926845183 : ℝ) ≤ d ∧ d ≤ 0.999928010151
  rw [mdLoop.eq_def]
  simp only
  rw [show (0.5 * (0.156346875 + 0.2344703125) : ℝ) = 0.19540859375 by norm_num]
  simp only [if_true]
  rw [show mToMm (0.3 : ℝ) = 300 by norm_num [mToMm]]
  rw [show mToMm (0.19540859375 : ℝ) = 195.40859375 by norm_num [mToMm]]
  rw [hd]
  simp only
  rw [if_neg (by
    rw [abs_of_nonpos (by linarith only [hdh] : d - 1 ≤ 0),
      show max (1 : ℝ) 1e-6 = 1 by norm_num, div_one]
    push_neg
    linarith only [hdh])]
  have hbr : (d > (1 : ℝ)) = False := eq_false (not_lt.mpr (by linarith only [hdh]))
  simp only [hbr, if_false]
  exact c4_chain7 (some (0.19540859375, d))

/-- C4 chain, round 5 of the bisection. -/
theorem c4_chain5 (best : Option (ℝ × ℝ)) :
    ∃ d, mdLoop true 0.3 0.2 1 20 50 .galvanisedSteel 55 0.156346875 0.31259375
      best = some (0.1669324481964111328125, d) ∧
      (calcRectNums 300 166.9324481964111328125 0.2 20 50 .galvanisedSteel).dp_per_m =
        Flt.fin d ∧ (0.999926845183 : ℝ) ≤ d ∧ d ≤ 0.999928010151 := by
  obtain ⟨d, hd, hdl, hdh⟩ := c4_s5
  show ∃ d, mdLoop true 0.3 0.2 1 20 50 .galvanisedSteel (54 + 1) 0.156346875
    0.31259375 best = some (0.1669324481964111328125, d) ∧
      (calcRectNums 300 166.9324481964111328125 0.2 20 50 .galvanisedSteel).dp_per_m =
        Flt.fin d ∧ (0.999926845183 : ℝ) ≤ d ∧ d ≤ 0.999928010151
  rw [mdLoop.eq_def]
  simp only
  rw [show (0.5 * (0.156346875 + 0.31259375) : ℝ) = 0.2344703125 by norm_num]
  simp only [if_true]
  rw [show mToMm (0.3 : ℝ) = 300 by norm_num [mToMm]]
  rw [show mToMm (0.2344703125 : ℝ) = 234.4703125 by norm_num [mToMm]]
  rw [hd]
  simp only
  rw [if_neg (by
    rw [abs_of_nonpos (by linarith only [hdh] : d - 1 ≤ 0),
      show max (1 : ℝ) 1e-6 = 1 by norm_num, div_one]
    push_neg
    linarith only [hdh])]
  have hbr : (d > (1 : ℝ)) = False := eq_false (not_lt.mpr (by linarith only [hdh]))
  simp only [hbr, if_false]
  exact c4_chain6 (some (0.2344703125, d))

/-- C4 chain, round 4 of the bisection. -/
theorem c4_chain4 (best : Option (ℝ × ℝ)) :
    ∃ d, mdLoop true 0.3 0.2 1 20 50 .galvanisedSteel 56 0.0001 0.31259375
      best = some (0.1669324481964111328125, d) ∧
      (calcRectNums 300 166.9324481964111328125 0.2 20 50 .galvanisedSteel).dp_per_m =
        Flt.fin d ∧ (0.999926845183 : ℝ) ≤ d ∧ d ≤ 0.999928010151 := by
  obtain ⟨d, hd, hdl, hdh⟩ := c4_s4
  show ∃ d, mdLoop true 0.3 0.2 1 20 50 .galvanisedSteel (55 + 1) 0.0001
    0.31259375 best = some (0.1669324481964111328125, d) ∧
      (calcRectNums 300 166.9324481964111328125 0.2 20 50 .galvanisedSteel).dp_per_m =
        Flt.fin d ∧ (0.999926845183 : ℝ) ≤ d ∧ d ≤ 0.999928010151
  rw [mdLoop.eq_def]
  simp only
  rw [show (0.5 * (0.0001 + 0.31259375) : ℝ) = 0.156346875 by norm_num]
  simp only [if_true]
  rw [show mToMm (0.3 : ℝ) = 300 by norm_num [mToMm]]
  rw [show mToMm (0.156346875 : ℝ) = 156.346875 by norm_num [mToMm]]
  rw [hd]
  simp only
  rw [if_neg (by
    rw [abs_of_nonneg (by linarith only [hdl] : (0 : ℝ) ≤ d - 1),
      show max (1 : ℝ) 1e-6 = 1 by norm_num, div_one]
    push_neg
    linarith only [hdl])]
  have hbr : (d > (1 : ℝ)) = True := eq_true (by linarith only [hdl])
  simp only [hbr, if_true]
  exact c4_chain5 (some (0.156346875, d))

/-- C4 chain, round 3 of the bisection. -/
theorem c4_chain3 (best : Option (ℝ × ℝ)) :
    ∃ d, mdLoop true 0.3 0.2 1 20 50 .galvanisedSteel 57 0.0001 0.6250875
      best = some (0.1669324481964111328125, d) ∧
      (calcRectNums 300 166.9324481964111328125 0.2 20 50 .galvanisedSteel).dp_per_m =
        Flt.fin d ∧ (0.999926845183 : ℝ) ≤ d ∧ d ≤ 0.999928010151 := by
  obtain ⟨d, hd, hdl, hdh⟩ := c4_s3
  show ∃ d, mdLoop true 0.3 0.2 1 20 50 .galvanisedSteel (56 + 1) 0.0001
    0.6250875 best = some (0.1669324481964111328125, d) ∧
      (calcRectNums 300 166.9324481964111328125 0.2 20 50 .galvanisedSteel).dp_per_m =
        Flt.fin d ∧ (0.999926845183 : ℝ) ≤ d ∧ d ≤ 0.999928010151
  rw [mdLoop.eq_def]
  simp only
  rw [show (0.5 * (0.0001 + 0.6250875) : ℝ) = 0.31259375 by norm_num]
  simp only [if_true]
  rw [show mToMm (0.3 : ℝ) = 300 by norm_num [mToMm]]
  rw [show mToMm (0.31259375 : ℝ) = 312.59375 by norm_num [mToMm]]
  rw [hd]
  simp only
  rw [if_neg (by
    rw [abs_of_nonpos (by linarith only [hdh] : d - 1 ≤ 0),
      show max (1 : ℝ) 1e-6 = 1 by norm_num, div_one]
    push_neg
    linarith only [hdh])]
  have hbr : (d > (1 : ℝ)) = False := eq_false (not_lt.mpr (by linarith only [hdh]))
  simp only [hbr, if_false]
  exact c4_chain4 (some (0.31259375, d))

/-- C4 chain, round 2 of the bisection. -/
theorem c4_chain2 (best : Option (ℝ × ℝ)) :
    ∃ d, mdLoop true 0.3 0.2 1 20 50 .galvanisedSteel 58 0.0001 1.250075
      best = some (0.1669324481964111328125, d) ∧
      (calcRectNums 300 166.9324481964111328125 0.2 20 50 .galvanisedSteel).dp_per_m =
        Flt.fin d ∧ (0.999926845183 : ℝ) ≤ d ∧ d ≤ 0.999928010151 := by
  obtain ⟨d, hd, hdl, hdh⟩ := c4_s2
  show ∃ d, mdLoop true 0.3 0.2 1 20 50 .galvanisedSteel (57 + 1) 0.0001
    1.250075 best = some (0.1669324481964111328125, d) ∧
      (calcRectNums 300 166.9324481964111328125 0.2 20 50 .galvanisedSteel).dp_per_m =
        Flt.fin d ∧ (0.999926845183 : ℝ) ≤ d ∧ d ≤ 0.999928010151
  rw [mdLoop.eq_def]
  simp only
  rw [show (0.5 * (0.0001 + 1.250075) : ℝ) = 0.6250875 by norm_num]
  simp only [if_true]
  rw [show mToMm (0.3 : ℝ) = 300 by norm_num [mToMm]]
  rw [show mToMm (0.6250875 : ℝ) = 625.0875 by norm_num [mToMm]]
  rw [hd]
  simp only
  rw [if_neg (by
    rw [abs_of_nonpos (by linarith only [hdh] : d - 1 ≤ 0),
      show max (1 : ℝ) 1e-6 = 1 by norm_num, div_one]
    push_neg
    linarith only [hdh])]
  have hbr : (d > (1 : ℝ)) = False := eq_false (not_lt.mpr (by linarith only [hdh]))
  simp only [hbr, if_false]
  exact c4_chain3 (some (0.6250875, d))

/-- C4 chain, round 1 of the bisection. -/
theorem c4_chain1 (best : Option (ℝ × ℝ)) :
    ∃ d, mdLoop true 0.3 0.2 1 20 50 .galvanisedSteel 59 0.0001 2.50005
      best = some (0.1669324481964111328125, d) ∧
      (calcRectNums 300 166.9324481964111328125 0.2 20 50 .galvanisedSteel).dp_per_m =
        Flt.fin d ∧ (0.999926845183 : ℝ) ≤ d ∧ d ≤ 0.999928010151 := by
  obtain ⟨d, hd, hdl, hdh⟩ := c4_s1
  show ∃ d, mdLoop true 0.3 0.2 1 20 50 .galvanisedSteel (58 + 1) 0.0001
    2.50005 best = some (0.1669324481964111328125, d) ∧
      (calcRectNums 300 166.9324481964111328125 0.2 20 50 .galvanisedSteel).dp_per_m =
        Flt.fin d ∧ (0.999926845183 : ℝ) ≤ d ∧ d ≤ 0.999928010151
  rw [mdLoop.eq_def]
  simp only
  rw [show (0.5 * (0.0001 + 2.50005) : ℝ) = 1.250075 by norm_num]
  simp only [if_true]
  rw [show mToMm (0.3 : ℝ) = 300 by norm_num [mToMm]]
  rw [show mToMm (1.250075 : ℝ) = 1250.075 by norm_num [mToMm]]
  rw [hd]
  simp only
  rw [if_neg (by
    rw [abs_of_nonpos (by linarith only [hdh] : d - 1 ≤ 0),
      show max (1 : ℝ) 1e-6 = 1 by norm_num, div_one]
    push_neg
    linarith only [hdh])]
  have hbr : (d > (1 : ℝ)) = False := eq_false (not_lt.mpr (by linarith only [hdh]))
  simp only [hbr, if_false]
  exact c4_chain2 (some (1.250075, d))

/-- C4 chain, round 0 of the bisection. -/
theorem c4_chain0 (best : Option (ℝ × ℝ)) :
    ∃ d, mdLoop true 0.3 0.2 1 20 50 .galvanisedSteel 60 1e-4 5.0
      best = some (0.1669324481964111328125, d) ∧
      (calcRectNums 300 166.9324481964111328125 0.2 20 50 .galvanisedSteel).dp_per_m =
        Flt.fin d ∧ (0.999926845183 : ℝ) ≤ d ∧ d ≤ 0.999928010151 := by
  obtain ⟨d, hd, hdl, hdh⟩ := c4_s0
  show ∃ d, mdLoop true 0.3 0.2 1 20 50 .galvanisedSteel (59 + 1) 1e-4
    5.0 best = some (0.1669324481964111328125, d) ∧
      (calcRectNums 300 166.9324481964111328125 0.2 20 50 .galvanisedSteel).dp_per_m =
        Flt.fin d ∧ (0.999926845183 : ℝ) ≤ d ∧ d ≤ 0.999928010151
  rw [mdLoop.eq_def]
  simp only
  rw [show (0.5 * (1e-4 + 5.0) : ℝ) = 2.50005 by norm_num]
  simp only [if_true]
  rw [show mToMm (0.3 : ℝ) = 300 by norm_num [mToMm]]
  rw [show mToMm (2.50005 : ℝ) = 2500.05 by norm_num [mToMm]]
  rw [hd]
  simp only
  rw [if_neg (by
    rw [abs_of_nonpos (by linarith only [hdh] : d - 1 ≤ 0),
      show max (1 : ℝ) 1e-6 = 1 by norm_num, div_one]
    push_neg
    linarith only [hdh])]
  have hbr : (d > (1 : ℝ)) = False := eq_false (not_lt.mpr (by linarith only [hdh]))
  simp only [hbr, if_false]
  exact c4_chain1 (some (2.50005, d))

/-- C4: for the well-posed input fixed width 300 mm, flow 0.2 m³/s, target
pressure drop 1 Pa/m, galvanised steel, 20 °C and 50 % RH,
`solveMissingDimension` returns a dimension, and re-evaluating the duct at
that solved dimension reproduces the target pressure drop within the
solver's relative tolerance `1e-4` (the run converges at bisection round 17
with `dp ∈ [0.999926845183, 0.999928010151]`). -/
theorem c4_round_trip :
    ∃ mm dp, solveMissingDimension true 300 0.2 1 20 50 .galvanisedSteel =
      some (mm, dp) ∧
      (calcRectNums 300 mm 0.2 20 50 .galvanisedSteel).dp_per_m = Flt.fin dp ∧
      |dp - 1| / max 1 1e-6 < 1e-4 := by
  obtain ⟨d, hmd, hev, hdl, hdh⟩ := c4_chain0 none
  simp only [solveMissingDimension]
  rw [if_neg (by norm_num [mmToM] :
    ¬ (mmToM 300 ≤ 0 ∨ (0.2 : ℝ) ≤ 0 ∨ (1 : ℝ) ≤ 0))]
  rw [show mmToM 300 = (0.3 : ℝ) by norm_num [mmToM]]
  rw [hmd]
  simp only [Option.map_some']
  refine ⟨mToMm 0.1669324481964111328125, d, rfl, ?_, ?_⟩
  · rw [show mToMm (0.1669324481964111328125 : ℝ) = 166.9324481964111328125 by norm_num [mToMm]]
    exact hev
  · rw [abs_of_nonpos (by linarith only [hdh] : d - 1 ≤ 0),
      show max (1 : ℝ) 1e-6 = 1 by norm_num, div_one]
    linarith only [hdl]

end Ductulator
